import Mathlib

/-!
# bbs-fw control core (`src/firmware/app.c`): embedding and verified properties

The per-tick decision pipeline `app_process` and the stateful limiters it composes are
embedded as pure functions over an explicit `State` record.  Every C global and every
function-local `static` of `app.c` is a field of `State`; every sensor / driver query
(`system_ms()`, `brake_is_activated()`, ...) is a field of `Inputs`, sampled once per call of
an entry point.  Build-time constants that live in headers outside `app.c`/`constants.h`
(`fwconfig.h`, `app.h`) are fields of `Config`.

Machine integers are `Nat` (unsigned) and `Int` (signed) with explicit reductions modulo
`2^8`, `2^16`, `2^32` where the C code converts or can wrap.  The target's `int` is 16 bits
wide (the code itself casts to `uint32_t` / uses `ul` suffixes before wide products).
-/

namespace BbsFw

/-! ## Machine-integer conversions -/

/-- Conversion to `uint8_t`. -/
def u8 (x : Int) : Nat := (x % 256).toNat

/-- Conversion to `uint16_t`. -/
def u16 (x : Int) : Nat := (x % 65536).toNat

/-- Conversion to `uint32_t`. -/
def u32 (x : Int) : Nat := (x % 4294967296).toNat

/-- Conversion to `int8_t` (two's complement truncation). -/
def i8 (x : Int) : Int := (x + 128) % 256 - 128

/-- Conversion to `int16_t` (two's complement truncation). -/
def i16 (x : Int) : Int := (x + 32768) % 65536 - 32768

/-! ## Helpers of `util.h` (header not part of the sources)

`MIN` and `MAX` are rendered by `min` and `max`. -/

/-- Modelled from the spec: the shared linear-interpolation helper (`MAP32` of `util.h`, which
is missing from the sources): `linear_map(x, in_min, in_max, out_min, out_max)`, computed in
signed integer arithmetic with C division (truncation toward zero).  The value is NOT clamped
to `[in_min, in_max]` (the spec records that out-of-range inputs are not checked).  For the
argument ranges occurring in `app.c` all intermediate values fit in 32 bits.  A zero divisor
(`in_min = in_max`) is undefined in C; here the quotient is then `0`, and no theorem below
relies on that case without saying so. -/
def MAP32 (x in_min in_max out_min out_max : Int) : Int :=
  Int.tdiv ((x - in_min) * (out_max - out_min)) (in_max - in_min) + out_min

/-- Modelled from the spec: the 16-bit variant of the linear-interpolation helper (`MAP16` of
`util.h`, missing from the sources); same formula as `MAP32`. -/
def MAP16 (x in_min in_max out_min out_max : Int) : Int :=
  Int.tdiv ((x - in_min) * (out_max - out_min)) (in_max - in_min) + out_min

/-- Modelled from the spec: the clamp primitive (`CLAMP` of `util.h`, missing from the
sources). -/
def CLAMP (x lo hi : Int) : Int :=
  if x < lo then lo else if x > hi then hi else x

/-- Modelled from the spec: the exponential-smoothing primitive (`EXPONENTIAL_FILTER` of
`util.h`, missing from the sources): the new filtered value is the weighted mean
`(value * (n - 1) + target) / n` with C division. -/
def EXPONENTIAL_FILTER (value target n : Int) : Int :=
  Int.tdiv (value * (n - 1) + target) n

/-! ## Constants of `constants.h` -/

def ASSIST_MODE_SELECT_OFF : Nat := 0x00
def ASSIST_MODE_SELECT_STANDARD : Nat := 0x01
def ASSIST_MODE_SELECT_LIGHTS : Nat := 0x02
def ASSIST_MODE_SELECT_PAS0_LIGHT : Nat := 0x03
def ASSIST_MODE_SELECT_PAS1_LIGHT : Nat := 0x04
def ASSIST_MODE_SELECT_PAS2_LIGHT : Nat := 0x05
def ASSIST_MODE_SELECT_PAS3_LIGHT : Nat := 0x06
def ASSIST_MODE_SELECT_PAS4_LIGHT : Nat := 0x07
def ASSIST_MODE_SELECT_PAS5_LIGHT : Nat := 0x08
def ASSIST_MODE_SELECT_PAS6_LIGHT : Nat := 0x09
def ASSIST_MODE_SELECT_PAS7_LIGHT : Nat := 0x0A
def ASSIST_MODE_SELECT_PAS8_LIGHT : Nat := 0x0B
def ASSIST_MODE_SELECT_PAS9_LIGHT : Nat := 0x0C
def ASSIST_MODE_SELECT_BRAKE_BOOT : Nat := 0x0D

def ASSIST_FLAG_CRUISE : Nat := 0x04
def ASSIST_FLAG_PAS_VARIABLE : Nat := 0x08
def ASSIST_FLAG_OVERRIDE_CADENCE : Nat := 0x20

def PAS_PULSES_REVOLUTION : Nat := 24

/-- `#define CRUISE_ENGAGE_PAS_PULSES PAS_PULSES_REVOLUTION / 2`. -/
def CRUISE_ENGAGE_PAS_PULSES : Nat := PAS_PULSES_REVOLUTION / 2

/-- `#define CRUISE_DISENGAGE_PAS_PULSES PAS_PULSES_REVOLUTION / 2`. -/
def CRUISE_DISENGAGE_PAS_PULSES : Nat := PAS_PULSES_REVOLUTION / 2

/-! ## Data model -/

/-- The fields of `assist_level_t` that `app.c` reads. -/
structure assist_level_t where
  flags : Nat
  max_cadence_percent : Nat
  max_pas_speed_kph : Nat
  target_power_watts : Nat
  max_throttle_speed_kph : Nat
  max_throttle_power_watts : Nat
deriving DecidableEq

/-- The values of `LIGHTS_MODE` that `app.c` distinguishes. -/
inductive lights_mode_t where
  | DEFAULT
  | DISABLED
  | ALWAYS_ON
  | BRAKE_LIGHT
  | DEFAULT_AND_BRAKE_LIGHT
deriving DecidableEq

/-- Build-time configuration: the macros of `fwconfig.h` / `app.h` / `motor.h` used by `app.c`
(`MOTOR_ERROR_*` are the bit masks of the motor status word), the per-level table
`assist_levels`, and the conversion `convert_wheel_speed_kph_to_rpm` (declared
in `app.c`, defined elsewhere).  All of them are parameters of the embedding.
`ASSIST_MODE_SELECT` takes one of the `ASSIST_MODE_SELECT_*` values of `constants.h`,
`ASSIST_0` .. `ASSIST_9` are the level numbers of `app.h`, and `SPEED_LIMIT_SPORT_SWITCH_KPH`
is `none` when the macro is not defined. -/
structure Config where
  USE_PUSH_WALK : Bool
  USE_SPEED_SENSOR : Bool
  USE_PRETENSION : Bool
  USE_PRETENSION_ONLY_IN_SPORT_MODE : Bool
  USE_SHIFT_SENSOR : Bool
  USE_TEMPERATURE_SENSOR : Bool
  LIGHTS_MODE : lights_mode_t
  ASSIST_MODE_SELECT : Nat
  ASSIST_0 : Nat
  ASSIST_1 : Nat
  ASSIST_2 : Nat
  ASSIST_3 : Nat
  ASSIST_4 : Nat
  ASSIST_5 : Nat
  ASSIST_6 : Nat
  ASSIST_7 : Nat
  ASSIST_8 : Nat
  ASSIST_9 : Nat
  ASSIST_PUSH : Nat
  ASSIST_STARTUP_LEVEL : Nat
  OPERATION_MODE_DEFAULT : Nat
  OPERATION_MODE_SPORT : Nat
  SPEED_LIMIT_SPORT_SWITCH_KPH : Option Nat
  MAX_CURRENT_AMPS : Nat
  CURRENT_RAMP_AMPS_S : Nat
  CURRENT_RAMP_DOWN_PERCENT_10MS : Nat
  LOW_CUT_OFF_V : Nat
  MAX_BATTERY_X100V : Nat
  BATTERY_EMPTY_OFFSET_PERCENT : Nat
  BATTERY_FULL_OFFSET_PERCENT : Nat
  LVC_RAMP_DOWN_OFFSET_PERCENT : Nat
  LVC_LOW_CURRENT_PERCENT : Nat
  MAX_TEMPERATURE : Int
  MAX_TEMPERATURE_RAMP_DOWN_INTERVAL : Int
  MAX_TEMPERATURE_LOW_CURRENT_PERCENT : Nat
  SHIFT_INTERRUPT_DURATION_MS : Nat
  SHIFT_INTERRUPT_CURRENT_THRESHOLD_PERCENT : Nat
  THROTTLE_START_PERCENT : Nat
  THROTTLE_CADENCE_OVERRIDE_PERCENT : Nat
  PAS_START_DELAY_PULSES : Nat
  PAS_KEEP_CURRENT_PERCENT : Nat
  PAS_KEEP_CURRENT_CADENCE_RPM : Nat
  MAX_CADENCE_RPM_X10 : Nat
  SPEED_LIMIT_RAMP_DOWN_INTERVAL_KPH : Nat
  PRETENSION_SPEED_CUTOFF_KPH : Nat
  WALK_MODE_SPEED_KPH : Nat
  MOTOR_ERROR_HALL_SENSOR : Nat
  MOTOR_ERROR_CURRENT_SENSE : Nat
  MOTOR_ERROR_POWER_RESET : Nat
  assist_levels : Nat → Nat → assist_level_t
  convert_wheel_speed_kph_to_rpm : Nat → Bool → Nat

/-- One sample of every sensor / driver query made by `app.c`.  Within one call of an entry
point every query returns the sampled value. -/
structure Inputs where
  system_ms : Nat
  throttle_percent : Nat
  throttle_ok : Bool
  brake_is_activated : Bool
  pas_is_pedaling_forwards : Bool
  pas_is_pedaling_backwards : Bool
  pas_get_pulse_counter : Nat
  pas_get_cadence_rpm_x10 : Nat
  speed_sensor_get_rpm_x10 : Nat
  motor_get_battery_voltage_x10 : Nat
  temperature_contr_x100 : Int
  temperature_motor_x100 : Int
  shift_sensor_is_activated : Bool
  eventlog_is_enabled : Bool
  motor_status : Nat
deriving DecidableEq

/-- The event kinds passed to `eventlog_write_data` by `app.c`. -/
inductive evt_t where
  | ASSIST_LEVEL
  | LIGHTS
  | OPERATION_MODE
  | WHEEL_SPEED_PPM
  | SPEED_LIMITING
  | TEMPERATURE
  | THERMAL_LIMITING
  | VOLTAGE
  | LVC_LIMITING
  | SHIFT_SENSOR
deriving DecidableEq

/-- The cached data of the selected assist level (`assist_level_data_t`). -/
structure assist_level_data_t where
  level : assist_level_t
  max_pas_wheel_speed_rpm_x10 : Int
  max_throttle_wheel_speed_rpm_x10 : Int
  keep_current_target_percent : Nat
  keep_current_ramp_start_rpm_x10 : Nat
  keep_current_ramp_end_rpm_x10 : Nat
deriving DecidableEq

/-- All mutable state of `app.c`: the file-scope statics, the function-local statics (both
named as in the source), and the last commands sent to the motor and lights drivers together
with the list of `eventlog_write_data` calls (most recent first). -/
structure State where
  -- file-scope statics
  assist_level : Nat
  operation_mode : Nat
  global_speed_limit_rpm : Nat
  global_throttle_speed_limit_rpm_x10 : Int
  lvc_voltage_x100 : Nat
  lvc_ramp_down_start_voltage_x100 : Nat
  lvc_ramp_down_end_voltage_x100 : Nat
  full_voltage_range_x100 : Nat
  padded_voltage_range_x100 : Nat
  low_voltage_pad_x100 : Nat
  high_voltage_pad_x100 : Nat
  assist_level_data : assist_level_data_t
  speed_limit_ramp_interval_rpm_x10 : Nat
  cruise_paused : Bool
  temperature_contr_c : Int
  temperature_motor_c : Int
  ramp_up_current_interval_ms : Nat
  power_blocked_until_ms : Nat
  pretension_cutoff_speed_rpm_x10 : Nat
  lights_state : Bool
  -- function-local statics
  cruise_block_throttle_return : Bool
  power_current_percent : Nat
  speed_limiting : Bool
  next_log_temp_ms : Nat
  temperature_limiting : Bool
  next_log_volt_ms : Nat
  lvc_limiting : Bool
  next_voltage_reading_ms : Nat
  flt_min_bat_volt_x100 : Int
  shift_sensor_act_ms : Nat
  shift_sensor_last : Bool
  shift_sensor_interrupting : Bool
  shift_sensor_logged : Bool
  ramp_up_target_current : Nat
  last_ramp_up_increment_ms : Nat
  ramp_down_target_current : Nat
  last_ramp_down_decrement_ms : Nat
  -- driver commands and telemetry
  motor_target_speed : Nat
  motor_target_current : Nat
  motor_enabled : Bool
  lights_enabled : Bool
  lights_on : Bool
  eventlog : List (evt_t × Int)
deriving DecidableEq

/-- The call `eventlog_write_data(evt, data)`. -/
def eventlog_write_data (s : State) (evt : evt_t) (data : Int) : State :=
  { s with eventlog := (evt, data) :: s.eventlog }

/-- The value of every static at program start (C static initialisation: zero unless the
declaration has an initialiser). -/
def boot : State :=
  { assist_level := 0
    operation_mode := 0
    global_speed_limit_rpm := 0
    global_throttle_speed_limit_rpm_x10 := 0
    lvc_voltage_x100 := 0
    lvc_ramp_down_start_voltage_x100 := 0
    lvc_ramp_down_end_voltage_x100 := 0
    full_voltage_range_x100 := 0
    padded_voltage_range_x100 := 0
    low_voltage_pad_x100 := 0
    high_voltage_pad_x100 := 0
    assist_level_data :=
      { level := ⟨0, 0, 0, 0, 0, 0⟩
        max_pas_wheel_speed_rpm_x10 := 0
        max_throttle_wheel_speed_rpm_x10 := 0
        keep_current_target_percent := 0
        keep_current_ramp_start_rpm_x10 := 0
        keep_current_ramp_end_rpm_x10 := 0 }
    speed_limit_ramp_interval_rpm_x10 := 0
    cruise_paused := false
    temperature_contr_c := 0
    temperature_motor_c := 0
    ramp_up_current_interval_ms := 0
    power_blocked_until_ms := 0
    pretension_cutoff_speed_rpm_x10 := 0
    lights_state := false
    cruise_block_throttle_return := false
    power_current_percent := 0
    speed_limiting := false
    next_log_temp_ms := 10000
    temperature_limiting := false
    next_log_volt_ms := 10000
    lvc_limiting := false
    next_voltage_reading_ms := 125
    flt_min_bat_volt_x100 := 100 * 100
    shift_sensor_act_ms := 0
    shift_sensor_last := false
    shift_sensor_interrupting := false
    shift_sensor_logged := false
    ramp_up_target_current := 0
    last_ramp_up_increment_ms := 0
    ramp_down_target_current := 0
    last_ramp_down_decrement_ms := 0
    motor_target_speed := 0
    motor_target_current := 0
    motor_enabled := false
    lights_enabled := false
    lights_on := false
    eventlog := [] }

/-- Result of a `void apply_*(uint8_t* target_current, ...)` function: the state after the
call and the value left in `*target_current`. -/
structure VoidRet where
  state : State
  target_current : Nat
deriving DecidableEq

/-- Result of a `bool apply_*(uint8_t* target_current, ...)` function: the state after the
call, the value left in `*target_current`, and the returned flag. -/
structure BoolRet where
  state : State
  target_current : Nat
  ret : Bool
deriving DecidableEq

/-! ## Power block (app.c 855-875) -/

/-- The function `check_power_block()`: returned flag and state after the call. -/
def check_power_block (inp : Inputs) (s : State) : Bool × State :=
  if s.power_blocked_until_ms ≠ 0 then
    -- power block is active, check if time to release
    if inp.system_ms > s.power_blocked_until_ms then
      (false, { s with power_blocked_until_ms := 0 })
    else
      (true, s)
  else
    (false, s)

/-- The function `block_power_for(ms)`: `power_blocked_until_ms = system_ms() + ms` in
`uint32_t` arithmetic. -/
def block_power_for (inp : Inputs) (s : State) (ms : Nat) : State :=
  { s with power_blocked_until_ms := (inp.system_ms + ms) % 4294967296 }

/-! ## Candidate calculators (app.c 361-506) -/

/-- The function `calculate_current_for_power(watts)`: returned percent and state after the
call.  The parameter is a `uint16_t`; the quotient is taken in `uint32_t` arithmetic. -/
def calculate_current_for_power (cfg : Config) (inp : Inputs) (s : State) (watts : Nat) :
    Nat × State :=
  let voltage_x10 := inp.motor_get_battery_voltage_x10
  if voltage_x10 > 0 then
    let p := min 100 ((watts % 65536 * 1000 % 4294967296) /
      (voltage_x10 * cfg.MAX_CURRENT_AMPS % 4294967296))
    (p, { s with power_current_percent := p })
  else
    (s.power_current_percent, s)

/-- The function `apply_pretension(&target_current)`; it changes no state. -/
def apply_pretension (cfg : Config) (inp : Inputs) (s : State) (target_current : Nat) : Nat :=
  if cfg.USE_SPEED_SENSOR && (cfg.USE_PRETENSION || cfg.USE_PRETENSION_ONLY_IN_SPORT_MODE) then
    if !cfg.USE_PRETENSION_ONLY_IN_SPORT_MODE || s.operation_mode == cfg.OPERATION_MODE_SPORT then
      let current_speed_rpm_x10 := inp.speed_sensor_get_rpm_x10
      if current_speed_rpm_x10 > s.pretension_cutoff_speed_rpm_x10 then 1 else target_current
    else target_current
  else target_current

/-- The function `apply_pas_cadence(&target_current, throttle_percent)`. -/
def apply_pas_cadence (cfg : Config) (inp : Inputs) (s : State) (target_current : Nat)
    (throttle_percent : Nat) : VoidRet :=
  let d := s.assist_level_data
  if d.level.target_power_watts > 0 ∧ d.level.max_pas_speed_kph > 0 then
    if inp.pas_is_pedaling_forwards = true ∧
        inp.pas_get_pulse_counter > cfg.PAS_START_DELAY_PULSES then
      let r := calculate_current_for_power cfg inp s d.level.target_power_watts
      let level_target_current := r.1
      if d.level.flags &&& ASSIST_FLAG_PAS_VARIABLE ≠ 0 then
        let current := u8 (MAP16 throttle_percent 0 100 0 level_target_current)
        if current > target_current then ⟨r.2, current⟩ else ⟨r.2, target_current⟩
      else
        let tc1 := if level_target_current > target_current then level_target_current
          else target_current
        -- apply "keep current" ramp
        if cfg.PAS_KEEP_CURRENT_PERCENT < 100 then
          if tc1 > d.keep_current_target_percent ∧
              inp.pas_get_cadence_rpm_x10 > d.keep_current_ramp_start_rpm_x10 then
            let cadence := min inp.pas_get_cadence_rpm_x10 d.keep_current_ramp_end_rpm_x10
            ⟨r.2, u8 (MAP32 cadence d.keep_current_ramp_start_rpm_x10
              d.keep_current_ramp_end_rpm_x10 tc1 d.keep_current_target_percent)⟩
          else ⟨r.2, tc1⟩
        else ⟨r.2, tc1⟩
    else ⟨s, target_current⟩
  else ⟨s, target_current⟩

/-- The transition part of `apply_cruise` (app.c 428-460): the first matching rule updates
`cruise_paused` / `cruise_block_throttle_return`. -/
def cruise_transition (inp : Inputs) (s : State) (throttle_percent : Nat) : State :=
  -- pause cruise if brake activated
  if inp.brake_is_activated = true then
    { s with cruise_paused := true, cruise_block_throttle_return := true }
  -- pause cruise if started pedaling backwards
  else if inp.pas_is_pedaling_backwards = true ∧
      inp.pas_get_pulse_counter > CRUISE_DISENGAGE_PAS_PULSES then
    { s with cruise_paused := true, cruise_block_throttle_return := true }
  -- pause cruise if throttle touched while cruise active
  else if s.cruise_paused = false ∧ s.cruise_block_throttle_return = false ∧
      throttle_percent > 0 then
    { s with cruise_paused := true, cruise_block_throttle_return := true }
  -- unpause cruise if pedaling forward while engaging throttle > 50%
  else if s.cruise_paused = true ∧ s.cruise_block_throttle_return = false ∧
      throttle_percent > 50 ∧ inp.pas_is_pedaling_forwards = true ∧
      inp.pas_get_pulse_counter > CRUISE_ENGAGE_PAS_PULSES then
    { s with cruise_paused := false, cruise_block_throttle_return := true }
  -- throttle returned to idle position
  else if s.cruise_block_throttle_return = true ∧ throttle_percent = 0 then
    { s with cruise_block_throttle_return := false }
  else s

/-- The function `apply_cruise(&target_current, throttle_percent)`. -/
def apply_cruise (cfg : Config) (inp : Inputs) (s : State) (target_current : Nat)
    (throttle_percent : Nat) : VoidRet :=
  if s.assist_level_data.level.flags &&& ASSIST_FLAG_CRUISE ≠ 0 ∧ inp.throttle_ok = true then
    let s1 := cruise_transition inp s throttle_percent
    if s1.cruise_paused = true then
      ⟨s1, 0⟩
    else
      let r := calculate_current_for_power cfg inp s1
        s1.assist_level_data.level.target_power_watts
      let level_target_current := r.1
      if level_target_current > target_current then ⟨r.2, level_target_current⟩
      else ⟨r.2, target_current⟩
  else ⟨s, target_current⟩

/-- The function `apply_throttle(&target_current, throttle_percent)`. -/
def apply_throttle (cfg : Config) (inp : Inputs) (s : State) (target_current : Nat)
    (throttle_percent : Nat) : BoolRet :=
  let d := s.assist_level_data
  if d.level.max_throttle_power_watts > 0 ∧ d.level.max_throttle_speed_kph > 0 ∧
      throttle_percent > 0 ∧ inp.throttle_ok = true then
    let r := calculate_current_for_power cfg inp s d.level.max_throttle_power_watts
    let current := u8 (MAP16 throttle_percent 0 100 cfg.THROTTLE_START_PERCENT r.1)
    if current ≥ target_current then ⟨r.2, current, true⟩
    else ⟨r.2, target_current, false⟩
  else ⟨s, target_current, false⟩

/-! ## Limiters (app.c 508-774)

Each limiter keeps a logging flag; the blocks that flip such a flag and write the transition
to the event log are separate definitions, named after the flag. -/

/-- The block of app.c 526-530: leave speed limiting, logging the transition once. -/
def speed_limiting_off (s : State) : State :=
  if s.speed_limiting = true then
    eventlog_write_data { s with speed_limiting := false } .SPEED_LIMITING 0
  else s

/-- The block of app.c 534-538: enter speed limiting, logging the transition once. -/
def speed_limiting_on (s : State) : State :=
  if s.speed_limiting = false then
    eventlog_write_data { s with speed_limiting := true } .SPEED_LIMITING 1
  else s

/-- The function `apply_speed_limit(&target_current, throttle_override)`.  The wheel-speed
reading is stored in an `int16_t` local. -/
def apply_speed_limit (cfg : Config) (inp : Inputs) (s : State) (target_current : Nat)
    (throttle_override : Bool) : BoolRet :=
  if cfg.USE_SPEED_SENSOR = true then
    let max_speed_rpm_x10 : Int :=
      if throttle_override = true then s.assist_level_data.max_throttle_wheel_speed_rpm_x10
      else s.assist_level_data.max_pas_wheel_speed_rpm_x10
    let max_speed_ramp_low_rpm_x10 : Int :=
      max_speed_rpm_x10 - s.speed_limit_ramp_interval_rpm_x10
    let max_speed_ramp_high_rpm_x10 : Int :=
      max_speed_rpm_x10 + s.speed_limit_ramp_interval_rpm_x10
    if max_speed_rpm_x10 > 0 then
      let current_speed_rpm_x10 : Int := i16 inp.speed_sensor_get_rpm_x10
      if current_speed_rpm_x10 < max_speed_ramp_low_rpm_x10 then
        -- no limiting
        ⟨speed_limiting_off s, target_current, false⟩
      else
        let s1 := speed_limiting_on s
        if current_speed_rpm_x10 > max_speed_ramp_high_rpm_x10 then
          if target_current > 1 then ⟨s1, 1, true⟩ else ⟨s1, target_current, false⟩
        else
          -- linear ramp down when approaching max speed.
          let tmp := u8 (MAP32 current_speed_rpm_x10 max_speed_ramp_low_rpm_x10
            max_speed_ramp_high_rpm_x10 target_current 1)
          if target_current > tmp then ⟨s1, tmp, true⟩ else ⟨s1, target_current, false⟩
    else ⟨s, target_current, false⟩
  else ⟨s, target_current, false⟩

/-- The sampling part of `apply_thermal_limit` (app.c 570-583): cache both temperatures in
whole degrees (`int8_t`) and write the throttled temperature log entry. -/
def thermal_sample (cfg : Config) (inp : Inputs) (s : State) : State :=
  let temp_contr_x100 := inp.temperature_contr_x100
  let temperature_contr_c := i8 (Int.tdiv temp_contr_x100 100)
  let temp_motor_x100 := inp.temperature_motor_x100
  let temperature_motor_c := i8 (Int.tdiv temp_motor_x100 100)
  let s1 := { s with temperature_contr_c := temperature_contr_c,
                     temperature_motor_c := temperature_motor_c }
  if inp.eventlog_is_enabled = true ∧ cfg.USE_TEMPERATURE_SENSOR = true ∧
      inp.system_ms ≥ s1.next_log_temp_ms then
    eventlog_write_data { s1 with next_log_temp_ms := (inp.system_ms + 10000) % 4294967296 }
      .TEMPERATURE ((u16 temperature_motor_c * 256 % 65536) ||| u16 temperature_contr_c : Nat)
  else s1

/-- The block of app.c 587-591: enter thermal limiting, logging the transition once. -/
def temperature_limiting_on (s : State) : State :=
  if s.temperature_limiting = false then
    eventlog_write_data { s with temperature_limiting := true } .THERMAL_LIMITING 1
  else s

/-- The block of app.c 614-618: leave thermal limiting, logging the transition once. -/
def temperature_limiting_off (s : State) : State :=
  if s.temperature_limiting = true then
    eventlog_write_data { s with temperature_limiting := false } .THERMAL_LIMITING 0
  else s

/-- The clamp value of `apply_thermal_limit` (app.c 593-604) for the hotter reading
`max_temp_x100`. -/
def thermal_clamp_percent (cfg : Config) (max_temp_x100 : Int) : Nat :=
  let max_temp_x100 :=
    if max_temp_x100 > cfg.MAX_TEMPERATURE * 100 then i16 (cfg.MAX_TEMPERATURE * 100)
    else max_temp_x100
  u8 (MAP32 max_temp_x100
    ((cfg.MAX_TEMPERATURE - cfg.MAX_TEMPERATURE_RAMP_DOWN_INTERVAL) * 100)
    (cfg.MAX_TEMPERATURE * 100)
    100
    cfg.MAX_TEMPERATURE_LOW_CURRENT_PERCENT)

/-- The function `apply_thermal_limit(&target_current)`. -/
def apply_thermal_limit (cfg : Config) (inp : Inputs) (s : State) (target_current : Nat) :
    BoolRet :=
  let s2 := thermal_sample cfg inp s
  let max_temp_x100 := max inp.temperature_contr_x100 inp.temperature_motor_x100
  let max_temp := max s2.temperature_contr_c s2.temperature_motor_c
  if max_temp ≥ cfg.MAX_TEMPERATURE - cfg.MAX_TEMPERATURE_RAMP_DOWN_INTERVAL then
    let s3 := temperature_limiting_on s2
    let tmp := thermal_clamp_percent cfg max_temp_x100
    if target_current > tmp then ⟨s3, tmp, true⟩ else ⟨s3, target_current, false⟩
  else
    ⟨temperature_limiting_off s2, target_current, false⟩

/-- The sampling part of `apply_low_voltage_limit` (app.c 632-647): every 125 ms the battery
reading is fed to the minimum filter. -/
def lvc_sample (inp : Inputs) (s : State) : State :=
  if inp.system_ms > s.next_voltage_reading_ms then
    let s1 := { s with next_voltage_reading_ms := (inp.system_ms + 125) % 4294967296 }
    let voltage_reading_x100 : Int := (inp.motor_get_battery_voltage_x10 * 10 % 4294967296 : Nat)
    let s2 :=
      if voltage_reading_x100 < s1.flt_min_bat_volt_x100 then
        { s1 with flt_min_bat_volt_x100 :=
            EXPONENTIAL_FILTER s1.flt_min_bat_volt_x100 voltage_reading_x100 8 }
      else s1
    if inp.eventlog_is_enabled = true ∧ inp.system_ms > s2.next_log_volt_ms then
      eventlog_write_data { s2 with next_log_volt_ms := (inp.system_ms + 10000) % 4294967296 }
        .VOLTAGE (u16 voltage_reading_x100)
    else s2
  else s

/-- The block of app.c 653-657: enter low-voltage limiting, logging the voltage once. -/
def lvc_limiting_on (s : State) (voltage_x100 : Nat) : State :=
  if s.lvc_limiting = false then
    { eventlog_write_data s .LVC_LIMITING voltage_x100 with lvc_limiting := true }
  else s

/-- The clamp percent of `apply_low_voltage_limit` (app.c 659-672) for the filtered voltage
`voltage_x100`: the value `tmp2` compared with the candidate. -/
def lvc_clamp_percent (cfg : Config) (s : State) (voltage_x100 : Nat) : Nat :=
  let voltage_x100 := if voltage_x100 < s.lvc_voltage_x100 then s.lvc_voltage_x100
    else voltage_x100
  -- Ramp down power until LVC_LOW_CURRENT_PERCENT when approaching LVC
  let tmp := i8 (MAP32 voltage_x100
    s.lvc_ramp_down_end_voltage_x100
    s.lvc_ramp_down_start_voltage_x100
    cfg.LVC_LOW_CURRENT_PERCENT
    100)
  u8 (CLAMP tmp 0 100)

/-- The function `apply_low_voltage_limit(&target_current)`. -/
def apply_low_voltage_limit (cfg : Config) (inp : Inputs) (s : State) (target_current : Nat) :
    BoolRet :=
  let s1 := lvc_sample inp s
  let voltage_x100 := u16 s1.flt_min_bat_volt_x100
  if voltage_x100 ≤ s1.lvc_ramp_down_start_voltage_x100 then
    let s2 := lvc_limiting_on s1 voltage_x100
    let tmp2 := lvc_clamp_percent cfg s1 voltage_x100
    if target_current > tmp2 then ⟨s2, tmp2, true⟩ else ⟨s2, target_current, false⟩
  else ⟨s1, target_current, false⟩

/-- The edge tracking of `apply_shift_sensor_interrupt` (app.c 697-717): arm or restart the
interrupt window and remember the sensor level. -/
def shift_sensor_track (cfg : Config) (inp : Inputs) (s : State) : State :=
  let active := inp.shift_sensor_is_activated
  if active = true then
    -- Check for new pulse from the gear sensor during shift interrupt
    let sa :=
      if s.shift_sensor_last = false ∧ s.shift_sensor_interrupting = true then
        -- Consecutive gear change, do restart.
        { s with shift_sensor_interrupting := false }
      else s
    let sb :=
      if sa.shift_sensor_interrupting = false then
        let duration_ms := cfg.SHIFT_INTERRUPT_DURATION_MS % 65536
        { sa with shift_sensor_act_ms := (inp.system_ms + duration_ms) % 4294967296,
                  shift_sensor_interrupting := true }
      else sa
    { sb with shift_sensor_last := true }
  else
    { s with shift_sensor_last := false }

/-- The block of app.c 726-733: the shift is finished, reset the function state. -/
def shift_sensor_finish (s : State) : State :=
  let s1 := { s with shift_sensor_interrupting := false }
  -- Logging is skipped, unless current has been clamped during shift interrupt.
  if s1.shift_sensor_logged = true then
    eventlog_write_data { s1 with shift_sensor_logged := false } .SHIFT_SENSOR 0
  else s1

/-- The block of app.c 739-744: log a clamp only once per shifting interrupt. -/
def shift_sensor_log_clamp (s : State) : State :=
  if s.shift_sensor_logged = false then
    eventlog_write_data { s with shift_sensor_logged := true } .SHIFT_SENSOR 1
  else s

/-- The function `apply_shift_sensor_interrupt(&target_current)`
(`HAS_SHIFT_SENSOR_SUPPORT` is 1 in `constants.h`). -/
def apply_shift_sensor_interrupt (cfg : Config) (inp : Inputs) (s : State)
    (target_current : Nat) : BoolRet :=
  -- Exit immediately if shift interrupts disabled.
  if cfg.USE_SHIFT_SENSOR = false then ⟨s, target_current, false⟩
  else
    let s1 := shift_sensor_track cfg inp s
    if s1.shift_sensor_interrupting = false then ⟨s1, target_current, false⟩
    else if inp.system_ms ≥ s1.shift_sensor_act_ms then
      ⟨shift_sensor_finish s1, target_current, false⟩
    else if target_current > cfg.SHIFT_INTERRUPT_CURRENT_THRESHOLD_PERCENT then
      -- Set target current based on desired current threshold during shift.
      ⟨shift_sensor_log_clamp s1, cfg.SHIFT_INTERRUPT_CURRENT_THRESHOLD_PERCENT % 256, true⟩
    else ⟨s1, target_current, false⟩

/-- The call `lights_set(on)`. -/
def lights_set (s : State) (value : Bool) : State := { s with lights_on := value }

/-- The function `app_get_lights()`. -/
def app_get_lights (s : State) : Bool := s.lights_state

/-- The function `apply_brake(&target_current)`. -/
def apply_brake (cfg : Config) (inp : Inputs) (s : State) (target_current : Nat) : BoolRet :=
  let is_braking := inp.brake_is_activated
  let s1 := if cfg.LIGHTS_MODE = .BRAKE_LIGHT then lights_set s is_braking else s
  let s2 :=
    if cfg.LIGHTS_MODE = .DEFAULT_AND_BRAKE_LIGHT then
      -- If lights are on, don't use brake light
      if app_get_lights s1 = false then lights_set s1 is_braking else s1
    else s1
  if is_braking = true then ⟨s2, 0, is_braking⟩ else ⟨s2, target_current, is_braking⟩

/-! ## Ramp limiters (app.c 776-852) -/

/-- The function `apply_current_ramp_up(&target_current, enable)`.  `time_diff` is the
`uint32_t` difference `now - last_ramp_up_increment_ms` stored in a `uint16_t`. -/
def apply_current_ramp_up (inp : Inputs) (s : State) (target_current : Nat) (enable : Bool) :
    VoidRet :=
  if enable = true ∧ target_current > s.ramp_up_target_current then
    let now := inp.system_ms
    let time_diff := u16 (u32 ((now : Int) - s.last_ramp_up_increment_ms))
    let s1 :=
      if time_diff ≥ s.ramp_up_current_interval_ms then
        let sa := { s with ramp_up_target_current := (s.ramp_up_target_current + 1) % 256 }
        if sa.last_ramp_up_increment_ms = 0 then
          { sa with last_ramp_up_increment_ms := now }
        else
          -- offset for time overshoot to not accumulate large ramp error
          let overshoot := u8 ((time_diff : Int) - s.ramp_up_current_interval_ms)
          { sa with last_ramp_up_increment_ms := u32 ((now : Int) - overshoot) }
      else s
    ⟨s1, s1.ramp_up_target_current⟩
  else
    ⟨{ s with ramp_up_target_current := target_current, last_ramp_up_increment_ms := 0 },
      target_current⟩

/-- The function `apply_current_ramp_down(&target_current, enable)`. -/
def apply_current_ramp_down (cfg : Config) (inp : Inputs) (s : State) (target_current : Nat)
    (enable : Bool) : VoidRet :=
  if enable = true ∧ target_current < s.ramp_down_target_current then
    let now := inp.system_ms
    let time_diff := u16 (u32 ((now : Int) - s.last_ramp_down_decrement_ms))
    let s1 :=
      if time_diff ≥ 10 then
        let diff := u8 ((s.ramp_down_target_current : Int) - target_current)
        let sa : State :=
          if diff ≥ cfg.CURRENT_RAMP_DOWN_PERCENT_10MS then
            let lowered := u8 ((s.ramp_down_target_current : Int) -
              cfg.CURRENT_RAMP_DOWN_PERCENT_10MS)
            { s with ramp_down_target_current := lowered }
          else
            let lowered := u8 ((s.ramp_down_target_current : Int) - diff)
            { s with ramp_down_target_current := lowered }
        if sa.last_ramp_down_decrement_ms = 0 then
          { sa with last_ramp_down_decrement_ms := now }
        else
          -- offset for time overshoot to not accumulate large ramp error
          let overshoot := u8 ((time_diff : Int) - 10)
          { sa with last_ramp_down_decrement_ms := u32 ((now : Int) - overshoot) }
      else s
    ⟨s1, s1.ramp_down_target_current⟩
  else
    ⟨{ s with ramp_down_target_current := target_current, last_ramp_down_decrement_ms := 0 },
      target_current⟩

/-! ## Assist-level cache (app.c 209-225, 278-286, 877-910) -/

/-- The function `reload_assist_params()`. -/
def reload_assist_params (cfg : Config) (inp : Inputs) (s : State) : State :=
  if s.assist_level < cfg.ASSIST_PUSH then
    let level := cfg.assist_levels s.operation_mode s.assist_level
    let max_pas : Int :=
      ((cfg.convert_wheel_speed_kph_to_rpm level.max_pas_speed_kph false % 65536 : Nat) : Int) * 10
    let max_throttle : Int :=
      ((cfg.convert_wheel_speed_kph_to_rpm level.max_throttle_speed_kph false % 65536 : Nat) : Int)
        * 10
    let d1 := { s.assist_level_data with
      level := level
      max_pas_wheel_speed_rpm_x10 := max_pas
      max_throttle_wheel_speed_rpm_x10 := max_throttle }
    let s1 := eventlog_write_data { s with assist_level_data := d1 } .WHEEL_SPEED_PPM max_pas
    let s2 : State :=
      if level.target_power_watts > 0 ∧ level.max_pas_speed_kph > 0 then
        let r := calculate_current_for_power cfg inp s1 level.target_power_watts
        let d2 := { r.2.assist_level_data with
          keep_current_target_percent :=
            (cfg.PAS_KEEP_CURRENT_PERCENT % 65536 * r.1 % 65536 / 100) % 256
          keep_current_ramp_start_rpm_x10 := cfg.PAS_KEEP_CURRENT_CADENCE_RPM * 10 % 65536
          keep_current_ramp_end_rpm_x10 :=
            (level.max_cadence_percent * cfg.MAX_CADENCE_RPM_X10 % 4294967296 / 100) % 65536 }
        { r.2 with assist_level_data := d2 }
      else s1
    -- pause cruise if swiching level
    { s2 with cruise_paused := true }
  -- only apply push walk params if push walk is active in config,
  -- otherwise data of previous assist level is kept.
  else if s.assist_level = cfg.ASSIST_PUSH ∧ cfg.USE_PUSH_WALK = true then
    let d1 := { s.assist_level_data with
      level :=
        { flags := 0
          max_cadence_percent := 15
          max_pas_speed_kph := 0
          target_power_watts := 0
          max_throttle_speed_kph := 0
          max_throttle_power_watts := 0 }
      max_pas_wheel_speed_rpm_x10 :=
        ((cfg.convert_wheel_speed_kph_to_rpm cfg.WALK_MODE_SPEED_KPH false % 65536 * 10
          % 65536 : Nat) : Int) }
    { s with assist_level_data := d1 }
  else s

/-- The function `app_set_assist_level(level)`. -/
def app_set_assist_level (cfg : Config) (inp : Inputs) (s : State) (level : Nat) : State :=
  if s.assist_level ≠ level then
    let s1 :=
      if s.assist_level = cfg.ASSIST_PUSH ∧ cfg.USE_PUSH_WALK = true then
        block_power_for inp s 1000
      else s
    let s2 := { s1 with assist_level := level }
    let s3 := eventlog_write_data s2 .ASSIST_LEVEL s2.assist_level
    reload_assist_params cfg inp s3
  else s

/-- The function `app_set_operation_mode(mode)`. -/
def app_set_operation_mode (cfg : Config) (inp : Inputs) (s : State) (mode : Nat) : State :=
  if s.operation_mode ≠ mode then
    let s1 := { s with operation_mode := mode }
    let s2 := eventlog_write_data s1 .OPERATION_MODE s1.operation_mode
    reload_assist_params cfg inp s2
  else s

/-- The function `app_set_lights(on)`: with a lights-button mode select the button switches
the operation mode, otherwise it switches the lights. -/
def app_set_lights (cfg : Config) (inp : Inputs) (s : State) (value : Bool) : State :=
  if cfg.ASSIST_MODE_SELECT = ASSIST_MODE_SELECT_LIGHTS ∨
      (s.assist_level = cfg.ASSIST_0 ∧ cfg.ASSIST_MODE_SELECT = ASSIST_MODE_SELECT_PAS0_LIGHT) ∨
      (s.assist_level = cfg.ASSIST_1 ∧ cfg.ASSIST_MODE_SELECT = ASSIST_MODE_SELECT_PAS1_LIGHT) ∨
      (s.assist_level = cfg.ASSIST_2 ∧ cfg.ASSIST_MODE_SELECT = ASSIST_MODE_SELECT_PAS2_LIGHT) ∨
      (s.assist_level = cfg.ASSIST_3 ∧ cfg.ASSIST_MODE_SELECT = ASSIST_MODE_SELECT_PAS3_LIGHT) ∨
      (s.assist_level = cfg.ASSIST_4 ∧ cfg.ASSIST_MODE_SELECT = ASSIST_MODE_SELECT_PAS4_LIGHT) ∨
      (s.assist_level = cfg.ASSIST_5 ∧ cfg.ASSIST_MODE_SELECT = ASSIST_MODE_SELECT_PAS5_LIGHT) ∨
      (s.assist_level = cfg.ASSIST_6 ∧ cfg.ASSIST_MODE_SELECT = ASSIST_MODE_SELECT_PAS6_LIGHT) ∨
      (s.assist_level = cfg.ASSIST_7 ∧ cfg.ASSIST_MODE_SELECT = ASSIST_MODE_SELECT_PAS7_LIGHT) ∨
      (s.assist_level = cfg.ASSIST_8 ∧ cfg.ASSIST_MODE_SELECT = ASSIST_MODE_SELECT_PAS8_LIGHT) ∨
      (s.assist_level = cfg.ASSIST_9 ∧ cfg.ASSIST_MODE_SELECT = ASSIST_MODE_SELECT_PAS9_LIGHT)
  then
    if value = true then app_set_operation_mode cfg inp s cfg.OPERATION_MODE_SPORT
    else app_set_operation_mode cfg inp s cfg.OPERATION_MODE_DEFAULT
  else
    if (cfg.LIGHTS_MODE = .DEFAULT ∧ s.lights_state ≠ value) ∨
        (cfg.LIGHTS_MODE = .DEFAULT_AND_BRAKE_LIGHT ∧ s.lights_state ≠ value) then
      let s1 := { s with lights_state := value }
      let s2 := eventlog_write_data s1 .LIGHTS (if value = true then 1 else 0)
      lights_set s2 value
    else s

/-- The function `app_set_speed_limit_operation_mode(display_speed_limit_rpm)`, compiled only
when `SPEED_LIMIT_SPORT_SWITCH_KPH` is defined; without the macro there is no such entry
point and the state is left as it is. -/
def app_set_speed_limit_operation_mode (cfg : Config) (inp : Inputs) (s : State)
    (display_speed_limit_rpm : Nat) : State :=
  match cfg.SPEED_LIMIT_SPORT_SWITCH_KPH with
  | some kph =>
    if display_speed_limit_rpm = cfg.convert_wheel_speed_kph_to_rpm kph true % 65536 then
      app_set_operation_mode cfg inp s cfg.OPERATION_MODE_SPORT
    else
      app_set_operation_mode cfg inp s cfg.OPERATION_MODE_DEFAULT
  | none => s

/-- The threshold derivation of `app_init` (app.c 96-108), in `uint16_t` arithmetic. -/
def app_init_thresholds (cfg : Config) (s : State) : State :=
  let lvc_voltage_x100 := cfg.LOW_CUT_OFF_V * 100 % 65536
  let full_voltage_range_x100 := u16 ((cfg.MAX_BATTERY_X100V : Int) - lvc_voltage_x100)
  let low_voltage_pad_x100 :=
    full_voltage_range_x100 * cfg.BATTERY_EMPTY_OFFSET_PERCENT % 65536 / 100
  let high_voltage_pad_x100 :=
    full_voltage_range_x100 * cfg.BATTERY_FULL_OFFSET_PERCENT % 65536 / 100
  let padded_voltage_range_x100 :=
    u16 ((full_voltage_range_x100 : Int) - low_voltage_pad_x100 - high_voltage_pad_x100)
  -- The LVC ramp down end is at 0% battery, which is LVC + the low padding value.
  let lvc_ramp_down_end_voltage_x100 := (lvc_voltage_x100 + low_voltage_pad_x100) % 65536
  -- The LVC ramp down starts at LVC_RAMP_DOWN_OFFSET_PERCENT battery, using the padded range.
  let lvc_ramp_down_offset_x100 :=
    padded_voltage_range_x100 * cfg.LVC_RAMP_DOWN_OFFSET_PERCENT % 65536 / 100
  let lvc_ramp_down_start_voltage_x100 :=
    (lvc_ramp_down_end_voltage_x100 + lvc_ramp_down_offset_x100) % 65536
  { s with
    lvc_voltage_x100 := lvc_voltage_x100
    full_voltage_range_x100 := full_voltage_range_x100
    low_voltage_pad_x100 := low_voltage_pad_x100
    high_voltage_pad_x100 := high_voltage_pad_x100
    padded_voltage_range_x100 := padded_voltage_range_x100
    lvc_ramp_down_end_voltage_x100 := lvc_ramp_down_end_voltage_x100
    lvc_ramp_down_start_voltage_x100 := lvc_ramp_down_start_voltage_x100 }

/-- The function `app_init()`, run on the state `s` (the boot state in the firmware). -/
def app_init (cfg : Config) (inp : Inputs) (s : State) : State :=
  let s1 := { s with motor_enabled := false, lights_enabled := false }
  let s2 := lights_set s1 (decide (cfg.LIGHTS_MODE = .ALWAYS_ON))
  let s3 := app_init_thresholds cfg s2
  let s4 := { s3 with
    global_speed_limit_rpm := 0
    global_throttle_speed_limit_rpm_x10 := 0
    temperature_contr_c := 0
    temperature_motor_c := 0
    ramp_up_current_interval_ms := cfg.MAX_CURRENT_AMPS * 10 % 65536 / cfg.CURRENT_RAMP_AMPS_S
    power_blocked_until_ms := 0
    speed_limit_ramp_interval_rpm_x10 :=
      cfg.convert_wheel_speed_kph_to_rpm cfg.SPEED_LIMIT_RAMP_DOWN_INTERVAL_KPH false % 65536
        * 10 % 65536
    pretension_cutoff_speed_rpm_x10 :=
      cfg.convert_wheel_speed_kph_to_rpm cfg.PRETENSION_SPEED_CUTOFF_KPH false % 65536
        * 10 % 65536
    cruise_paused := true
    operation_mode := cfg.OPERATION_MODE_DEFAULT }
  let s5 := app_set_assist_level cfg inp s4 cfg.ASSIST_STARTUP_LEVEL
  let s6 := reload_assist_params cfg inp s5
  if cfg.ASSIST_MODE_SELECT = ASSIST_MODE_SELECT_BRAKE_BOOT then
    if inp.brake_is_activated = true then
      app_set_operation_mode cfg inp s6 cfg.OPERATION_MODE_SPORT
    else s6
  else s6

/-! ## Status code (app.c 298-347) -/

/-- The `STATUS_*` codes of `app.h` that `app_get_status_code` returns. -/
inductive status_t where
  | NORMAL
  | BRAKING
  | ERROR_THROTTLE
  | ERROR_MOTOR_OVER_TEMP
  | ERROR_CONTROLLER_OVER_TEMP
  | ERROR_HALL_SENSOR
  | ERROR_CURRENT_SENSE
  | ERROR_PHASE_LINE
deriving DecidableEq

/-- The function `app_get_status_code()`; it reads the cached whole-degree temperatures
`temperature_motor_c` / `temperature_contr_c` and changes no state. -/
def app_get_status_code (cfg : Config) (inp : Inputs) (s : State) : status_t :=
  let motor := inp.motor_status
  if motor &&& cfg.MOTOR_ERROR_HALL_SENSOR ≠ 0 then .ERROR_HALL_SENSOR
  else if motor &&& cfg.MOTOR_ERROR_CURRENT_SENSE ≠ 0 then .ERROR_CURRENT_SENSE
  -- Phase line error code reused for MOTOR_ERROR_POWER_RESET
  else if motor &&& cfg.MOTOR_ERROR_POWER_RESET ≠ 0 then .ERROR_PHASE_LINE
  else if inp.throttle_ok = false then .ERROR_THROTTLE
  else if s.temperature_motor_c > cfg.MAX_TEMPERATURE then .ERROR_MOTOR_OVER_TEMP
  else if s.temperature_contr_c > cfg.MAX_TEMPERATURE then .ERROR_CONTROLLER_OVER_TEMP
  else if inp.brake_is_activated = true then .BRAKING
  else .NORMAL

/-- The spec's reading of a priority list: the code of the first condition that applies,
`NORMAL` when none applies. -/
def first_applicable : List (Bool × status_t) → status_t
  | [] => .NORMAL
  | (applies, code) :: rest => if applies = true then code else first_applicable rest

/-- The priority list of the spec for the overall status code, highest priority first:
hall-sensor fault, current-sense fault, phase-line/power-reset fault, throttle fault, motor
over-temperature, controller over-temperature, braking. -/
def status_priority_list (cfg : Config) (inp : Inputs) (s : State) : List (Bool × status_t) :=
  [ (decide (inp.motor_status &&& cfg.MOTOR_ERROR_HALL_SENSOR ≠ 0), .ERROR_HALL_SENSOR),
    (decide (inp.motor_status &&& cfg.MOTOR_ERROR_CURRENT_SENSE ≠ 0), .ERROR_CURRENT_SENSE),
    (decide (inp.motor_status &&& cfg.MOTOR_ERROR_POWER_RESET ≠ 0), .ERROR_PHASE_LINE),
    (!inp.throttle_ok, .ERROR_THROTTLE),
    (decide (s.temperature_motor_c > cfg.MAX_TEMPERATURE), .ERROR_MOTOR_OVER_TEMP),
    (decide (s.temperature_contr_c > cfg.MAX_TEMPERATURE), .ERROR_CONTROLLER_OVER_TEMP),
    (inp.brake_is_activated, .BRAKING) ]

/-! ## The control pipeline (app.c 136-206) -/

/-- The locals of `app_process` after the candidate stage (app.c 138-172). -/
structure Candidate where
  state : State
  power_blocked : Bool
  target_current : Nat
  target_cadence : Nat
  pas_engaged : Bool
  throttle_override : Bool
deriving DecidableEq

/-- The candidate stage of `app_process` (app.c 138-172): power block, push walk, or the
chain pretension, pedal assist, cruise, throttle. -/
def app_process_candidate (cfg : Config) (inp : Inputs) (s : State) : Candidate :=
  let target_cadence := s.assist_level_data.level.max_cadence_percent
  let throttle_percent := inp.throttle_percent
  let pb := check_power_block inp s
  if pb.1 = true then
    ⟨pb.2, true, 0, target_cadence, false, false⟩
  else if pb.2.assist_level = cfg.ASSIST_PUSH ∧ cfg.USE_PUSH_WALK = true then
    ⟨pb.2, false, 10, target_cadence, false, false⟩
  else
    let t1 := apply_pretension cfg inp pb.2 0
    let r2 := apply_pas_cadence cfg inp pb.2 t1 throttle_percent
    let pas_engaged := decide (r2.target_current > 0)
    let r3 := apply_cruise cfg inp r2.state r2.target_current throttle_percent
    let r4 := apply_throttle cfg inp r3.state r3.target_current throttle_percent
    let throttle_override := r4.ret
    let lvl := r4.state.assist_level_data.level
    -- override target cadence if configured in assist level
    if throttle_override = true ∧ lvl.target_power_watts > 0 ∧ lvl.max_pas_speed_kph > 0 ∧
        lvl.flags &&& ASSIST_FLAG_OVERRIDE_CADENCE ≠ 0 then
      ⟨r4.state, false, r4.target_current, cfg.THROTTLE_CADENCE_OVERRIDE_PERCENT % 256,
        pas_engaged, throttle_override⟩
    else
      ⟨r4.state, false, r4.target_current, target_cadence, pas_engaged, throttle_override⟩

/-- Every local of one run of `app_process`, and the state it leaves. -/
structure Tick where
  power_blocked : Bool
  throttle_override : Bool
  target_cadence : Nat
  candidate : Nat
  speed_limiting : Bool
  thermal_limiting : Bool
  lvc_limiting : Bool
  shift_limiting : Bool
  is_limiting : Bool
  is_braking : Bool
  ramp_up_enable : Bool
  ramp_up_in : Nat
  ramp_up_out : Nat
  ramp_down_enable : Bool
  target_current : Nat
  state : State
deriving DecidableEq

/-- The function `app_process()`, keeping its locals: `candidate` is `target_current` at line
173, `ramp_up_enable` / `ramp_down_enable` are the `enable` arguments of lines 186 / 187,
`ramp_up_in` / `ramp_up_out` the value of `target_current` before / after line 186, and
`target_current` the value passed to `motor_set_target_current`. -/
def app_process_trace (cfg : Config) (inp : Inputs) (s : State) : Tick :=
  let c := app_process_candidate cfg inp s
  let throttle_override := c.throttle_override
  let r1 := apply_speed_limit cfg inp c.state c.target_current throttle_override
  let speed_limiting := r1.ret
  let r2 := apply_thermal_limit cfg inp r1.state r1.target_current
  let thermal_limiting := r2.ret
  let r3 := apply_low_voltage_limit cfg inp r2.state r2.target_current
  let lvc_limiting := r3.ret
  let r4 := apply_shift_sensor_interrupt cfg inp r3.state r3.target_current
  let shift_limiting := r4.ret
  let is_limiting := speed_limiting || thermal_limiting || lvc_limiting || shift_limiting
  let r5 := apply_brake cfg inp r4.state r4.target_current
  let is_braking := r5.ret
  let ramp_up_enable := is_limiting || !throttle_override
  let r6 := apply_current_ramp_up inp r5.state r5.target_current ramp_up_enable
  let ramp_down_enable := !is_braking && !shift_limiting
  let r7 := apply_current_ramp_down cfg inp r6.state r6.target_current ramp_down_enable
  let target_current := r7.target_current
  let final : State := { r7.state with
    motor_target_speed := c.target_cadence
    motor_target_current := target_current
    motor_enabled := decide (target_current > 0)
    lights_enabled := decide (cfg.LIGHTS_MODE ≠ .DISABLED) }
  { power_blocked := c.power_blocked
    throttle_override := throttle_override
    target_cadence := c.target_cadence
    candidate := c.target_current
    speed_limiting := speed_limiting
    thermal_limiting := thermal_limiting
    lvc_limiting := lvc_limiting
    shift_limiting := shift_limiting
    is_limiting := is_limiting
    is_braking := is_braking
    ramp_up_enable := ramp_up_enable
    ramp_up_in := r5.target_current
    ramp_up_out := r6.target_current
    ramp_down_enable := ramp_down_enable
    target_current := target_current
    state := final }

/-- The function `app_process()`: the state after one tick.  The values passed to
`motor_set_target_speed` / `motor_set_target_current` are the fields `motor_target_speed` /
`motor_target_current` of the result. -/
def app_process (cfg : Config) (inp : Inputs) (s : State) : State :=
  (app_process_trace cfg inp s).state

/-! ## Predicates used by the theorems -/

/-- The stored percentages that feed the pipeline output are percentages: the sticky result
of `calculate_current_for_power` and the ramped-down target. -/
def PercentInv (s : State) : Prop :=
  s.power_current_percent ≤ 100 ∧ s.ramp_down_target_current ≤ 100

/-- The states the firmware can be in: `app_init` runs once on the boot state; afterwards
`app_process` ticks (mapped throttle percent in 0..100, any other sensor values) and calls
of the setters `app_set_assist_level` / `app_set_operation_mode` / `app_set_lights` /
`app_set_speed_limit_operation_mode` alternate in any order.  These are all the functions of
`app.c` that are not getters or helpers of `app_process`. -/
inductive Reachable (cfg : Config) : State → Prop where
  | init (inp : Inputs) : Reachable cfg (app_init cfg inp boot)
  | process (inp : Inputs) (s : State) :
      Reachable cfg s → inp.throttle_percent ≤ 100 → Reachable cfg (app_process cfg inp s)
  | set_assist_level (inp : Inputs) (s : State) (level : Nat) :
      Reachable cfg s → Reachable cfg (app_set_assist_level cfg inp s level)
  | set_operation_mode (inp : Inputs) (s : State) (mode : Nat) :
      Reachable cfg s → Reachable cfg (app_set_operation_mode cfg inp s mode)
  | set_lights (inp : Inputs) (s : State) (value : Bool) :
      Reachable cfg s → Reachable cfg (app_set_lights cfg inp s value)
  | set_speed_limit_operation_mode (inp : Inputs) (s : State) (display_speed_limit_rpm : Nat) :
      Reachable cfg s →
      Reachable cfg (app_set_speed_limit_operation_mode cfg inp s display_speed_limit_rpm)

/-- The keep-current ramp of every level of the table has distinct start and end cadences, so
that the interpolation of `apply_pas_cadence` never divides by zero. -/
def KeepRampDefined (cfg : Config) : Prop :=
  ∀ mode level : Nat,
    (((cfg.assist_levels mode level).max_cadence_percent * cfg.MAX_CADENCE_RPM_X10
      % 4294967296 / 100) % 65536) ≠ cfg.PAS_KEEP_CURRENT_CADENCE_RPM * 10 % 65536

/-- The low-voltage thresholds of `t` are those of `s`. -/
def SameThresholds (s t : State) : Prop :=
  t.lvc_voltage_x100 = s.lvc_voltage_x100 ∧
  t.low_voltage_pad_x100 = s.low_voltage_pad_x100 ∧
  t.lvc_ramp_down_end_voltage_x100 = s.lvc_ramp_down_end_voltage_x100 ∧
  t.lvc_ramp_down_start_voltage_x100 = s.lvc_ramp_down_start_voltage_x100

/-- A sequence of calls of `calculate_current_for_power`, each with its own battery sample
and `watts` argument: the state after the last call. -/
def calculate_current_for_power_calls (cfg : Config) (s : State) :
    List (Inputs × Nat) → State
  | [] => s
  | (inp, watts) :: rest =>
    calculate_current_for_power_calls cfg (calculate_current_for_power cfg inp s watts).2 rest

/-! ## A concrete configuration and concrete sensor samples

Values in the style of a 52 V / 30 A build; used to evaluate the embedding on explicit
inputs. -/

/-- A pedal-assist + throttle level: 500 W pedal assist, 750 W throttle. -/
def sample_level : assist_level_t :=
  { flags := 0x03
    max_cadence_percent := 100
    max_pas_speed_kph := 25
    target_power_watts := 500
    max_throttle_speed_kph := 25
    max_throttle_power_watts := 750 }

/-- A cruise level (cruise flag set): 300 W. -/
def sample_cruise_level : assist_level_t :=
  { flags := 0x04
    max_cadence_percent := 100
    max_pas_speed_kph := 25
    target_power_watts := 300
    max_throttle_speed_kph := 0
    max_throttle_power_watts := 0 }

/-- A throttle-only level (no pedal-assist power) with the cadence-override flag set:
750 W throttle, 80 percent cadence. -/
def sample_throttle_level : assist_level_t :=
  { flags := 0x22
    max_cadence_percent := 80
    max_pas_speed_kph := 0
    target_power_watts := 0
    max_throttle_speed_kph := 25
    max_throttle_power_watts := 750 }

/-- A concrete build configuration. -/
def sample_config : Config :=
  { USE_PUSH_WALK := true
    USE_SPEED_SENSOR := true
    USE_PRETENSION := false
    USE_PRETENSION_ONLY_IN_SPORT_MODE := false
    USE_SHIFT_SENSOR := true
    USE_TEMPERATURE_SENSOR := true
    LIGHTS_MODE := .DEFAULT
    ASSIST_MODE_SELECT := ASSIST_MODE_SELECT_STANDARD
    ASSIST_0 := 0
    ASSIST_1 := 1
    ASSIST_2 := 2
    ASSIST_3 := 3
    ASSIST_4 := 4
    ASSIST_5 := 5
    ASSIST_6 := 6
    ASSIST_7 := 7
    ASSIST_8 := 8
    ASSIST_9 := 9
    ASSIST_PUSH := 10
    ASSIST_STARTUP_LEVEL := 3
    OPERATION_MODE_DEFAULT := 0
    OPERATION_MODE_SPORT := 1
    SPEED_LIMIT_SPORT_SWITCH_KPH := none
    MAX_CURRENT_AMPS := 30
    CURRENT_RAMP_AMPS_S := 15
    CURRENT_RAMP_DOWN_PERCENT_10MS := 5
    LOW_CUT_OFF_V := 42
    MAX_BATTERY_X100V := 5460
    BATTERY_EMPTY_OFFSET_PERCENT := 10
    BATTERY_FULL_OFFSET_PERCENT := 5
    LVC_RAMP_DOWN_OFFSET_PERCENT := 20
    LVC_LOW_CURRENT_PERCENT := 20
    MAX_TEMPERATURE := 85
    MAX_TEMPERATURE_RAMP_DOWN_INTERVAL := 5
    MAX_TEMPERATURE_LOW_CURRENT_PERCENT := 20
    SHIFT_INTERRUPT_DURATION_MS := 600
    SHIFT_INTERRUPT_CURRENT_THRESHOLD_PERCENT := 10
    THROTTLE_START_PERCENT := 1
    THROTTLE_CADENCE_OVERRIDE_PERCENT := 100
    PAS_START_DELAY_PULSES := 5
    PAS_KEEP_CURRENT_PERCENT := 60
    PAS_KEEP_CURRENT_CADENCE_RPM := 40
    MAX_CADENCE_RPM_X10 := 1680
    SPEED_LIMIT_RAMP_DOWN_INTERVAL_KPH := 3
    PRETENSION_SPEED_CUTOFF_KPH := 16
    WALK_MODE_SPEED_KPH := 4
    MOTOR_ERROR_HALL_SENSOR := 0x0004
    MOTOR_ERROR_CURRENT_SENSE := 0x0100
    MOTOR_ERROR_POWER_RESET := 0x0200
    assist_levels := fun _ level =>
      if level = 4 then sample_cruise_level
      else if level = 5 then sample_throttle_level
      else sample_level
    convert_wheel_speed_kph_to_rpm := fun kph _ => kph * 8 }

/-- A quiet sensor sample at clock value `now`: no rider input, 50.0 V battery, 25 C. -/
def idle_inputs (now : Nat) : Inputs :=
  { system_ms := now
    throttle_percent := 0
    throttle_ok := true
    brake_is_activated := false
    pas_is_pedaling_forwards := false
    pas_is_pedaling_backwards := false
    pas_get_pulse_counter := 0
    pas_get_cadence_rpm_x10 := 0
    speed_sensor_get_rpm_x10 := 0
    motor_get_battery_voltage_x10 := 500
    temperature_contr_x100 := 2500
    temperature_motor_x100 := 2500
    shift_sensor_is_activated := false
    eventlog_is_enabled := false
    motor_status := 0 }

/-- The rider pedals forward (pulse counter 20, cadence 30.0 rpm) at clock value `now`. -/
def pedaling_inputs (now : Nat) : Inputs :=
  { idle_inputs now with
    pas_is_pedaling_forwards := true
    pas_get_pulse_counter := 20
    pas_get_cadence_rpm_x10 := 300 }

/-- The state after `app_init` on the boot state, for the concrete configuration. -/
def sample_init : State := app_init sample_config (idle_inputs 0) boot

/-- The rider squeezes the brake at clock value `now`. -/
def braking_inputs (now : Nat) : Inputs :=
  { idle_inputs now with brake_is_activated := true }

/-- The rider pedals forward while the motor reads 90.0 C (5 C above the maximum of the
concrete configuration). -/
def hot_inputs (now : Nat) : Inputs :=
  { pedaling_inputs now with temperature_motor_x100 := 9000 }

/-- The rider pedals forward holding the throttle at 60 percent. -/
def cruise_engage_inputs (now : Nat) : Inputs :=
  { pedaling_inputs now with throttle_percent := 60 }

/-- The concrete configuration switched to the cruise level (level 4) 10 ms after start. -/
def sample_cruise : State := app_set_assist_level sample_config (idle_inputs 10) sample_init 4

/-- The concrete configuration switched to push/walk (level `ASSIST_PUSH`) at 990 ms and
ticked every 20 ms from 1000 ms to 1180 ms: the ramp-up reaches the push-walk current. -/
def sample_push_walk : State :=
  [1000, 1020, 1040, 1060, 1080, 1100, 1120, 1140, 1160, 1180].foldl
    (fun s now => app_process sample_config (idle_inputs now) s)
    (app_set_assist_level sample_config (idle_inputs 990) sample_init 10)

/-- The rider holds the throttle at 50 percent without pedalling. -/
def throttle_inputs (now : Nat) : Inputs :=
  { idle_inputs now with throttle_percent := 50 }

/-- A battery reading of 0 at clock value `now`. -/
def no_voltage_inputs (now : Nat) : Inputs :=
  { idle_inputs now with motor_get_battery_voltage_x10 := 0 }

/-- A wheel-speed reading of 4000.0 rpm (above 32767) at clock value `now`, the rider
pedalling. -/
def overspeed_inputs (now : Nat) : Inputs :=
  { pedaling_inputs now with speed_sensor_get_rpm_x10 := 40000 }

/-- The concrete configuration with cruise engaged on the cruise level (one tick at 100 ms
with the throttle at 60 percent while pedalling). -/
def sample_cruise_active : State :=
  app_process sample_config (cruise_engage_inputs 100) sample_cruise

/-- The concrete configuration switched to the throttle-only level (level 5). -/
def sample_throttle_only : State :=
  app_set_assist_level sample_config (idle_inputs 10) sample_init 5

/-- Push/walk is left for level 3 at 1190 ms: `block_power_for(1000)` runs. -/
def sample_after_push_walk : State :=
  app_set_assist_level sample_config (idle_inputs 1190) sample_push_walk 3

/-- The rider pedals forward while the motor reads 130.0 C (45 C above the maximum of the
concrete configuration, and above 127 C). -/
def overheat_inputs (now : Nat) : Inputs :=
  { pedaling_inputs now with temperature_motor_x100 := 13000 }

/-- The rider pedals forward at a cadence of 104.0 rpm, between the ramp start (40.0 rpm) and
the ramp end (168.0 rpm) of the concrete configuration. -/
def spinning_inputs (now : Nat) : Inputs :=
  { pedaling_inputs now with pas_get_cadence_rpm_x10 := 1040 }

/-- The shift sensor is active at clock value `now`, no rider input otherwise. -/
def shifting_inputs (now : Nat) : Inputs :=
  { idle_inputs now with shift_sensor_is_activated := true }

/-- The concrete configuration built with `USE_PRETENSION` set. -/
def pretension_config : Config :=
  { sample_config with USE_PRETENSION := true }

/-- The state after `app_init` on the boot state, for `pretension_config`. -/
def pretension_init : State := app_init pretension_config (idle_inputs 0) boot

/-- A wheel-speed reading of 150.0 rpm (above the pretension cutoff of 128.0 rpm) at clock
value `now`. -/
def rolling_inputs (now : Nat) : Inputs :=
  { idle_inputs now with speed_sensor_get_rpm_x10 := 1500 }

/-- The rider holds the throttle at 60 percent without pedalling. -/
def throttle_touch_inputs (now : Nat) : Inputs :=
  { idle_inputs now with throttle_percent := 60 }

/-- The concrete configuration built with a 10 percent empty offset, no full offset and a
5 percent ramp-down offset. -/
def narrow_ramp_config : Config :=
  { sample_config with BATTERY_FULL_OFFSET_PERCENT := 0, LVC_RAMP_DOWN_OFFSET_PERCENT := 5 }

/-- The state after `app_init` on the boot state, for `narrow_ramp_config`. -/
def narrow_ramp_init : State := app_init narrow_ramp_config (idle_inputs 0) boot

/-- A battery reading of 39.0 V (below the 42.0 V cutoff) at clock value `now`. -/
def sagging_inputs (now : Nat) : Inputs :=
  { idle_inputs now with motor_get_battery_voltage_x10 := 390 }

/-- The state of `narrow_ramp_config` after `n` calls of `apply_low_voltage_limit`, one every
200 ms from 200 ms on, each sampling the 39.0 V reading: the filtered minimum sinks. -/
def narrow_ramp_sagging (n : Nat) : State :=
  ((List.range n).map (fun i => 200 * (i + 1))).foldl
    (fun s now => (apply_low_voltage_limit narrow_ramp_config (sagging_inputs now) s 80).state)
    narrow_ramp_init

/-- The concrete configuration after a call of `apply_shift_sensor_interrupt` at 1000 ms on
which the shift sensor turns active: the window is armed. -/
def sample_shift_armed : State :=
  (apply_shift_sensor_interrupt sample_config (shifting_inputs 1000) sample_init 50).state

/-- The next call, at 1600 ms with the shift sensor still active: the window has run out. -/
def sample_shift_expired : State :=
  (apply_shift_sensor_interrupt sample_config (shifting_inputs 1600) sample_shift_armed
    50).state

/-- The concrete configuration with the lights switched on by `app_set_lights(true)` 500 ms
after start. -/
def sample_lights_on : State := app_set_lights sample_config (idle_inputs 500) sample_init true

/-- The state after the first blocked tick (at 1200 ms) that follows push/walk. -/
def sample_blocked_tick : State :=
  app_process sample_config (idle_inputs 1200) sample_after_push_walk

/-! ## Arithmetic of the interpolation helper -/

theorem tdiv_scale_nonneg (a b d : Int) (ha : 0 ≤ a) (had : a ≤ d) (hd : 0 < d) (hb : 0 ≤ b) :
    0 ≤ Int.tdiv (a * b) d ∧ Int.tdiv (a * b) d ≤ b := by
  have h1 : 0 ≤ a * b := Int.mul_nonneg ha hb
  rw [Int.tdiv_eq_ediv h1 (le_of_lt hd)]
  refine ⟨Int.ediv_nonneg h1 (le_of_lt hd), ?_⟩
  apply Int.ediv_le_of_le_mul hd
  nlinarith

theorem tdiv_scale_nonpos (a b d : Int) (ha : 0 ≤ a) (had : a ≤ d) (hd : 0 < d) (hb : b ≤ 0) :
    b ≤ Int.tdiv (a * b) d ∧ Int.tdiv (a * b) d ≤ 0 := by
  have h := tdiv_scale_nonneg a (-b) d ha had hd (by omega)
  have e : a * b = -(a * -b) := by ring
  rw [e, Int.neg_tdiv]
  omega

/-- Inside the input interval the interpolation stays between its two output endpoints. -/
theorem MAP32_between (x in_min in_max out_min out_max : Int)
    (h1 : in_min ≤ x) (h2 : x ≤ in_max) (h3 : in_min < in_max) :
    min out_min out_max ≤ MAP32 x in_min in_max out_min out_max ∧
    MAP32 x in_min in_max out_min out_max ≤ max out_min out_max := by
  unfold MAP32
  rcases le_total out_min out_max with h | h
  · have := tdiv_scale_nonneg (x - in_min) (out_max - out_min) (in_max - in_min)
      (by omega) (by omega) (by omega) (by omega)
    rw [min_eq_left h, max_eq_right h]; omega
  · have := tdiv_scale_nonpos (x - in_min) (out_max - out_min) (in_max - in_min)
      (by omega) (by omega) (by omega) (by omega)
    rw [min_eq_right h, max_eq_left h]; omega

theorem MAP16_between (x in_min in_max out_min out_max : Int)
    (h1 : in_min ≤ x) (h2 : x ≤ in_max) (h3 : in_min < in_max) :
    min out_min out_max ≤ MAP16 x in_min in_max out_min out_max ∧
    MAP16 x in_min in_max out_min out_max ≤ max out_min out_max :=
  MAP32_between x in_min in_max out_min out_max h1 h2 h3

theorem u8_le_of_bounds (x : Int) (b : Nat) (h0 : 0 ≤ x) (h1 : x ≤ b) : u8 x ≤ b := by
  unfold u8; omega

/-! ## Stage lemmas: what each pipeline stage does to the candidate and to the state -/

theorem PercentInv_of_eq (s t : State) (hs : PercentInv s)
    (h1 : t.power_current_percent = s.power_current_percent)
    (h2 : t.ramp_down_target_current = s.ramp_down_target_current) : PercentInv t := by
  unfold PercentInv at *
  rw [h1, h2]
  exact hs

theorem ramp_up_zero (inp : Inputs) (s : State) (e : Bool) :
    (apply_current_ramp_up inp s 0 e).target_current = 0 := by
  simp [apply_current_ramp_up]

theorem ramp_down_disabled (cfg : Config) (inp : Inputs) (s : State) (c : Nat) :
    (apply_current_ramp_down cfg inp s c false).target_current = c := by
  simp [apply_current_ramp_down]

theorem apply_brake_active (cfg : Config) (inp : Inputs) (s : State) (c : Nat)
    (h : inp.brake_is_activated = true) :
    (apply_brake cfg inp s c).target_current = 0 ∧ (apply_brake cfg inp s c).ret = true := by
  simp [apply_brake, h]

theorem apply_speed_limit_le (cfg : Config) (inp : Inputs) (s : State) (c : Nat) (o : Bool) :
    (apply_speed_limit cfg inp s c o).target_current ≤ c := by
  unfold apply_speed_limit
  dsimp only
  split_ifs <;> dsimp only <;> omega

theorem apply_thermal_limit_le (cfg : Config) (inp : Inputs) (s : State) (c : Nat) :
    (apply_thermal_limit cfg inp s c).target_current ≤ c := by
  unfold apply_thermal_limit
  dsimp only
  split_ifs <;> dsimp only <;> omega

theorem apply_low_voltage_limit_le (cfg : Config) (inp : Inputs) (s : State) (c : Nat) :
    (apply_low_voltage_limit cfg inp s c).target_current ≤ c := by
  unfold apply_low_voltage_limit
  dsimp only
  split_ifs <;> dsimp only <;> omega

theorem apply_shift_sensor_interrupt_le (cfg : Config) (inp : Inputs) (s : State) (c : Nat) :
    (apply_shift_sensor_interrupt cfg inp s c).target_current ≤ c := by
  unfold apply_shift_sensor_interrupt
  dsimp only
  split_ifs <;> dsimp only <;> omega

theorem apply_brake_le (cfg : Config) (inp : Inputs) (s : State) (c : Nat) :
    (apply_brake cfg inp s c).target_current ≤ c := by
  unfold apply_brake
  dsimp only
  split_ifs <;> dsimp only <;> omega

theorem calculate_current_for_power_inv (cfg : Config) (inp : Inputs) (s : State) (w : Nat)
    (h : PercentInv s) :
    (calculate_current_for_power cfg inp s w).1 ≤ 100 ∧
    PercentInv (calculate_current_for_power cfg inp s w).2 := by
  unfold calculate_current_for_power PercentInv at *
  dsimp only
  split_ifs <;> dsimp only <;> omega

/-- The keep-current ramp of `apply_pas_cadence` yields a value between the keep-current
target and the candidate it ramps down. -/
theorem keep_ramp_bounds (cad st en tc1 keep : Nat) (hk : keep < tc1) (hc : st < cad)
    (h8 : tc1 < 256) :
    keep ≤ u8 (MAP32 (min cad en : Nat) st en tc1 keep) ∧
    u8 (MAP32 (min cad en : Nat) st en tc1 keep) ≤ tc1 := by
  generalize hx : min cad en = x
  rcases lt_trichotomy st en with h | h | h
  · have hb := MAP32_between x st en tc1 keep (by omega) (by omega) (by omega)
    rw [min_eq_right (by omega : (keep : Int) ≤ tc1),
      max_eq_left (by omega : (keep : Int) ≤ tc1)] at hb
    unfold u8; omega
  · have e : x = st := by omega
    subst e
    unfold MAP32 u8
    rw [Int.sub_self, Int.zero_mul, Int.zero_tdiv]
    omega
  · have e : x = en := by omega
    subst e
    unfold MAP32 u8
    rw [Int.mul_tdiv_cancel_left _ (by omega)]
    omega

theorem apply_pas_cadence_inv (cfg : Config) (inp : Inputs) (s : State) (c t : Nat)
    (hs : PercentInv s) (hc : c ≤ 100) (ht : t ≤ 100) :
    (apply_pas_cadence cfg inp s c t).target_current ≤ 100 ∧
    PercentInv (apply_pas_cadence cfg inp s c t).state := by
  unfold apply_pas_cadence
  dsimp only
  have hr := calculate_current_for_power_inv cfg inp s
    s.assist_level_data.level.target_power_watts hs
  generalize calculate_current_for_power cfg inp s
    s.assist_level_data.level.target_power_watts = r at hr ⊢
  obtain ⟨hr1, hr2⟩ := hr
  split_ifs with h1 h2 h3 h4 h5 h6 h7 h8 h9 <;> dsimp only <;> refine ⟨?_, by assumption⟩
  all_goals first
    | omega
    | skip
  · have hb := MAP16_between t 0 100 0 r.1 (by omega) (by omega) (by omega)
    unfold u8; omega
  · have := keep_ramp_bounds inp.pas_get_cadence_rpm_x10
      s.assist_level_data.keep_current_ramp_start_rpm_x10
      s.assist_level_data.keep_current_ramp_end_rpm_x10 r.1
      s.assist_level_data.keep_current_target_percent h7.1 h7.2 (by omega)
    omega
  · have := keep_ramp_bounds inp.pas_get_cadence_rpm_x10
      s.assist_level_data.keep_current_ramp_start_rpm_x10
      s.assist_level_data.keep_current_ramp_end_rpm_x10 c
      s.assist_level_data.keep_current_target_percent h8.1 h8.2 (by omega)
    omega

theorem cruise_transition_inv (inp : Inputs) (s : State) (t : Nat) (hs : PercentInv s) :
    PercentInv (cruise_transition inp s t) := by
  unfold cruise_transition PercentInv at *
  split_ifs <;> exact hs

theorem apply_cruise_inv (cfg : Config) (inp : Inputs) (s : State) (c t : Nat)
    (hs : PercentInv s) (hc : c ≤ 100) :
    (apply_cruise cfg inp s c t).target_current ≤ 100 ∧
    PercentInv (apply_cruise cfg inp s c t).state := by
  unfold apply_cruise
  dsimp only
  have hs1 := cruise_transition_inv inp s t hs
  generalize cruise_transition inp s t = s1 at hs1 ⊢
  have hr := calculate_current_for_power_inv cfg inp s1
    s1.assist_level_data.level.target_power_watts hs1
  generalize calculate_current_for_power cfg inp s1
    s1.assist_level_data.level.target_power_watts = r at hr ⊢
  obtain ⟨hr1, hr2⟩ := hr
  split_ifs <;> dsimp only <;> refine ⟨by omega, by assumption⟩

theorem apply_throttle_inv (cfg : Config) (inp : Inputs) (s : State) (c t : Nat)
    (hcfg : cfg.THROTTLE_START_PERCENT ≤ 100)
    (hs : PercentInv s) (hc : c ≤ 100) (ht : t ≤ 100) :
    (apply_throttle cfg inp s c t).target_current ≤ 100 ∧
    PercentInv (apply_throttle cfg inp s c t).state := by
  unfold apply_throttle
  dsimp only
  have hr := calculate_current_for_power_inv cfg inp s
    s.assist_level_data.level.max_throttle_power_watts hs
  generalize calculate_current_for_power cfg inp s
    s.assist_level_data.level.max_throttle_power_watts = r at hr ⊢
  obtain ⟨hr1, hr2⟩ := hr
  split_ifs <;> dsimp only <;> refine ⟨?_, by assumption⟩
  all_goals first
    | omega
    | skip
  have hb := MAP16_between t 0 100 cfg.THROTTLE_START_PERCENT r.1 (by omega) (by omega) (by omega)
  unfold u8
  omega

/-- The two stored percentages of `t` are those of `s`. -/
theorem check_power_block_frame (inp : Inputs) (s : State) :
    (check_power_block inp s).2.power_current_percent = s.power_current_percent ∧
    (check_power_block inp s).2.ramp_down_target_current = s.ramp_down_target_current := by
  unfold check_power_block
  split_ifs <;> exact ⟨rfl, rfl⟩

theorem apply_speed_limit_frame (cfg : Config) (inp : Inputs) (s : State) (c : Nat) (o : Bool) :
    (apply_speed_limit cfg inp s c o).state.power_current_percent = s.power_current_percent ∧
    (apply_speed_limit cfg inp s c o).state.ramp_down_target_current
      = s.ramp_down_target_current := by
  unfold apply_speed_limit speed_limiting_on speed_limiting_off
  dsimp only
  split_ifs <;> exact ⟨rfl, rfl⟩

theorem thermal_sample_frame (cfg : Config) (inp : Inputs) (s : State) :
    (thermal_sample cfg inp s).power_current_percent = s.power_current_percent ∧
    (thermal_sample cfg inp s).ramp_down_target_current = s.ramp_down_target_current := by
  unfold thermal_sample
  dsimp only
  split_ifs <;> exact ⟨rfl, rfl⟩

theorem apply_thermal_limit_frame (cfg : Config) (inp : Inputs) (s : State) (c : Nat) :
    (apply_thermal_limit cfg inp s c).state.power_current_percent = s.power_current_percent ∧
    (apply_thermal_limit cfg inp s c).state.ramp_down_target_current
      = s.ramp_down_target_current := by
  have h2 := thermal_sample_frame cfg inp s
  unfold apply_thermal_limit
  dsimp only
  generalize thermal_sample cfg inp s = s2 at h2 ⊢
  unfold temperature_limiting_on temperature_limiting_off
  split_ifs <;> exact h2

theorem lvc_sample_frame (inp : Inputs) (s : State) :
    (lvc_sample inp s).power_current_percent = s.power_current_percent ∧
    (lvc_sample inp s).ramp_down_target_current = s.ramp_down_target_current := by
  unfold lvc_sample eventlog_write_data
  dsimp only
  split_ifs <;> exact ⟨rfl, rfl⟩

theorem apply_low_voltage_limit_frame (cfg : Config) (inp : Inputs) (s : State) (c : Nat) :
    (apply_low_voltage_limit cfg inp s c).state.power_current_percent
      = s.power_current_percent ∧
    (apply_low_voltage_limit cfg inp s c).state.ramp_down_target_current
      = s.ramp_down_target_current := by
  have h2 := lvc_sample_frame inp s
  unfold apply_low_voltage_limit
  dsimp only
  generalize lvc_sample inp s = s2 at h2 ⊢
  unfold lvc_limiting_on
  split_ifs <;> exact h2

theorem shift_sensor_track_frame (cfg : Config) (inp : Inputs) (s : State) :
    (shift_sensor_track cfg inp s).power_current_percent = s.power_current_percent ∧
    (shift_sensor_track cfg inp s).ramp_down_target_current = s.ramp_down_target_current := by
  unfold shift_sensor_track
  dsimp only
  split_ifs <;> exact ⟨rfl, rfl⟩

theorem apply_shift_sensor_interrupt_frame (cfg : Config) (inp : Inputs) (s : State)
    (c : Nat) :
    (apply_shift_sensor_interrupt cfg inp s c).state.power_current_percent
      = s.power_current_percent ∧
    (apply_shift_sensor_interrupt cfg inp s c).state.ramp_down_target_current
      = s.ramp_down_target_current := by
  have h2 := shift_sensor_track_frame cfg inp s
  unfold apply_shift_sensor_interrupt
  dsimp only
  generalize shift_sensor_track cfg inp s = s2 at h2 ⊢
  unfold shift_sensor_finish shift_sensor_log_clamp
  dsimp only
  split_ifs <;> first | exact ⟨rfl, rfl⟩ | exact h2

theorem apply_brake_frame (cfg : Config) (inp : Inputs) (s : State) (c : Nat) :
    (apply_brake cfg inp s c).state.power_current_percent = s.power_current_percent ∧
    (apply_brake cfg inp s c).state.ramp_down_target_current = s.ramp_down_target_current := by
  unfold apply_brake lights_set
  dsimp only
  split_ifs <;> exact ⟨rfl, rfl⟩

theorem apply_current_ramp_up_frame (inp : Inputs) (s : State) (c : Nat) (e : Bool) :
    (apply_current_ramp_up inp s c e).state.power_current_percent = s.power_current_percent ∧
    (apply_current_ramp_up inp s c e).state.ramp_down_target_current
      = s.ramp_down_target_current := by
  unfold apply_current_ramp_up
  dsimp only
  split_ifs <;> exact ⟨rfl, rfl⟩

theorem apply_current_ramp_up_le (inp : Inputs) (s : State) (c : Nat) (e : Bool) :
    (apply_current_ramp_up inp s c e).target_current ≤ c := by
  unfold apply_current_ramp_up
  dsimp only
  split_ifs <;> dsimp only <;> omega

theorem apply_current_ramp_down_inv (cfg : Config) (inp : Inputs) (s : State) (c : Nat)
    (e : Bool) (hs : PercentInv s) (hc : c ≤ 100) :
    (apply_current_ramp_down cfg inp s c e).target_current ≤ 100 ∧
    PercentInv (apply_current_ramp_down cfg inp s c e).state := by
  unfold apply_current_ramp_down PercentInv u8 at *
  dsimp only
  split_ifs <;> dsimp only <;> omega

theorem app_process_candidate_inv (cfg : Config) (inp : Inputs) (s : State)
    (hcfg : cfg.THROTTLE_START_PERCENT ≤ 100) (hs : PercentInv s)
    (ht : inp.throttle_percent ≤ 100) :
    (app_process_candidate cfg inp s).target_current ≤ 100 ∧
    PercentInv (app_process_candidate cfg inp s).state := by
  unfold app_process_candidate
  dsimp only
  have h0 : PercentInv (check_power_block inp s).2 :=
    PercentInv_of_eq s _ hs (check_power_block_frame inp s).1 (check_power_block_frame inp s).2
  generalize check_power_block inp s = pb at h0 ⊢
  have hp : apply_pretension cfg inp pb.2 0 ≤ 100 := by
    unfold apply_pretension
    dsimp only
    split_ifs <;> omega
  generalize apply_pretension cfg inp pb.2 0 = t1 at hp ⊢
  have h2 := apply_pas_cadence_inv cfg inp pb.2 t1 inp.throttle_percent h0 hp ht
  generalize apply_pas_cadence cfg inp pb.2 t1 inp.throttle_percent = r2 at h2 ⊢
  have h3 := apply_cruise_inv cfg inp r2.state r2.target_current inp.throttle_percent h2.2 h2.1
  generalize apply_cruise cfg inp r2.state r2.target_current inp.throttle_percent = r3 at h3 ⊢
  have h4 := apply_throttle_inv cfg inp r3.state r3.target_current inp.throttle_percent hcfg
    h3.2 h3.1 ht
  generalize apply_throttle cfg inp r3.state r3.target_current inp.throttle_percent = r4
    at h4 ⊢
  split_ifs <;> dsimp only <;> first | exact h4 | exact ⟨by omega, h0⟩

theorem app_process_trace_inv (cfg : Config) (inp : Inputs) (s : State)
    (hcfg : cfg.THROTTLE_START_PERCENT ≤ 100) (hs : PercentInv s)
    (ht : inp.throttle_percent ≤ 100) :
    (app_process_trace cfg inp s).target_current ≤ 100 ∧
    PercentInv (app_process_trace cfg inp s).state := by
  unfold app_process_trace
  dsimp only
  have hc := app_process_candidate_inv cfg inp s hcfg hs ht
  generalize app_process_candidate cfg inp s = c at hc ⊢
  have l1 := apply_speed_limit_le cfg inp c.state c.target_current c.throttle_override
  have f1 := apply_speed_limit_frame cfg inp c.state c.target_current c.throttle_override
  generalize apply_speed_limit cfg inp c.state c.target_current c.throttle_override = r1
    at l1 f1 ⊢
  have l2 := apply_thermal_limit_le cfg inp r1.state r1.target_current
  have f2 := apply_thermal_limit_frame cfg inp r1.state r1.target_current
  generalize apply_thermal_limit cfg inp r1.state r1.target_current = r2 at l2 f2 ⊢
  have l3 := apply_low_voltage_limit_le cfg inp r2.state r2.target_current
  have f3 := apply_low_voltage_limit_frame cfg inp r2.state r2.target_current
  generalize apply_low_voltage_limit cfg inp r2.state r2.target_current = r3 at l3 f3 ⊢
  have l4 := apply_shift_sensor_interrupt_le cfg inp r3.state r3.target_current
  have f4 := apply_shift_sensor_interrupt_frame cfg inp r3.state r3.target_current
  generalize apply_shift_sensor_interrupt cfg inp r3.state r3.target_current = r4 at l4 f4 ⊢
  have l5 := apply_brake_le cfg inp r4.state r4.target_current
  have f5 := apply_brake_frame cfg inp r4.state r4.target_current
  generalize apply_brake cfg inp r4.state r4.target_current = r5 at l5 f5 ⊢
  generalize (r1.ret || r2.ret || r3.ret || r4.ret || !c.throttle_override) = e6
  have l6 := apply_current_ramp_up_le inp r5.state r5.target_current e6
  have f6 := apply_current_ramp_up_frame inp r5.state r5.target_current e6
  generalize apply_current_ramp_up inp r5.state r5.target_current e6 = r6 at l6 f6 ⊢
  generalize (!r5.ret && !r4.ret) = e7
  have i6 : PercentInv r6.state :=
    PercentInv_of_eq c.state r6.state hc.2 (by omega) (by omega)
  have h7 := apply_current_ramp_down_inv cfg inp r6.state r6.target_current e7 i6
    (by have := hc.1; omega)
  generalize apply_current_ramp_down cfg inp r6.state r6.target_current e7 = r7 at h7 ⊢
  exact ⟨h7.1, h7.2⟩

theorem reload_assist_params_inv (cfg : Config) (inp : Inputs) (s : State)
    (hs : PercentInv s) : PercentInv (reload_assist_params cfg inp s) := by
  unfold reload_assist_params
  dsimp only
  split_ifs with h1 h2 h3
  · have h := calculate_current_for_power_inv cfg inp
      (eventlog_write_data
        { s with assist_level_data := { s.assist_level_data with
            level := cfg.assist_levels s.operation_mode s.assist_level
            max_pas_wheel_speed_rpm_x10 := ((cfg.convert_wheel_speed_kph_to_rpm
              (cfg.assist_levels s.operation_mode s.assist_level).max_pas_speed_kph false
                % 65536 : Nat) : Int) * 10
            max_throttle_wheel_speed_rpm_x10 := ((cfg.convert_wheel_speed_kph_to_rpm
              (cfg.assist_levels s.operation_mode s.assist_level).max_throttle_speed_kph false
                % 65536 : Nat) : Int) * 10 } }
        .WHEEL_SPEED_PPM (((cfg.convert_wheel_speed_kph_to_rpm
              (cfg.assist_levels s.operation_mode s.assist_level).max_pas_speed_kph false
                % 65536 : Nat) : Int) * 10))
      (cfg.assist_levels s.operation_mode s.assist_level).target_power_watts hs
    exact h.2
  · exact hs
  · exact hs
  · exact hs

theorem app_set_assist_level_inv (cfg : Config) (inp : Inputs) (s : State) (level : Nat)
    (hs : PercentInv s) : PercentInv (app_set_assist_level cfg inp s level) := by
  unfold app_set_assist_level
  dsimp only
  split_ifs
  · exact reload_assist_params_inv cfg inp _ (PercentInv_of_eq s _ hs
      (by dsimp only [eventlog_write_data, block_power_for])
      (by dsimp only [eventlog_write_data, block_power_for]))
  · exact reload_assist_params_inv cfg inp _ (PercentInv_of_eq s _ hs
      (by dsimp only [eventlog_write_data]) (by dsimp only [eventlog_write_data]))
  · exact hs

theorem app_set_operation_mode_inv (cfg : Config) (inp : Inputs) (s : State) (mode : Nat)
    (hs : PercentInv s) : PercentInv (app_set_operation_mode cfg inp s mode) := by
  unfold app_set_operation_mode
  dsimp only
  split_ifs
  · exact reload_assist_params_inv cfg inp _ (PercentInv_of_eq s _ hs
      (by dsimp only [eventlog_write_data]) (by dsimp only [eventlog_write_data]))
  · exact hs

theorem app_init_inv (cfg : Config) (inp : Inputs) : PercentInv (app_init cfg inp boot) := by
  unfold app_init
  dsimp only
  have h0 : PercentInv boot := by unfold PercentInv boot; decide
  have h4 := fun s4 (e1 : s4.power_current_percent = boot.power_current_percent)
      (e2 : s4.ramp_down_target_current = boot.ramp_down_target_current) =>
    reload_assist_params_inv cfg inp _ (app_set_assist_level_inv cfg inp s4
      cfg.ASSIST_STARTUP_LEVEL (PercentInv_of_eq boot s4 h0 e1 e2))
  split_ifs
  · exact app_set_operation_mode_inv cfg inp _ _
      (h4 _ (by dsimp only [app_init_thresholds, lights_set])
        (by dsimp only [app_init_thresholds, lights_set]))
  · exact h4 _ (by dsimp only [app_init_thresholds, lights_set])
      (by dsimp only [app_init_thresholds, lights_set])
  · exact h4 _ (by dsimp only [app_init_thresholds, lights_set])
      (by dsimp only [app_init_thresholds, lights_set])

theorem app_set_lights_inv (cfg : Config) (inp : Inputs) (s : State) (value : Bool)
    (h : PercentInv s) : PercentInv (app_set_lights cfg inp s value) := by
  unfold app_set_lights
  dsimp only
  split_ifs
  all_goals first
    | exact h
    | exact app_set_operation_mode_inv cfg inp s _ h

theorem app_set_speed_limit_operation_mode_inv (cfg : Config) (inp : Inputs) (s : State)
    (rpm : Nat) (h : PercentInv s) :
    PercentInv (app_set_speed_limit_operation_mode cfg inp s rpm) := by
  unfold app_set_speed_limit_operation_mode
  split
  · split_ifs
    · exact app_set_operation_mode_inv cfg inp s _ h
    · exact app_set_operation_mode_inv cfg inp s _ h
  · exact h

theorem reachable_inv (cfg : Config) (hcfg : cfg.THROTTLE_START_PERCENT ≤ 100) (s : State)
    (h : Reachable cfg s) : PercentInv s := by
  induction h with
  | init inp => exact app_init_inv cfg inp
  | process inp s _ ht ih => exact (app_process_trace_inv cfg inp s hcfg ih ht).2
  | set_assist_level inp s level _ ih => exact app_set_assist_level_inv cfg inp s level ih
  | set_operation_mode inp s mode _ ih => exact app_set_operation_mode_inv cfg inp s mode ih
  | set_lights inp s value _ ih => exact app_set_lights_inv cfg inp s value ih
  | set_speed_limit_operation_mode inp s rpm _ ih =>
    exact app_set_speed_limit_operation_mode_inv cfg inp s rpm ih

theorem apply_current_ramp_down_zero (cfg : Config) (inp : Inputs) (s : State) (e : Bool) :
    (apply_current_ramp_down cfg inp s 0 e).target_current ≤ s.ramp_down_target_current ∧
    ((e = false ∨ s.ramp_down_target_current = 0) →
      (apply_current_ramp_down cfg inp s 0 e).target_current = 0) := by
  unfold apply_current_ramp_down u8
  dsimp only
  split_ifs with h1 h2 h3 h4 <;> dsimp only <;> refine ⟨by omega, fun h => ?_⟩ <;>
    rcases h with h | h <;> simp_all

theorem check_power_block_true (inp : Inputs) (s : State)
    (h : (check_power_block inp s).1 = true) : (check_power_block inp s).2 = s := by
  unfold check_power_block at *
  split_ifs at h ⊢
  all_goals simp_all

theorem calculate_current_for_power_frame (cfg : Config) (inp : Inputs) (s : State) (w : Nat) :
    (calculate_current_for_power cfg inp s w).2.cruise_paused = s.cruise_paused ∧
    (calculate_current_for_power cfg inp s w).2.cruise_block_throttle_return =
      s.cruise_block_throttle_return ∧
    (calculate_current_for_power cfg inp s w).2.assist_level_data = s.assist_level_data := by
  unfold calculate_current_for_power
  dsimp only
  split_ifs <;> exact ⟨rfl, rfl, rfl⟩

theorem cruise_transition_level (inp : Inputs) (s : State) (t : Nat) :
    (cruise_transition inp s t).assist_level_data = s.assist_level_data := by
  unfold cruise_transition
  split_ifs <;> rfl

theorem apply_cruise_paused (cfg : Config) (inp : Inputs) (s : State) (c t : Nat)
    (hflag : s.assist_level_data.level.flags &&& ASSIST_FLAG_CRUISE ≠ 0)
    (hok : inp.throttle_ok = true) :
    (apply_cruise cfg inp s c t).state.cruise_paused = (cruise_transition inp s t).cruise_paused ∧
    (apply_cruise cfg inp s c t).state.assist_level_data = s.assist_level_data ∧
    ((cruise_transition inp s t).cruise_paused = true →
      (apply_cruise cfg inp s c t).target_current = 0) := by
  unfold apply_cruise
  dsimp only
  rw [if_pos ⟨hflag, hok⟩]
  have hf := calculate_current_for_power_frame cfg inp (cruise_transition inp s t)
    (cruise_transition inp s t).assist_level_data.level.target_power_watts
  have hl := cruise_transition_level inp s t
  generalize calculate_current_for_power cfg inp (cruise_transition inp s t)
    (cruise_transition inp s t).assist_level_data.level.target_power_watts = r at hf ⊢
  generalize cruise_transition inp s t = s1 at hf hl ⊢
  split_ifs with h1 h2 <;> dsimp only
  · exact ⟨rfl, hl, fun _ => rfl⟩
  · exact ⟨hf.1, hf.2.2.trans hl, fun h => absurd h h1⟩
  · exact ⟨hf.1, hf.2.2.trans hl, fun h => absurd h h1⟩

theorem lvc_clamp_percent_ramp (cfg : Config) (s : State) (v : Nat)
    (hlow : cfg.LVC_LOW_CURRENT_PERCENT ≤ 100)
    (hcut : s.lvc_voltage_x100 ≤ s.lvc_ramp_down_end_voltage_x100)
    (hlt : s.lvc_ramp_down_end_voltage_x100 < s.lvc_ramp_down_start_voltage_x100)
    (h1 : s.lvc_ramp_down_end_voltage_x100 ≤ v) (h2 : v ≤ s.lvc_ramp_down_start_voltage_x100) :
    lvc_clamp_percent cfg s v = cfg.LVC_LOW_CURRENT_PERCENT +
      (v - s.lvc_ramp_down_end_voltage_x100) * (100 - cfg.LVC_LOW_CURRENT_PERCENT) /
        (s.lvc_ramp_down_start_voltage_x100 - s.lvc_ramp_down_end_voltage_x100) := by
  unfold lvc_clamp_percent
  dsimp only
  rw [if_neg (by omega)]
  have hb := MAP32_between v s.lvc_ramp_down_end_voltage_x100
    s.lvc_ramp_down_start_voltage_x100 cfg.LVC_LOW_CURRENT_PERCENT 100
    (by omega) (by omega) (by omega)
  rw [min_eq_left (by omega : (cfg.LVC_LOW_CURRENT_PERCENT : Int) ≤ 100),
    max_eq_right (by omega : (cfg.LVC_LOW_CURRENT_PERCENT : Int) ≤ 100)] at hb
  have hv : MAP32 v s.lvc_ramp_down_end_voltage_x100 s.lvc_ramp_down_start_voltage_x100
      cfg.LVC_LOW_CURRENT_PERCENT 100 =
      ((cfg.LVC_LOW_CURRENT_PERCENT +
      (v - s.lvc_ramp_down_end_voltage_x100) * (100 - cfg.LVC_LOW_CURRENT_PERCENT) /
        (s.lvc_ramp_down_start_voltage_x100 - s.lvc_ramp_down_end_voltage_x100) : Nat) : Int) := by
    unfold MAP32
    rw [Int.tdiv_eq_ediv (Int.mul_nonneg (by omega) (by omega)) (by omega)]
    push_cast [Nat.cast_sub h1, Nat.cast_sub hlow, Nat.cast_sub (le_of_lt hlt)]
    ring
  rw [hv] at hb ⊢
  generalize cfg.LVC_LOW_CURRENT_PERCENT +
      (v - s.lvc_ramp_down_end_voltage_x100) * (100 - cfg.LVC_LOW_CURRENT_PERCENT) /
        (s.lvc_ramp_down_start_voltage_x100 - s.lvc_ramp_down_end_voltage_x100) = p at hb ⊢
  unfold i8 CLAMP u8
  split_ifs <;> omega

theorem SameThresholds_trans (s t u : State) (h1 : SameThresholds s t)
    (h2 : SameThresholds t u) : SameThresholds s u := by
  unfold SameThresholds at *
  omega

theorem calculate_current_for_power_thresholds (cfg : Config) (inp : Inputs) (s : State)
    (w : Nat) : SameThresholds s (calculate_current_for_power cfg inp s w).2 := by
  unfold calculate_current_for_power SameThresholds
  dsimp only
  split_ifs <;> exact ⟨rfl, rfl, rfl, rfl⟩

theorem reload_assist_params_thresholds (cfg : Config) (inp : Inputs) (s : State) :
    SameThresholds s (reload_assist_params cfg inp s) := by
  unfold reload_assist_params
  dsimp only
  split_ifs with h1 h2 h3
  · have h := calculate_current_for_power_thresholds cfg inp
      (eventlog_write_data
        { s with assist_level_data := { s.assist_level_data with
            level := cfg.assist_levels s.operation_mode s.assist_level
            max_pas_wheel_speed_rpm_x10 := ((cfg.convert_wheel_speed_kph_to_rpm
              (cfg.assist_levels s.operation_mode s.assist_level).max_pas_speed_kph false
                % 65536 : Nat) : Int) * 10
            max_throttle_wheel_speed_rpm_x10 := ((cfg.convert_wheel_speed_kph_to_rpm
              (cfg.assist_levels s.operation_mode s.assist_level).max_throttle_speed_kph false
                % 65536 : Nat) : Int) * 10 } }
        .WHEEL_SPEED_PPM (((cfg.convert_wheel_speed_kph_to_rpm
              (cfg.assist_levels s.operation_mode s.assist_level).max_pas_speed_kph false
                % 65536 : Nat) : Int) * 10))
      (cfg.assist_levels s.operation_mode s.assist_level).target_power_watts
    exact h
  · exact ⟨rfl, rfl, rfl, rfl⟩
  · exact ⟨rfl, rfl, rfl, rfl⟩
  · exact ⟨rfl, rfl, rfl, rfl⟩

theorem app_set_assist_level_thresholds (cfg : Config) (inp : Inputs) (s : State)
    (level : Nat) : SameThresholds s (app_set_assist_level cfg inp s level) := by
  unfold app_set_assist_level
  dsimp only
  split_ifs
  · refine SameThresholds_trans _ _ _ ?_ (reload_assist_params_thresholds cfg inp _)
    unfold SameThresholds
    dsimp only [eventlog_write_data, block_power_for]
    exact ⟨rfl, rfl, rfl, rfl⟩
  · refine SameThresholds_trans _ _ _ ?_ (reload_assist_params_thresholds cfg inp _)
    unfold SameThresholds
    dsimp only [eventlog_write_data]
    exact ⟨rfl, rfl, rfl, rfl⟩
  · exact ⟨rfl, rfl, rfl, rfl⟩

theorem app_set_operation_mode_thresholds (cfg : Config) (inp : Inputs) (s : State)
    (mode : Nat) : SameThresholds s (app_set_operation_mode cfg inp s mode) := by
  unfold app_set_operation_mode
  dsimp only
  split_ifs
  · refine SameThresholds_trans _ _ _ ?_ (reload_assist_params_thresholds cfg inp _)
    unfold SameThresholds
    dsimp only [eventlog_write_data]
    exact ⟨rfl, rfl, rfl, rfl⟩
  · exact ⟨rfl, rfl, rfl, rfl⟩

/-- After `app_init` the ramp-down end threshold is the cutoff plus the low padding. -/
theorem app_init_ramp_down_end (cfg : Config) (inp : Inputs) :
    (app_init cfg inp boot).lvc_ramp_down_end_voltage_x100 =
      ((app_init cfg inp boot).lvc_voltage_x100 + (app_init cfg inp boot).low_voltage_pad_x100)
        % 65536 := by
  have key : ∀ s4 : State,
      s4.lvc_ramp_down_end_voltage_x100 = (s4.lvc_voltage_x100 + s4.low_voltage_pad_x100) % 65536 →
      ∀ t, SameThresholds s4 t →
      t.lvc_ramp_down_end_voltage_x100 = (t.lvc_voltage_x100 + t.low_voltage_pad_x100) % 65536 := by
    intro s4 h t ht
    unfold SameThresholds at ht
    omega
  unfold app_init
  dsimp only
  split_ifs
  · refine key _ ?_ _ (SameThresholds_trans _ _ _ (SameThresholds_trans _ _ _
      (app_set_assist_level_thresholds cfg inp _ _) (reload_assist_params_thresholds cfg inp _))
      (app_set_operation_mode_thresholds cfg inp _ _))
    dsimp only [app_init_thresholds]
  · refine key _ ?_ _ (SameThresholds_trans _ _ _
      (app_set_assist_level_thresholds cfg inp _ _) (reload_assist_params_thresholds cfg inp _))
    dsimp only [app_init_thresholds]
  · refine key _ ?_ _ (SameThresholds_trans _ _ _
      (app_set_assist_level_thresholds cfg inp _ _) (reload_assist_params_thresholds cfg inp _))
    dsimp only [app_init_thresholds]

/-- After every tick the ramped-down target is the value that was passed to
`motor_set_target_current`: the "ramped-down target stored by the previous tick" is the
previous tick's output. -/
theorem app_process_stores_output (cfg : Config) (inp : Inputs) (s : State) :
    (app_process cfg inp s).ramp_down_target_current
      = (app_process cfg inp s).motor_target_current := by
  unfold app_process app_process_trace
  dsimp only
  generalize apply_current_ramp_up inp _ _ _ = r6
  generalize (!(apply_brake cfg inp _ _).ret && !(apply_shift_sensor_interrupt cfg inp _ _).ret)
    = e7
  unfold apply_current_ramp_down
  dsimp only
  split_ifs <;> rfl

/-! ## What a blocked tick leaves to the ramp-down -/

theorem apply_speed_limit_ramp_clock (cfg : Config) (inp : Inputs) (s : State) (c : Nat)
    (o : Bool) :
    (apply_speed_limit cfg inp s c o).state.last_ramp_down_decrement_ms
      = s.last_ramp_down_decrement_ms := by
  unfold apply_speed_limit speed_limiting_on speed_limiting_off
  dsimp only
  split_ifs <;> rfl

theorem apply_thermal_limit_ramp_clock (cfg : Config) (inp : Inputs) (s : State) (c : Nat) :
    (apply_thermal_limit cfg inp s c).state.last_ramp_down_decrement_ms
      = s.last_ramp_down_decrement_ms := by
  have h2 : (thermal_sample cfg inp s).last_ramp_down_decrement_ms
      = s.last_ramp_down_decrement_ms := by
    unfold thermal_sample
    dsimp only
    split_ifs <;> rfl
  unfold apply_thermal_limit
  dsimp only
  generalize thermal_sample cfg inp s = s2 at h2 ⊢
  unfold temperature_limiting_on temperature_limiting_off
  split_ifs <;> exact h2

theorem apply_low_voltage_limit_ramp_clock (cfg : Config) (inp : Inputs) (s : State)
    (c : Nat) :
    (apply_low_voltage_limit cfg inp s c).state.last_ramp_down_decrement_ms
      = s.last_ramp_down_decrement_ms := by
  have h2 : (lvc_sample inp s).last_ramp_down_decrement_ms = s.last_ramp_down_decrement_ms := by
    unfold lvc_sample eventlog_write_data
    dsimp only
    split_ifs <;> rfl
  unfold apply_low_voltage_limit
  dsimp only
  generalize lvc_sample inp s = s2 at h2 ⊢
  unfold lvc_limiting_on
  split_ifs <;> exact h2

theorem apply_shift_sensor_interrupt_ramp_clock (cfg : Config) (inp : Inputs) (s : State)
    (c : Nat) :
    (apply_shift_sensor_interrupt cfg inp s c).state.last_ramp_down_decrement_ms
      = s.last_ramp_down_decrement_ms := by
  have h2 : (shift_sensor_track cfg inp s).last_ramp_down_decrement_ms
      = s.last_ramp_down_decrement_ms := by
    unfold shift_sensor_track
    dsimp only
    split_ifs <;> rfl
  unfold apply_shift_sensor_interrupt
  dsimp only
  generalize shift_sensor_track cfg inp s = s2 at h2 ⊢
  unfold shift_sensor_finish shift_sensor_log_clamp
  dsimp only
  split_ifs <;> first | rfl | exact h2

/-- A candidate of 0 is never clamped by the shift interrupt. -/
theorem apply_shift_sensor_interrupt_zero (cfg : Config) (inp : Inputs) (s : State) :
    (apply_shift_sensor_interrupt cfg inp s 0).ret = false := by
  unfold apply_shift_sensor_interrupt
  dsimp only
  split_ifs with h1 h2 h3 h4
  · rfl
  · rfl
  · rfl
  · exact absurd h4 (by omega)
  · rfl

theorem apply_brake_ramp_clock (cfg : Config) (inp : Inputs) (s : State) (c : Nat) :
    (apply_brake cfg inp s c).state.last_ramp_down_decrement_ms
      = s.last_ramp_down_decrement_ms ∧
    (apply_brake cfg inp s c).ret = inp.brake_is_activated := by
  unfold apply_brake lights_set
  dsimp only
  split_ifs <;> exact ⟨rfl, rfl⟩

theorem apply_current_ramp_up_ramp_clock (inp : Inputs) (s : State) (c : Nat) (e : Bool) :
    (apply_current_ramp_up inp s c e).state.last_ramp_down_decrement_ms
      = s.last_ramp_down_decrement_ms := by
  unfold apply_current_ramp_up
  dsimp only
  split_ifs <;> rfl

/-- What `apply_current_ramp_down` makes of the candidate 0, for a stored ramped-down target
`r` in `uint8_t` range: disabled or `r = 0` gives 0; otherwise, when at least 10 ms have
passed since the stored decrement timestamp, one step down (or 0 when `r` is less than the
step), and `r` itself when fewer than 10 ms have passed. -/
theorem apply_current_ramp_down_of_zero (cfg : Config) (inp : Inputs) (s : State) (e : Bool)
    (hr : s.ramp_down_target_current < 256) :
    ((e = false ∨ s.ramp_down_target_current = 0) →
      (apply_current_ramp_down cfg inp s 0 e).target_current = 0) ∧
    (e = true → 0 < s.ramp_down_target_current →
      u16 (u32 ((inp.system_ms : Int) - s.last_ramp_down_decrement_ms)) ≥ 10 →
      cfg.CURRENT_RAMP_DOWN_PERCENT_10MS ≤ s.ramp_down_target_current →
      (apply_current_ramp_down cfg inp s 0 e).target_current =
        s.ramp_down_target_current - cfg.CURRENT_RAMP_DOWN_PERCENT_10MS) ∧
    (e = true → 0 < s.ramp_down_target_current →
      u16 (u32 ((inp.system_ms : Int) - s.last_ramp_down_decrement_ms)) ≥ 10 →
      s.ramp_down_target_current < cfg.CURRENT_RAMP_DOWN_PERCENT_10MS →
      (apply_current_ramp_down cfg inp s 0 e).target_current = 0) ∧
    (e = true → 0 < s.ramp_down_target_current →
      u16 (u32 ((inp.system_ms : Int) - s.last_ramp_down_decrement_ms)) < 10 →
      (apply_current_ramp_down cfg inp s 0 e).target_current = s.ramp_down_target_current) := by
  generalize htd : u16 (u32 ((inp.system_ms : Int) - s.last_ramp_down_decrement_ms)) = td
  unfold apply_current_ramp_down u8
  dsimp only
  rw [htd]
  by_cases h1 : e = true ∧ 0 < s.ramp_down_target_current
  · rw [if_pos h1]
    refine ⟨fun h => ?_, fun _ _ ht hs => ?_, fun _ _ ht hs => ?_, fun _ _ ht => ?_⟩
    · rcases h with h | h
      · rw [h] at h1; exact absurd h1.1 (by simp)
      · omega
    · rw [if_pos ht]
      split_ifs <;> dsimp only <;> omega
    · rw [if_pos ht]
      split_ifs <;> dsimp only <;> omega
    · rw [if_neg (by omega)]
  · rw [if_neg h1]
    refine ⟨fun _ => rfl, fun he hp _ _ => absurd ⟨he, hp⟩ h1,
      fun he hp _ _ => absurd ⟨he, hp⟩ h1, fun he hp _ => absurd ⟨he, hp⟩ h1⟩

/-! ## The claims -/

/-- C1: on every tick of `app_process` in which `brake_is_activated()` is true, from any
prior state (whatever the ramp-up / ramp-down state) and for all other sensor inputs,
`apply_brake` returns true with candidate 0, and the value passed to
`motor_set_target_current` is 0, so the motor is disabled that tick. -/
theorem brake_forces_zero_current (cfg : Config) (inp : Inputs) (s : State)
    (hbrake : inp.brake_is_activated = true) :
    (∀ (s1 : State) (c : Nat), (apply_brake cfg inp s1 c).ret = true ∧
      (apply_brake cfg inp s1 c).target_current = 0) ∧
    (app_process_trace cfg inp s).is_braking = true ∧
    (app_process cfg inp s).motor_target_current = 0 ∧
    (app_process cfg inp s).motor_enabled = false := by
  refine ⟨fun s1 c => ⟨(apply_brake_active cfg inp s1 c hbrake).2,
    (apply_brake_active cfg inp s1 c hbrake).1⟩, ?_, ?_, ?_⟩
  · simp [app_process_trace, (apply_brake_active cfg inp _ _ hbrake).2]
  · simp [app_process, app_process_trace, (apply_brake_active cfg inp _ _ hbrake).1,
      (apply_brake_active cfg inp _ _ hbrake).2, ramp_up_zero, ramp_down_disabled]
  · simp [app_process, app_process_trace, (apply_brake_active cfg inp _ _ hbrake).1,
      (apply_brake_active cfg inp _ _ hbrake).2, ramp_up_zero, ramp_down_disabled]

set_option maxRecDepth 100000 in
/-- Witness of C1: braking right after the push-walk ramp has reached 10 percent. -/
theorem brake_forces_zero_current_witness :
    (braking_inputs 1200).brake_is_activated = true ∧
    sample_push_walk.ramp_down_target_current = 10 ∧
    (app_process sample_config (braking_inputs 1200) sample_push_walk).motor_target_current
      = 0 :=
  ⟨by decide, by decide,
    (brake_forces_zero_current sample_config (braking_inputs 1200) sample_push_walk
      (by decide)).2.2.1⟩

/-- C2: for every tick of `app_process`, from every state reachable from `app_init` and for
all sensor inputs with mapped throttle percent in 0..100, the value passed to
`motor_set_target_current` lies in 0..100.  The configuration is a sane one:
`THROTTLE_START_PERCENT` is a percentage, and no level of the table gives the keep-current
ramp equal start and end cadences (where the C interpolation would divide by zero). -/
theorem target_current_in_percent_range (cfg : Config)
    (hstart : cfg.THROTTLE_START_PERCENT ≤ 100) (_hkeep : KeepRampDefined cfg)
    (s : State) (hs : Reachable cfg s) (inp : Inputs) (ht : inp.throttle_percent ≤ 100) :
    0 ≤ (app_process cfg inp s).motor_target_current ∧
    (app_process cfg inp s).motor_target_current ≤ 100 :=
  ⟨Nat.zero_le _,
    (app_process_trace_inv cfg inp s hstart (reachable_inv cfg hstart s hs) ht).1⟩

/-- Witness of C2: the concrete configuration, the state after `app_init` and
`app_set_lights(true)` (the lights are on), the rider pedalling with the throttle at
60 percent. -/
theorem target_current_in_percent_range_witness :
    sample_config.THROTTLE_START_PERCENT ≤ 100 ∧ KeepRampDefined sample_config ∧
    Reachable sample_config sample_lights_on ∧ sample_lights_on.lights_state = true ∧
    (cruise_engage_inputs 1000).throttle_percent ≤ 100 ∧
    (app_process sample_config (cruise_engage_inputs 1000) sample_lights_on).motor_target_current
      ≤ 100 :=
  have hk : KeepRampDefined sample_config := by
    intro m l
    unfold sample_config
    dsimp only
    split_ifs <;> decide
  ⟨by decide, hk, Reachable.set_lights _ _ _ (Reachable.init _), by decide, by decide,
    (target_current_in_percent_range sample_config (by decide) hk sample_lights_on
      (Reachable.set_lights _ _ _ (Reachable.init _)) (cruise_engage_inputs 1000)
      (by decide)).2⟩

/-- C3: no limiter ever increases the candidate: for each of `apply_speed_limit`,
`apply_thermal_limit`, `apply_low_voltage_limit`, `apply_shift_sensor_interrupt` and
`apply_brake`, for every limiter state, every sensor input and every candidate `c` on entry
(in particular every `c` in 0..100), the candidate on return is at most `c`. -/
theorem limiters_never_increase (cfg : Config) (inp : Inputs) (s : State) (c : Nat)
    (throttle_override : Bool) :
    (apply_speed_limit cfg inp s c throttle_override).target_current ≤ c ∧
    (apply_thermal_limit cfg inp s c).target_current ≤ c ∧
    (apply_low_voltage_limit cfg inp s c).target_current ≤ c ∧
    (apply_shift_sensor_interrupt cfg inp s c).target_current ≤ c ∧
    (apply_brake cfg inp s c).target_current ≤ c :=
  ⟨apply_speed_limit_le cfg inp s c throttle_override, apply_thermal_limit_le cfg inp s c,
    apply_low_voltage_limit_le cfg inp s c, apply_shift_sensor_interrupt_le cfg inp s c,
    apply_brake_le cfg inp s c⟩

set_option maxRecDepth 100000 in
/-- Counterexample to C4 as stated: push/walk has ramped up to its 10 percent; the level is
changed, which starts the power block; on the next tick `check_power_block()` returns true
and yet the value passed to `motor_set_target_current` is 5, not 0. -/
theorem power_block_output_not_zero :
    sample_push_walk.motor_target_current = 10 ∧
    (check_power_block (idle_inputs 1200) sample_after_push_walk).1 = true ∧
    (app_process sample_config (idle_inputs 1200) sample_after_push_walk).motor_target_current
      = 5 := by
  decide

/-- C4 (amended): on every tick of `app_process` in which `check_power_block()` returns true,
for all other inputs, the candidate entering the limiters and the value leaving ramp-up are
0, and the value passed to `motor_set_target_current` is what ramp-down makes of that 0.
With `r` the ramped-down target stored by the previous tick (the previous output, a
`uint8_t`): the output is 0 when the brake is active or `r` is 0; otherwise, when at least
10 ms (in the 16-bit difference of the code) have passed since the stored decrement
timestamp, it is `r - CURRENT_RAMP_DOWN_PERCENT_10MS`, or 0 when `r` is less than that step;
and when fewer than 10 ms have passed it is `r` unchanged.  In every case it is at most
`r`. -/
theorem power_block_output_ramps_down (cfg : Config) (inp : Inputs) (s : State)
    (hb : (check_power_block inp s).1 = true)
    (hr : s.ramp_down_target_current < 256) :
    (app_process_trace cfg inp s).power_blocked = true ∧
    (app_process_trace cfg inp s).candidate = 0 ∧
    (app_process_trace cfg inp s).ramp_up_out = 0 ∧
    (app_process cfg inp s).motor_target_current ≤ s.ramp_down_target_current ∧
    ((inp.brake_is_activated = true ∨ s.ramp_down_target_current = 0) →
      (app_process cfg inp s).motor_target_current = 0) ∧
    (inp.brake_is_activated = false → 0 < s.ramp_down_target_current →
      u16 (u32 ((inp.system_ms : Int) - s.last_ramp_down_decrement_ms)) ≥ 10 →
      cfg.CURRENT_RAMP_DOWN_PERCENT_10MS ≤ s.ramp_down_target_current →
      (app_process cfg inp s).motor_target_current =
        s.ramp_down_target_current - cfg.CURRENT_RAMP_DOWN_PERCENT_10MS) ∧
    (inp.brake_is_activated = false → 0 < s.ramp_down_target_current →
      u16 (u32 ((inp.system_ms : Int) - s.last_ramp_down_decrement_ms)) ≥ 10 →
      s.ramp_down_target_current < cfg.CURRENT_RAMP_DOWN_PERCENT_10MS →
      (app_process cfg inp s).motor_target_current = 0) ∧
    (inp.brake_is_activated = false → 0 < s.ramp_down_target_current →
      u16 (u32 ((inp.system_ms : Int) - s.last_ramp_down_decrement_ms)) < 10 →
      (app_process cfg inp s).motor_target_current = s.ramp_down_target_current) := by
  have hc : app_process_candidate cfg inp s =
      ⟨s, true, 0, s.assist_level_data.level.max_cadence_percent, false, false⟩ := by
    unfold app_process_candidate
    dsimp only
    rw [if_pos hb, check_power_block_true inp s hb]
  unfold app_process app_process_trace
  dsimp only
  rw [hc]
  dsimp only
  have l1 := apply_speed_limit_le cfg inp s 0 false
  have f1 := apply_speed_limit_frame cfg inp s 0 false
  have k1 := apply_speed_limit_ramp_clock cfg inp s 0 false
  generalize apply_speed_limit cfg inp s 0 false = r1 at l1 f1 k1 ⊢
  have z1 : r1.target_current = 0 := by omega
  rw [z1]
  have l2 := apply_thermal_limit_le cfg inp r1.state 0
  have f2 := apply_thermal_limit_frame cfg inp r1.state 0
  have k2 := apply_thermal_limit_ramp_clock cfg inp r1.state 0
  generalize apply_thermal_limit cfg inp r1.state 0 = r2 at l2 f2 k2 ⊢
  have z2 : r2.target_current = 0 := by omega
  rw [z2]
  have l3 := apply_low_voltage_limit_le cfg inp r2.state 0
  have f3 := apply_low_voltage_limit_frame cfg inp r2.state 0
  have k3 := apply_low_voltage_limit_ramp_clock cfg inp r2.state 0
  generalize apply_low_voltage_limit cfg inp r2.state 0 = r3 at l3 f3 k3 ⊢
  have z3 : r3.target_current = 0 := by omega
  rw [z3]
  have l4 := apply_shift_sensor_interrupt_le cfg inp r3.state 0
  have f4 := apply_shift_sensor_interrupt_frame cfg inp r3.state 0
  have k4 := apply_shift_sensor_interrupt_ramp_clock cfg inp r3.state 0
  have n4 := apply_shift_sensor_interrupt_zero cfg inp r3.state
  generalize apply_shift_sensor_interrupt cfg inp r3.state 0 = r4 at l4 f4 k4 n4 ⊢
  have z4 : r4.target_current = 0 := by omega
  rw [z4, n4]
  have l5 := apply_brake_le cfg inp r4.state 0
  have f5 := apply_brake_frame cfg inp r4.state 0
  have k5 := apply_brake_ramp_clock cfg inp r4.state 0
  generalize apply_brake cfg inp r4.state 0 = r5 at l5 f5 k5 ⊢
  have z5 : r5.target_current = 0 := by omega
  rw [z5, k5.2]
  generalize (r1.ret || r2.ret || r3.ret || false || !false) = e6
  have l6 := apply_current_ramp_up_le inp r5.state 0 e6
  have f6 := apply_current_ramp_up_frame inp r5.state 0 e6
  have k6 := apply_current_ramp_up_ramp_clock inp r5.state 0 e6
  generalize apply_current_ramp_up inp r5.state 0 e6 = r6 at l6 f6 k6 ⊢
  have z6 : r6.target_current = 0 := by omega
  rw [z6]
  have e7 : r6.state.ramp_down_target_current = s.ramp_down_target_current := by omega
  have c7 : r6.state.last_ramp_down_decrement_ms = s.last_ramp_down_decrement_ms := by
    rw [k6, k5.1, k4, k3, k2, k1]
  have h7 := apply_current_ramp_down_zero cfg inp r6.state
    (!inp.brake_is_activated && !false)
  have g7 := apply_current_ramp_down_of_zero cfg inp r6.state
    (!inp.brake_is_activated && !false) (by omega)
  rw [e7] at h7
  rw [e7, c7] at g7
  refine ⟨rfl, rfl, rfl, h7.1, fun h => h7.2 ?_, fun hbr => g7.2.1 (by simp [hbr]),
    fun hbr => g7.2.2.1 (by simp [hbr]), fun hbr => g7.2.2.2 (by simp [hbr])⟩
  rcases h with h | h
  · left; simp [h]
  · right; exact h

set_option maxRecDepth 100000 in
/-- Witness of C4 (amended): the two blocked ticks after push/walk.  At 1200 ms the stored
target is 10 and the output is 10 - 5; at 1210 ms the stored target is 5, 10 ms have passed
since the stored decrement timestamp, and the output is 5 - 5, which is 0. -/
theorem power_block_output_ramps_down_witness :
    ((check_power_block (idle_inputs 1200) sample_after_push_walk).1 = true ∧
      sample_after_push_walk.ramp_down_target_current = 10 ∧
      (check_power_block (idle_inputs 1210) sample_blocked_tick).1 = true ∧
      sample_blocked_tick.ramp_down_target_current = 5 ∧
      sample_blocked_tick.last_ramp_down_decrement_ms = 1200 ∧
      sample_config.CURRENT_RAMP_DOWN_PERCENT_10MS = 5) ∧
    (app_process sample_config (idle_inputs 1200) sample_after_push_walk).motor_target_current
      = sample_after_push_walk.ramp_down_target_current
        - sample_config.CURRENT_RAMP_DOWN_PERCENT_10MS ∧
    (app_process sample_config (idle_inputs 1210) sample_blocked_tick).motor_target_current
      = sample_blocked_tick.ramp_down_target_current
        - sample_config.CURRENT_RAMP_DOWN_PERCENT_10MS :=
  ⟨by decide,
    (power_block_output_ramps_down sample_config (idle_inputs 1200) sample_after_push_walk
      (by decide) (by decide)).2.2.2.2.2.1 (by decide) (by decide) (by decide) (by decide),
    (power_block_output_ramps_down sample_config (idle_inputs 1210) sample_blocked_tick
      (by decide) (by decide)).2.2.2.2.2.1 (by decide) (by decide) (by decide) (by decide)⟩

/-- C5 (the code at the failing inputs): `block_power_for(1000)` called 500 ms before the
32-bit counter wraps stores the deadline 500, and `check_power_block()` 100 ms later already
returns false; called 1000 ms before the wrap it stores the deadline 0, the "inactive"
value, and `check_power_block()` returns false at once. -/
theorem power_block_wraparound_released_early (s : State) :
    (block_power_for (idle_inputs 4294966796) s 1000).power_blocked_until_ms = 500 ∧
    (check_power_block (idle_inputs 4294966896)
      (block_power_for (idle_inputs 4294966796) s 1000)).1 = false ∧
    (block_power_for (idle_inputs 4294966296) s 1000).power_blocked_until_ms = 0 ∧
    (check_power_block (idle_inputs 4294966296)
      (block_power_for (idle_inputs 4294966296) s 1000)).1 = false := by
  refine ⟨?_, ?_, ?_, ?_⟩
  · unfold block_power_for idle_inputs
    simp
  · unfold check_power_block block_power_for idle_inputs
    simp
  · unfold block_power_for idle_inputs
    simp
  · unfold check_power_block block_power_for idle_inputs
    simp

/-- C6: for every call of `apply_current_ramp_up` with `enable = true`, the candidate on
return is at most the ramped target stored by the previous call plus 1, and it is greater
than that stored target only if the time elapsed since the last step timestamp
(`now - last_ramp_up_increment_ms` modulo 2^32, and even its low 16 bits, which is what the
code compares) is at least `ramp_up_current_interval_ms`. -/
theorem ramp_up_step_bound (inp : Inputs) (s : State) (c : Nat) :
    (apply_current_ramp_up inp s c true).target_current ≤ s.ramp_up_target_current + 1 ∧
    ((apply_current_ramp_up inp s c true).target_current > s.ramp_up_target_current →
      s.ramp_up_current_interval_ms
        ≤ u16 (u32 ((inp.system_ms : Int) - s.last_ramp_up_increment_ms)) ∧
      s.ramp_up_current_interval_ms
        ≤ u32 ((inp.system_ms : Int) - s.last_ramp_up_increment_ms)) := by
  unfold apply_current_ramp_up
  simp only [u16, u32]
  split_ifs with h1 h2 h3 <;> dsimp only <;> simp only [true_and] at h1 <;> omega

/-- C7: for every call of `apply_current_ramp_down` with `enable = true` (candidate and
stored target being `uint8_t` values), the candidate on return is at least the ramped-down
target stored by the previous call minus `CURRENT_RAMP_DOWN_PERCENT_10MS`, it is lower than
that stored target only if at least 10 ms have elapsed since the last decrement timestamp,
and it is never lower than the candidate passed in. -/
theorem ramp_down_step_bound (cfg : Config) (inp : Inputs) (s : State) (c : Nat)
    (hc : c < 256) (hs : s.ramp_down_target_current < 256) :
    s.ramp_down_target_current ≤ (apply_current_ramp_down cfg inp s c true).target_current
      + cfg.CURRENT_RAMP_DOWN_PERCENT_10MS ∧
    ((apply_current_ramp_down cfg inp s c true).target_current < s.ramp_down_target_current →
      10 ≤ u16 (u32 ((inp.system_ms : Int) - s.last_ramp_down_decrement_ms)) ∧
      10 ≤ u32 ((inp.system_ms : Int) - s.last_ramp_down_decrement_ms)) ∧
    c ≤ (apply_current_ramp_down cfg inp s c true).target_current := by
  unfold apply_current_ramp_down
  simp only [u16, u32, u8]
  split_ifs with h1 h2 h3 <;> dsimp only <;> simp only [true_and] at h1 <;> omega

set_option maxRecDepth 100000 in
/-- Witness of C7: the stored target is 10 after push/walk, the candidate is 0, and the call
returns 5 = 10 - `CURRENT_RAMP_DOWN_PERCENT_10MS`. -/
theorem ramp_down_step_bound_witness :
    (0 < 256 ∧ sample_push_walk.ramp_down_target_current < 256) ∧
    (apply_current_ramp_down sample_config (idle_inputs 1200) sample_push_walk 0
      true).target_current = 5 ∧
    sample_push_walk.ramp_down_target_current ≤
      (apply_current_ramp_down sample_config (idle_inputs 1200) sample_push_walk 0
        true).target_current + sample_config.CURRENT_RAMP_DOWN_PERCENT_10MS :=
  ⟨by decide, by decide,
    (ramp_down_step_bound sample_config (idle_inputs 1200) sample_push_walk 0 (by decide)
      (by decide)).1⟩

/-- C9: with the level's cruise flag set and the throttle sensor healthy, starting from
Paused with the throttle-return block disarmed, one `apply_cruise` call with brake off,
throttle = 60 percent, pedaling forward (not backward) and pulse counter above
`CRUISE_ENGAGE_PAS_PULSES` leaves the state Active; a following `apply_cruise` call with
brake active (any throttle, any pedaling, any candidate) leaves the state Paused and returns
candidate 0. -/
theorem cruise_engage_then_brake (cfg : Config) (inp1 inp2 : Inputs) (s : State)
    (c1 c2 t2 : Nat)
    (hflag : s.assist_level_data.level.flags &&& ASSIST_FLAG_CRUISE ≠ 0)
    (hok1 : inp1.throttle_ok = true) (hok2 : inp2.throttle_ok = true)
    (hpaused : s.cruise_paused = true) (hblock : s.cruise_block_throttle_return = false)
    (hbrake1 : inp1.brake_is_activated = false)
    (hfwd : inp1.pas_is_pedaling_forwards = true)
    (hbwd : inp1.pas_is_pedaling_backwards = false)
    (hpulse : inp1.pas_get_pulse_counter > CRUISE_ENGAGE_PAS_PULSES)
    (hbrake2 : inp2.brake_is_activated = true) :
    (apply_cruise cfg inp1 s c1 60).state.cruise_paused = false ∧
    (apply_cruise cfg inp2 (apply_cruise cfg inp1 s c1 60).state c2 t2).state.cruise_paused
      = true ∧
    (apply_cruise cfg inp2 (apply_cruise cfg inp1 s c1 60).state c2 t2).target_current = 0 := by
  have h1 := apply_cruise_paused cfg inp1 s c1 60 hflag hok1
  have e1 : (cruise_transition inp1 s 60).cruise_paused = false := by
    unfold cruise_transition
    simp [hbrake1, hbwd, hpaused, hblock, hfwd, hpulse]
  have hflag2 : (apply_cruise cfg inp1 s c1 60).state.assist_level_data.level.flags
      &&& ASSIST_FLAG_CRUISE ≠ 0 := by rw [h1.2.1]; exact hflag
  have h2 := apply_cruise_paused cfg inp2 (apply_cruise cfg inp1 s c1 60).state c2 t2 hflag2 hok2
  have e2 : (cruise_transition inp2 (apply_cruise cfg inp1 s c1 60).state t2).cruise_paused
      = true := by
    unfold cruise_transition
    simp [hbrake2]
  exact ⟨h1.1.trans e1, h2.1.trans e2, h2.2.2 e2⟩

/-- Witness of C9: the concrete configuration on its cruise level; pedalling with throttle
60 percent engages cruise (candidate 20 percent), the brake pauses it again. -/
theorem cruise_engage_then_brake_witness :
    (sample_cruise.assist_level_data.level.flags &&& ASSIST_FLAG_CRUISE ≠ 0 ∧
      sample_cruise.cruise_paused = true ∧
      sample_cruise.cruise_block_throttle_return = false ∧
      (cruise_engage_inputs 100).pas_get_pulse_counter > CRUISE_ENGAGE_PAS_PULSES) ∧
    (apply_cruise sample_config (cruise_engage_inputs 100) sample_cruise 0 60).target_current
      = 20 ∧
    (apply_cruise sample_config (cruise_engage_inputs 100) sample_cruise 0
      60).state.cruise_paused = false ∧
    (apply_cruise sample_config (braking_inputs 105)
      (apply_cruise sample_config (cruise_engage_inputs 100) sample_cruise 0 60).state 20
      0).target_current = 0 :=
  have h := cruise_engage_then_brake sample_config (cruise_engage_inputs 100)
    (braking_inputs 105) sample_cruise 0 20 0 (by decide) (by decide) (by decide) (by decide)
    (by decide) (by decide) (by decide) (by decide) (by decide) (by decide)
  ⟨by decide, by decide, h.1, h.2.2⟩

/-- Counterexample to C10 as stated: for the concrete configuration (cutoff 42.00 V,
ramp-down end 43.26 V, ramp-down start 45.40 V, `LVC_LOW_CURRENT_PERCENT` = 20) the clamp
percent at a filtered voltage exactly at the cutoff `lvc_voltage_x100` is 0, not 20. -/
theorem lvc_cutoff_percent_not_low_current :
    sample_init.lvc_voltage_x100 = 4200 ∧
    sample_init.lvc_ramp_down_end_voltage_x100 = 4326 ∧
    sample_init.lvc_ramp_down_start_voltage_x100 = 4540 ∧
    sample_config.LVC_LOW_CURRENT_PERCENT = 20 ∧
    lvc_clamp_percent sample_config sample_init sample_init.lvc_voltage_x100 = 0 := by
  decide

/-- C10 (amended): after `app_init` has derived the thresholds (with
`LVC_LOW_CURRENT_PERCENT` a percentage and cutoff <= ramp-down end < ramp-down start), the
lower endpoint of the ramp is `lvc_ramp_down_end_voltage_x100`, which is the cutoff plus the
low padding, not the cutoff: the clamp percent is 100 at a filtered voltage exactly
`lvc_ramp_down_start_voltage_x100`, exactly `LVC_LOW_CURRENT_PERCENT` at exactly
`lvc_ramp_down_end_voltage_x100`, and for every filtered voltage between ramp-down end and
ramp-down start it is the linear interpolation (rounded down) between those endpoints. -/
theorem lvc_ramp_endpoints (cfg : Config) (inp : Inputs)
    (hlow : cfg.LVC_LOW_CURRENT_PERCENT ≤ 100)
    (hcut : (app_init cfg inp boot).lvc_voltage_x100
      ≤ (app_init cfg inp boot).lvc_ramp_down_end_voltage_x100)
    (hlt : (app_init cfg inp boot).lvc_ramp_down_end_voltage_x100
      < (app_init cfg inp boot).lvc_ramp_down_start_voltage_x100) :
    (app_init cfg inp boot).lvc_ramp_down_end_voltage_x100 =
      ((app_init cfg inp boot).lvc_voltage_x100 + (app_init cfg inp boot).low_voltage_pad_x100)
        % 65536 ∧
    lvc_clamp_percent cfg (app_init cfg inp boot)
      (app_init cfg inp boot).lvc_ramp_down_start_voltage_x100 = 100 ∧
    lvc_clamp_percent cfg (app_init cfg inp boot)
      (app_init cfg inp boot).lvc_ramp_down_end_voltage_x100 = cfg.LVC_LOW_CURRENT_PERCENT ∧
    ∀ v : Nat, (app_init cfg inp boot).lvc_ramp_down_end_voltage_x100 ≤ v →
      v ≤ (app_init cfg inp boot).lvc_ramp_down_start_voltage_x100 →
      lvc_clamp_percent cfg (app_init cfg inp boot) v = cfg.LVC_LOW_CURRENT_PERCENT +
        (v - (app_init cfg inp boot).lvc_ramp_down_end_voltage_x100)
          * (100 - cfg.LVC_LOW_CURRENT_PERCENT) /
          ((app_init cfg inp boot).lvc_ramp_down_start_voltage_x100
            - (app_init cfg inp boot).lvc_ramp_down_end_voltage_x100) := by
  refine ⟨app_init_ramp_down_end cfg inp, ?_, ?_,
    fun v h1 h2 => lvc_clamp_percent_ramp cfg _ v hlow hcut hlt h1 h2⟩
  · rw [lvc_clamp_percent_ramp cfg _ _ hlow hcut hlt (by omega) (by omega)]
    rw [Nat.mul_div_cancel_left _ (by omega)]
    omega
  · rw [lvc_clamp_percent_ramp cfg _ _ hlow hcut hlt (by omega) (by omega)]
    simp

/-- Witness of C10 (amended): the concrete configuration; half-way value at 44.33 V. -/
theorem lvc_ramp_endpoints_witness :
    (sample_config.LVC_LOW_CURRENT_PERCENT ≤ 100 ∧
      sample_init.lvc_voltage_x100 ≤ sample_init.lvc_ramp_down_end_voltage_x100 ∧
      sample_init.lvc_ramp_down_end_voltage_x100
        < sample_init.lvc_ramp_down_start_voltage_x100) ∧
    lvc_clamp_percent sample_config sample_init 4433 = 60 ∧
    lvc_clamp_percent sample_config sample_init 4540 = 100 ∧
    lvc_clamp_percent sample_config sample_init 4326 = 20 :=
  have h := lvc_ramp_endpoints sample_config (idle_inputs 0) (by decide) (by decide)
    (by decide)
  ⟨by decide, by decide, h.2.1, h.2.2.1⟩

/-! ## Lemmas on the power-to-current helper, the voltage filter and the assist-level cache -/

/-- Calls of `calculate_current_for_power` with a zero battery reading change nothing. -/
theorem calculate_current_for_power_calls_zero (cfg : Config) (s : State)
    (calls : List (Inputs × Nat))
    (hz : ∀ call ∈ calls, call.1.motor_get_battery_voltage_x10 = 0) :
    calculate_current_for_power_calls cfg s calls = s := by
  induction calls generalizing s with
  | nil => rfl
  | cons call rest ih =>
    have h0 : call.1.motor_get_battery_voltage_x10 = 0 := hz call (List.mem_cons_self _ _)
    have hstep : (calculate_current_for_power cfg call.1 s call.2).2 = s := by
      unfold calculate_current_for_power
      simp [h0]
    show calculate_current_for_power_calls cfg
      (calculate_current_for_power cfg call.1 s call.2).2 rest = s
    rw [hstep]
    exact ih s (fun c hc => hz c (List.mem_cons_of_mem _ hc))

theorem calculate_current_for_power_u8 (cfg : Config) (inp : Inputs) (s : State) (w : Nat)
    (hs : s.power_current_percent < 256) :
    (calculate_current_for_power cfg inp s w).1 < 256 := by
  unfold calculate_current_for_power
  dsimp only
  split_ifs <;> dsimp only <;> omega

theorem calculate_current_for_power_keeps (cfg : Config) (inp : Inputs) (s : State) (w : Nat) :
    (calculate_current_for_power cfg inp s w).2.cruise_paused = s.cruise_paused ∧
    (calculate_current_for_power cfg inp s w).2.power_blocked_until_ms
      = s.power_blocked_until_ms ∧
    (calculate_current_for_power cfg inp s w).2.assist_level = s.assist_level := by
  unfold calculate_current_for_power
  dsimp only
  split_ifs <;> exact ⟨rfl, rfl, rfl⟩

/-- With a non-negative target below the value, the smoothing step lands between them. -/
theorem EXPONENTIAL_FILTER_between (value target : Int) (h0 : 0 ≤ target)
    (hlt : target < value) :
    target ≤ EXPONENTIAL_FILTER value target 8 ∧ EXPONENTIAL_FILTER value target 8 < value := by
  unfold EXPONENTIAL_FILTER
  rw [Int.tdiv_eq_ediv (by omega) (by omega)]
  omega

theorem lvc_sample_flt (inp : Inputs) (s : State) :
    (lvc_sample inp s).flt_min_bat_volt_x100 ≤ s.flt_min_bat_volt_x100 ∧
    ((lvc_sample inp s).flt_min_bat_volt_x100 ≠ s.flt_min_bat_volt_x100 →
      inp.system_ms > s.next_voltage_reading_ms ∧
      ((inp.motor_get_battery_voltage_x10 * 10 % 4294967296 : Nat) : Int)
        < s.flt_min_bat_volt_x100 ∧
      ((inp.motor_get_battery_voltage_x10 * 10 % 4294967296 : Nat) : Int)
        ≤ (lvc_sample inp s).flt_min_bat_volt_x100 ∧
      (lvc_sample inp s).flt_min_bat_volt_x100 < s.flt_min_bat_volt_x100) ∧
    (0 ≤ s.flt_min_bat_volt_x100 → 0 ≤ (lvc_sample inp s).flt_min_bat_volt_x100) := by
  have hr : (0 : Int) ≤ ((inp.motor_get_battery_voltage_x10 * 10 % 4294967296 : Nat) : Int) :=
    Int.ofNat_nonneg _
  unfold lvc_sample eventlog_write_data
  dsimp only
  generalize ((inp.motor_get_battery_voltage_x10 * 10 % 4294967296 : Nat) : Int) = r at hr ⊢
  split_ifs with h1 h2 <;> (try dsimp only)
  all_goals first
    | (have hb := EXPONENTIAL_FILTER_between s.flt_min_bat_volt_x100 r hr h2
       omega)
    | omega

theorem apply_low_voltage_limit_flt (cfg : Config) (inp : Inputs) (s : State) (c : Nat) :
    (apply_low_voltage_limit cfg inp s c).state.flt_min_bat_volt_x100
      = (lvc_sample inp s).flt_min_bat_volt_x100 := by
  unfold apply_low_voltage_limit
  dsimp only
  generalize lvc_sample inp s = s1
  unfold lvc_limiting_on eventlog_write_data
  split_ifs <;> rfl

theorem reload_assist_params_cruise (cfg : Config) (inp : Inputs) (s : State) :
    (s.assist_level < cfg.ASSIST_PUSH → (reload_assist_params cfg inp s).cruise_paused = true) ∧
    (¬ s.assist_level < cfg.ASSIST_PUSH →
      (reload_assist_params cfg inp s).cruise_paused = s.cruise_paused) ∧
    (reload_assist_params cfg inp s).power_blocked_until_ms = s.power_blocked_until_ms ∧
    (reload_assist_params cfg inp s).assist_level = s.assist_level := by
  unfold reload_assist_params
  dsimp only
  split_ifs with h1 h2 h3
  · refine ⟨fun _ => rfl, fun h => absurd h1 h, ?_, ?_⟩
    · exact (calculate_current_for_power_keeps cfg inp _ _).2.1
    · exact (calculate_current_for_power_keeps cfg inp _ _).2.2
  · exact ⟨fun _ => rfl, fun h => absurd h1 h, rfl, rfl⟩
  · exact ⟨fun h => absurd h h1, fun _ => rfl, rfl, rfl⟩
  · exact ⟨fun h => absurd h h1, fun _ => rfl, rfl, rfl⟩

/-- The state on which `app_set_assist_level(level)` runs `reload_assist_params` when the
level changes (app.c 213-222). -/
theorem app_set_assist_level_changed (cfg : Config) (inp : Inputs) (s : State) (level : Nat)
    (h : s.assist_level ≠ level) :
    app_set_assist_level cfg inp s level =
      reload_assist_params cfg inp
        (eventlog_write_data
          { (if s.assist_level = cfg.ASSIST_PUSH ∧ cfg.USE_PUSH_WALK = true then
              block_power_for inp s 1000 else s) with assist_level := level }
          .ASSIST_LEVEL level) := by
  unfold app_set_assist_level
  rw [if_pos h]

/-! ## Lemmas on the status code and the target cadence -/

theorem first_applicable_chain (p1 p2 p3 p5 p6 : Prop) [Decidable p1] [Decidable p2]
    [Decidable p3] [Decidable p5] [Decidable p6] (ok brake : Bool)
    (a1 a2 a3 a4 a5 a6 a7 : status_t) :
    (if p1 then a1 else if p2 then a2 else if p3 then a3 else if ok = false then a4
      else if p5 then a5 else if p6 then a6 else if brake = true then a7 else .NORMAL) =
    first_applicable [(decide p1, a1), (decide p2, a2), (decide p3, a3), (!ok, a4),
      (decide p5, a5), (decide p6, a6), (brake, a7)] := by
  by_cases h1 : p1 <;> by_cases h2 : p2 <;> by_cases h3 : p3 <;> by_cases h5 : p5 <;>
    by_cases h6 : p6 <;> cases ok <;> cases brake <;>
    simp [h1, h2, h3, h5, h6, first_applicable]

theorem check_power_block_level (inp : Inputs) (s : State) :
    (check_power_block inp s).2.assist_level_data = s.assist_level_data := by
  unfold check_power_block
  split_ifs <;> rfl

theorem apply_pas_cadence_level (cfg : Config) (inp : Inputs) (s : State) (c t : Nat) :
    (apply_pas_cadence cfg inp s c t).state.assist_level_data = s.assist_level_data := by
  unfold apply_pas_cadence
  dsimp only
  have h := (calculate_current_for_power_frame cfg inp s
    s.assist_level_data.level.target_power_watts).2.2
  generalize calculate_current_for_power cfg inp s
    s.assist_level_data.level.target_power_watts = r at h ⊢
  split_ifs <;> first | exact h | rfl

theorem apply_throttle_level (cfg : Config) (inp : Inputs) (s : State) (c t : Nat) :
    (apply_throttle cfg inp s c t).state.assist_level_data = s.assist_level_data := by
  unfold apply_throttle
  dsimp only
  have h := (calculate_current_for_power_frame cfg inp s
    s.assist_level_data.level.max_throttle_power_watts).2.2
  generalize calculate_current_for_power cfg inp s
    s.assist_level_data.level.max_throttle_power_watts = r at h ⊢
  split_ifs <;> first | exact h | rfl

theorem apply_cruise_level (cfg : Config) (inp : Inputs) (s : State) (c t : Nat) :
    (apply_cruise cfg inp s c t).state.assist_level_data = s.assist_level_data := by
  unfold apply_cruise
  dsimp only
  have hl := cruise_transition_level inp s t
  have h := (calculate_current_for_power_frame cfg inp (cruise_transition inp s t)
    (cruise_transition inp s t).assist_level_data.level.target_power_watts).2.2
  generalize calculate_current_for_power cfg inp (cruise_transition inp s t)
    (cruise_transition inp s t).assist_level_data.level.target_power_watts = r at h ⊢
  generalize cruise_transition inp s t = s1 at h hl ⊢
  split_ifs <;> first | exact h.trans hl | exact hl | rfl

/-- The target cadence chosen by the candidate stage, in terms of the level cached before the
tick. -/
theorem app_process_candidate_cadence (cfg : Config) (inp : Inputs) (s : State) :
    (app_process_candidate cfg inp s).target_cadence =
      if (app_process_candidate cfg inp s).throttle_override = true ∧
          s.assist_level_data.level.target_power_watts > 0 ∧
          s.assist_level_data.level.max_pas_speed_kph > 0 ∧
          s.assist_level_data.level.flags &&& ASSIST_FLAG_OVERRIDE_CADENCE ≠ 0 then
        cfg.THROTTLE_CADENCE_OVERRIDE_PERCENT % 256
      else s.assist_level_data.level.max_cadence_percent := by
  unfold app_process_candidate
  dsimp only
  have e0 := check_power_block_level inp s
  generalize check_power_block inp s = pb at e0 ⊢
  generalize apply_pretension cfg inp pb.2 0 = t1
  have e2 := apply_pas_cadence_level cfg inp pb.2 t1 inp.throttle_percent
  generalize apply_pas_cadence cfg inp pb.2 t1 inp.throttle_percent = r2 at e2 ⊢
  have e3 := apply_cruise_level cfg inp r2.state r2.target_current inp.throttle_percent
  generalize apply_cruise cfg inp r2.state r2.target_current inp.throttle_percent = r3 at e3 ⊢
  have e4 := apply_throttle_level cfg inp r3.state r3.target_current inp.throttle_percent
  generalize apply_throttle cfg inp r3.state r3.target_current inp.throttle_percent = r4
    at e4 ⊢
  have e : r4.state.assist_level_data = s.assist_level_data := by
    rw [e4, e3, e2, e0]
  rw [e]
  split_ifs with h1 h2 h3 h4 <;> dsimp only at * <;> simp_all

/-! ## Lemmas on the speed limiter -/

/-- What `apply_speed_limit` does for a wheel-speed reading that fits the `int16_t` local
(below 32768), with a positive ceiling and a positive ramp interval. -/
theorem apply_speed_limit_in_range (cfg : Config) (inp : Inputs) (s : State) (c : Nat)
    (o : Bool) (ceiling : Int)
    (hceil : ceiling = if o = true then s.assist_level_data.max_throttle_wheel_speed_rpm_x10
      else s.assist_level_data.max_pas_wheel_speed_rpm_x10)
    (huse : cfg.USE_SPEED_SENSOR = true) (hpos : ceiling > 0)
    (hspeed : inp.speed_sensor_get_rpm_x10 < 32768)
    (hint : 0 < s.speed_limit_ramp_interval_rpm_x10) (hc : c < 256) :
    ((inp.speed_sensor_get_rpm_x10 : Int) < ceiling - s.speed_limit_ramp_interval_rpm_x10 →
      (apply_speed_limit cfg inp s c o).target_current = c ∧
      (apply_speed_limit cfg inp s c o).ret = false) ∧
    ((inp.speed_sensor_get_rpm_x10 : Int) > ceiling + s.speed_limit_ramp_interval_rpm_x10 →
      (apply_speed_limit cfg inp s c o).target_current = min c 1) ∧
    (ceiling - s.speed_limit_ramp_interval_rpm_x10 ≤ (inp.speed_sensor_get_rpm_x10 : Int) →
      (inp.speed_sensor_get_rpm_x10 : Int) ≤ ceiling + s.speed_limit_ramp_interval_rpm_x10 →
      ((apply_speed_limit cfg inp s c o).target_current : Int) =
        min (c : Int) (MAP32 inp.speed_sensor_get_rpm_x10
          (ceiling - s.speed_limit_ramp_interval_rpm_x10)
          (ceiling + s.speed_limit_ramp_interval_rpm_x10) c 1) ∧
      (1 ≤ c → 1 ≤ (apply_speed_limit cfg inp s c o).target_current)) ∧
    ((apply_speed_limit cfg inp s c o).ret = true ↔
      (apply_speed_limit cfg inp s c o).target_current ≠ c) := by
  have hi : i16 (inp.speed_sensor_get_rpm_x10 : Int) = inp.speed_sensor_get_rpm_x10 := by
    unfold i16; omega
  unfold apply_speed_limit
  dsimp only
  rw [if_pos huse, ← hceil, if_pos hpos, hi]
  generalize (inp.speed_sensor_get_rpm_x10 : Int) = v
  generalize hI : (s.speed_limit_ramp_interval_rpm_x10 : Int) = iv
  have hiv : 0 < iv := by omega
  by_cases h1 : v < ceiling - iv
  · rw [if_pos h1]
    exact ⟨fun _ => ⟨rfl, rfl⟩, fun h => by omega, fun h => by omega, by simp⟩
  · rw [if_neg h1]
    by_cases h2 : v > ceiling + iv
    · rw [if_pos h2]
      split_ifs with h3 <;> dsimp only
      · exact ⟨fun h => absurd h h1, fun _ => by omega, fun _ h => by omega, by simp; omega⟩
      · exact ⟨fun h => absurd h h1, fun _ => by omega, fun _ h => by omega, by simp⟩
    · rw [if_neg h2]
      have hb := MAP32_between v (ceiling - iv) (ceiling + iv) c 1 (by omega) (by omega)
        (by omega)
      generalize MAP32 v (ceiling - iv) (ceiling + iv) c 1 = m at hb ⊢
      have hm : 0 ≤ m ∧ m < 256 ∧ (1 ≤ c → 1 ≤ m) := by
        rcases le_total (c : Int) 1 with h | h
        · rw [min_eq_left h, max_eq_right h] at hb; omega
        · rw [min_eq_right h, max_eq_left h] at hb; omega
      have hu : ((u8 m : Nat) : Int) = m := by unfold u8; omega
      split_ifs with h3 <;> dsimp only
      · refine ⟨fun h => absurd h h1, fun h => absurd h h2, fun _ _ => ⟨?_, fun h => ?_⟩, ?_⟩
        · rw [hu]; omega
        · omega
        · simp; omega
      · refine ⟨fun h => absurd h h1, fun h => absurd h h2, fun _ _ => ⟨?_, fun h => h⟩, ?_⟩
        · omega
        · simp

/-- With a zero ceiling `apply_speed_limit` never changes the candidate. -/
theorem apply_speed_limit_no_ceiling (cfg : Config) (inp : Inputs) (s : State) (c : Nat)
    (o : Bool)
    (hceil : (if o = true then s.assist_level_data.max_throttle_wheel_speed_rpm_x10
      else s.assist_level_data.max_pas_wheel_speed_rpm_x10) = 0) :
    (apply_speed_limit cfg inp s c o).target_current = c ∧
    (apply_speed_limit cfg inp s c o).ret = false := by
  unfold apply_speed_limit
  dsimp only
  rw [hceil, if_neg (by decide : ¬ (0 : Int) > 0)]
  split_ifs <;> exact ⟨rfl, rfl⟩

/-! ## The claims C11 to C20 -/

/-- C11: `calculate_current_for_power(watts)`, for every `uint16_t` watts and battery reading
(and `MAX_CURRENT_AMPS` small enough for the 32-bit product): with a reading
`voltage_x10 > 0` it returns `min(100, watts*1000 / (voltage_x10 * MAX_CURRENT_AMPS))` with
integer division and remembers that value, and every later call with a reading of 0 (after
any number of such calls, whatever their `watts`) returns exactly that value; with a reading
of 0 it returns the remembered value and leaves the whole state unchanged; the remembered
value is 0 at program start. -/
theorem calculate_current_for_power_spec (cfg : Config) (inp : Inputs) (s : State)
    (watts : Nat) (hw : watts < 65536) (hv : inp.motor_get_battery_voltage_x10 < 65536)
    (hamps : cfg.MAX_CURRENT_AMPS ≤ 65536) :
    (0 < inp.motor_get_battery_voltage_x10 →
      (calculate_current_for_power cfg inp s watts).1 =
        min 100 (watts * 1000 / (inp.motor_get_battery_voltage_x10 * cfg.MAX_CURRENT_AMPS)) ∧
      (calculate_current_for_power cfg inp s watts).2.power_current_percent =
        (calculate_current_for_power cfg inp s watts).1 ∧
      ∀ (calls : List (Inputs × Nat)) (inp0 : Inputs) (watts0 : Nat),
        (∀ call ∈ calls, call.1.motor_get_battery_voltage_x10 = 0) →
        inp0.motor_get_battery_voltage_x10 = 0 →
        (calculate_current_for_power cfg inp0
          (calculate_current_for_power_calls cfg
            (calculate_current_for_power cfg inp s watts).2 calls) watts0).1 =
          (calculate_current_for_power cfg inp s watts).1) ∧
    (inp.motor_get_battery_voltage_x10 = 0 →
      (calculate_current_for_power cfg inp s watts).1 = s.power_current_percent ∧
      (calculate_current_for_power cfg inp s watts).2 = s) ∧
    (inp.motor_get_battery_voltage_x10 = 0 →
      (calculate_current_for_power cfg inp boot watts).1 = 0) := by
  refine ⟨fun hpos => ?_, fun hz => ?_, fun hz => ?_⟩
  · have e1 : watts % 65536 * 1000 % 4294967296 = watts * 1000 := by
      rw [Nat.mod_eq_of_lt hw]
      exact Nat.mod_eq_of_lt (by omega)
    have hprod : inp.motor_get_battery_voltage_x10 * cfg.MAX_CURRENT_AMPS < 4294967296 := by
      calc inp.motor_get_battery_voltage_x10 * cfg.MAX_CURRENT_AMPS
          ≤ 65535 * 65536 := Nat.mul_le_mul (by omega) hamps
        _ < 4294967296 := by norm_num
    have e2 : inp.motor_get_battery_voltage_x10 * cfg.MAX_CURRENT_AMPS % 4294967296 =
        inp.motor_get_battery_voltage_x10 * cfg.MAX_CURRENT_AMPS := Nat.mod_eq_of_lt hprod
    have hret : (calculate_current_for_power cfg inp s watts).1 =
        min 100 (watts * 1000 / (inp.motor_get_battery_voltage_x10 * cfg.MAX_CURRENT_AMPS)) := by
      unfold calculate_current_for_power
      dsimp only
      rw [if_pos hpos, e1, e2]
    have hmem : (calculate_current_for_power cfg inp s watts).2.power_current_percent =
        (calculate_current_for_power cfg inp s watts).1 := by
      unfold calculate_current_for_power
      dsimp only
      rw [if_pos hpos]
    refine ⟨hret, hmem, fun calls inp0 watts0 hcalls h0 => ?_⟩
    rw [calculate_current_for_power_calls_zero cfg _ calls hcalls]
    rw [← hmem]
    generalize (calculate_current_for_power cfg inp s watts).2 = s1
    unfold calculate_current_for_power
    simp [h0]
  · unfold calculate_current_for_power
    simp [hz]
  · unfold calculate_current_for_power
    simp [hz, boot]

/-- Witness of C11: 500 W at 50.0 V and 30 A give 33 percent, which a later call with a zero
reading (asking for 750 W) returns again. -/
theorem calculate_current_for_power_spec_witness :
    (500 < 65536 ∧ (idle_inputs 0).motor_get_battery_voltage_x10 < 65536 ∧
      sample_config.MAX_CURRENT_AMPS ≤ 65536 ∧
      0 < (idle_inputs 0).motor_get_battery_voltage_x10 ∧
      (no_voltage_inputs 5).motor_get_battery_voltage_x10 = 0) ∧
    (calculate_current_for_power sample_config (idle_inputs 0) boot 500).1 = 33 ∧
    (calculate_current_for_power sample_config (no_voltage_inputs 5)
      (calculate_current_for_power_calls sample_config
        (calculate_current_for_power sample_config (idle_inputs 0) boot 500).2 []) 750).1 =
      (calculate_current_for_power sample_config (idle_inputs 0) boot 500).1 :=
  ⟨by decide, by decide,
    ((calculate_current_for_power_spec sample_config (idle_inputs 0) boot 500 (by decide)
      (by decide) (by decide)).1 (by decide)).2.2 [] (no_voltage_inputs 5) 750
      (fun _ h => absurd h (List.not_mem_nil _)) (by decide)⟩

/-- Counterexample to C12 as stated: after `app_init` the remembered value is 33; with a
battery reading of 0, `calculate_current_for_power(0)` returns 33, not 0. -/
theorem calculate_current_for_zero_watts_sticky :
    sample_init.power_current_percent = 33 ∧
    (no_voltage_inputs 5).motor_get_battery_voltage_x10 = 0 ∧
    (calculate_current_for_power sample_config (no_voltage_inputs 5) sample_init 0).1 = 33 := by
  decide

/-- C12 (amended): for every prior state of the helper and every nonzero battery reading,
`calculate_current_for_power(0)` returns 0 (and remembers 0); with a battery reading of 0 it
returns the remembered value, whatever `watts` is. -/
theorem calculate_current_for_zero_watts (cfg : Config) (inp : Inputs) (s : State) :
    (0 < inp.motor_get_battery_voltage_x10 →
      (calculate_current_for_power cfg inp s 0).1 = 0 ∧
      (calculate_current_for_power cfg inp s 0).2.power_current_percent = 0) ∧
    (inp.motor_get_battery_voltage_x10 = 0 →
      (calculate_current_for_power cfg inp s 0).1 = s.power_current_percent) := by
  unfold calculate_current_for_power
  refine ⟨fun h => ?_, fun h => ?_⟩
  · simp [h]
  · simp [h]

/-- C13: for every call of `apply_low_voltage_limit`, with any clock value and any battery
reading, `flt_min_bat_volt_x100` after the call is at most its value before the call; it
changes only on a sampling tick (`system_ms() > next_voltage_reading_ms`) whose fresh reading
is strictly lower than it, and the new value then lies between the reading and the old value
(strictly below the old one).  A non-negative filter value stays non-negative, so from its
start value 10000 the filter stays in 0..10000. -/
theorem filtered_voltage_never_recovers (cfg : Config) (inp : Inputs) (s : State) (c : Nat) :
    (apply_low_voltage_limit cfg inp s c).state.flt_min_bat_volt_x100
      ≤ s.flt_min_bat_volt_x100 ∧
    ((apply_low_voltage_limit cfg inp s c).state.flt_min_bat_volt_x100
        ≠ s.flt_min_bat_volt_x100 →
      inp.system_ms > s.next_voltage_reading_ms ∧
      ((inp.motor_get_battery_voltage_x10 * 10 % 4294967296 : Nat) : Int)
        < s.flt_min_bat_volt_x100 ∧
      ((inp.motor_get_battery_voltage_x10 * 10 % 4294967296 : Nat) : Int)
        ≤ (apply_low_voltage_limit cfg inp s c).state.flt_min_bat_volt_x100 ∧
      (apply_low_voltage_limit cfg inp s c).state.flt_min_bat_volt_x100
        < s.flt_min_bat_volt_x100) ∧
    (0 ≤ s.flt_min_bat_volt_x100 →
      0 ≤ (apply_low_voltage_limit cfg inp s c).state.flt_min_bat_volt_x100) := by
  rw [apply_low_voltage_limit_flt]
  exact lvc_sample_flt inp s

/-- Counterexample to C14 as stated: cruise is Active on the cruise level (level 4); the
level is changed to the push/walk level; on return `cruise_paused` is still false. -/
theorem cruise_not_paused_on_push_walk :
    sample_cruise_active.assist_level = 4 ∧
    sample_cruise_active.cruise_paused = false ∧
    sample_config.ASSIST_PUSH = 10 ∧
    (app_set_assist_level sample_config (idle_inputs 200) sample_cruise_active
      10).assist_level = 10 ∧
    (app_set_assist_level sample_config (idle_inputs 200) sample_cruise_active
      10).cruise_paused = false := by
  decide

/-- C14 (amended): every call `app_set_assist_level(level)` with `level` different from the
current assist level stores the level and runs `reload_assist_params` once (the result is
one `reload_assist_params` applied to the state with the new level and its log entry);
`cruise_paused` is true on return for every normal target level (`level < ASSIST_PUSH`), and
is left unchanged when the target is the push/walk level or above. -/
theorem assist_level_change_reloads (cfg : Config) (inp : Inputs) (s : State) (level : Nat)
    (h : s.assist_level ≠ level) :
    app_set_assist_level cfg inp s level =
      reload_assist_params cfg inp
        (eventlog_write_data
          { (if s.assist_level = cfg.ASSIST_PUSH ∧ cfg.USE_PUSH_WALK = true then
              block_power_for inp s 1000 else s) with assist_level := level }
          .ASSIST_LEVEL level) ∧
    (app_set_assist_level cfg inp s level).assist_level = level ∧
    (level < cfg.ASSIST_PUSH → (app_set_assist_level cfg inp s level).cruise_paused = true) ∧
    (¬ level < cfg.ASSIST_PUSH →
      (app_set_assist_level cfg inp s level).cruise_paused = s.cruise_paused) := by
  have e := app_set_assist_level_changed cfg inp s level h
  refine ⟨e, ?_, ?_, ?_⟩
  · rw [e, (reload_assist_params_cruise cfg inp _).2.2.2]
    rfl
  · intro hl
    rw [e]
    exact (reload_assist_params_cruise cfg inp _).1 hl
  · intro hl
    rw [e, (reload_assist_params_cruise cfg inp _).2.1 hl]
    dsimp only [eventlog_write_data]
    split_ifs <;> dsimp only [block_power_for]

/-- Witness of C14 (amended): cruise Active on level 4, the level is changed to level 3. -/
theorem assist_level_change_reloads_witness :
    (sample_cruise_active.assist_level ≠ 3 ∧ sample_cruise_active.cruise_paused = false ∧
      3 < sample_config.ASSIST_PUSH) ∧
    (app_set_assist_level sample_config (idle_inputs 200) sample_cruise_active 3).cruise_paused
      = true :=
  ⟨by decide,
    (assist_level_change_reloads sample_config (idle_inputs 200) sample_cruise_active 3
      (by decide)).2.2.1 (by decide)⟩

/-- C15: `app_set_assist_level(level)` with `level` equal to the current assist level, and
`app_set_operation_mode(mode)` with `mode` equal to the current operation mode, return the
state unchanged (every field: assist level, operation mode, cached level data, cruise paused
flag, power-block deadline, ...), in particular with no new event-log entry. -/
theorem unchanged_level_and_mode_are_noops (cfg : Config) (inp : Inputs) (s : State) :
    app_set_assist_level cfg inp s s.assist_level = s ∧
    app_set_operation_mode cfg inp s s.operation_mode = s ∧
    (app_set_assist_level cfg inp s s.assist_level).eventlog = s.eventlog ∧
    (app_set_operation_mode cfg inp s s.operation_mode).eventlog = s.eventlog := by
  have h1 : app_set_assist_level cfg inp s s.assist_level = s := by
    unfold app_set_assist_level
    simp
  have h2 : app_set_operation_mode cfg inp s s.operation_mode = s := by
    unfold app_set_operation_mode
    simp
  exact ⟨h1, h2, by rw [h1], by rw [h2]⟩

/-- C16: for every call `app_set_assist_level(level)` that changes the level: with push-walk
enabled and the current level `ASSIST_PUSH`, the power-block deadline on return is the clock
value at the call plus 1000 in the counter's 32-bit arithmetic (exactly clock + 1000 when
that does not wrap); when the current level is not `ASSIST_PUSH` the deadline is left
unchanged. -/
theorem leaving_push_walk_blocks_power (cfg : Config) (inp : Inputs) (s : State) (level : Nat)
    (hchange : s.assist_level ≠ level) :
    (cfg.USE_PUSH_WALK = true → s.assist_level = cfg.ASSIST_PUSH →
      (app_set_assist_level cfg inp s level).power_blocked_until_ms
        = (inp.system_ms + 1000) % 4294967296 ∧
      (inp.system_ms + 1000 < 4294967296 →
        (app_set_assist_level cfg inp s level).power_blocked_until_ms = inp.system_ms + 1000)) ∧
    (s.assist_level ≠ cfg.ASSIST_PUSH →
      (app_set_assist_level cfg inp s level).power_blocked_until_ms
        = s.power_blocked_until_ms) := by
  have e := app_set_assist_level_changed cfg inp s level hchange
  have hk := (reload_assist_params_cruise cfg inp
    (eventlog_write_data
      { (if s.assist_level = cfg.ASSIST_PUSH ∧ cfg.USE_PUSH_WALK = true then
          block_power_for inp s 1000 else s) with assist_level := level }
      .ASSIST_LEVEL level)).2.2.1
  rw [e, hk]
  dsimp only [eventlog_write_data]
  refine ⟨fun hp hpush => ?_, fun hn => ?_⟩
  · rw [if_pos ⟨hpush, hp⟩]
    dsimp only [block_power_for]
    exact ⟨rfl, fun hlt => Nat.mod_eq_of_lt hlt⟩
  · rw [if_neg (fun hh => hn hh.1)]

set_option maxRecDepth 100000 in
/-- Witness of C16: push/walk is left for level 3 at 1190 ms; the deadline is 2190 ms. -/
theorem leaving_push_walk_blocks_power_witness :
    (sample_push_walk.assist_level ≠ 3 ∧ sample_config.USE_PUSH_WALK = true ∧
      sample_push_walk.assist_level = sample_config.ASSIST_PUSH ∧
      (idle_inputs 1190).system_ms + 1000 < 4294967296) ∧
    (app_set_assist_level sample_config (idle_inputs 1190) sample_push_walk
      3).power_blocked_until_ms = (idle_inputs 1190).system_ms + 1000 :=
  ⟨by decide,
    ((leaving_push_walk_blocks_power sample_config (idle_inputs 1190) sample_push_walk 3
      (by decide)).1 (by decide) (by decide)).2 (by decide)⟩

/-- C17: for every motor status bitmask, throttle health, cached motor / controller
temperature and brake state, `app_get_status_code` returns the code of the first condition
that applies in the priority list hall-sensor error, current-sense error, phase-line error
(power-reset bit), throttle error, motor over-temperature, controller over-temperature,
braking, and normal when none applies; so a set hall bit masks everything else, and normal
is returned exactly when no condition applies. -/
theorem status_code_is_highest_priority (cfg : Config) (inp : Inputs) (s : State) :
    app_get_status_code cfg inp s = first_applicable (status_priority_list cfg inp s) ∧
    (inp.motor_status &&& cfg.MOTOR_ERROR_HALL_SENSOR ≠ 0 →
      app_get_status_code cfg inp s = .ERROR_HALL_SENSOR) ∧
    (app_get_status_code cfg inp s = .NORMAL ↔
      (inp.motor_status &&& cfg.MOTOR_ERROR_HALL_SENSOR = 0 ∧
        inp.motor_status &&& cfg.MOTOR_ERROR_CURRENT_SENSE = 0 ∧
        inp.motor_status &&& cfg.MOTOR_ERROR_POWER_RESET = 0 ∧
        inp.throttle_ok = true ∧
        ¬ s.temperature_motor_c > cfg.MAX_TEMPERATURE ∧
        ¬ s.temperature_contr_c > cfg.MAX_TEMPERATURE ∧
        inp.brake_is_activated = false)) := by
  refine ⟨?_, ?_, ?_⟩
  · unfold app_get_status_code status_priority_list
    exact first_applicable_chain _ _ _ _ _ _ _ _ _ _ _ _ _ _
  · intro h
    unfold app_get_status_code
    dsimp only
    rw [if_pos h]
  · unfold app_get_status_code
    dsimp only
    generalize inp.motor_status &&& cfg.MOTOR_ERROR_HALL_SENSOR = m1
    generalize inp.motor_status &&& cfg.MOTOR_ERROR_CURRENT_SENSE = m2
    generalize inp.motor_status &&& cfg.MOTOR_ERROR_POWER_RESET = m3
    generalize s.temperature_motor_c = t1
    generalize s.temperature_contr_c = t2
    generalize inp.throttle_ok = ok
    generalize inp.brake_is_activated = br
    generalize cfg.MAX_TEMPERATURE = mx
    split_ifs <;> simp_all

/-- Counterexample to C18 as stated: on the throttle-only level (cadence-override flag set,
no pedal-assist power) the throttle overrides the candidate, and the value passed to
`motor_set_target_speed` is the level's `max_cadence_percent` (80), not
`THROTTLE_CADENCE_OVERRIDE_PERCENT` (100). -/
theorem cadence_not_overridden_without_pas_power :
    (app_process_trace sample_config (throttle_inputs 1000)
      sample_throttle_only).throttle_override = true ∧
    sample_throttle_only.assist_level_data.level.flags &&& ASSIST_FLAG_OVERRIDE_CADENCE ≠ 0 ∧
    sample_throttle_only.assist_level_data.level.max_cadence_percent = 80 ∧
    sample_config.THROTTLE_CADENCE_OVERRIDE_PERCENT = 100 ∧
    (app_process sample_config (throttle_inputs 1000) sample_throttle_only).motor_target_speed
      = 80 := by
  decide

/-- C18 (amended): for every tick of `app_process` the value passed to
`motor_set_target_speed` is `THROTTLE_CADENCE_OVERRIDE_PERCENT` (stored in a `uint8_t`)
whenever throttle overrode the candidate this tick, the cached level has nonzero
`target_power_watts` and `max_pas_speed_kph`, and the cadence-override flag is set; it is the
cached level's `max_cadence_percent` in every other case. -/
theorem target_cadence_rule (cfg : Config) (inp : Inputs) (s : State) :
    (app_process cfg inp s).motor_target_speed =
      if (app_process_trace cfg inp s).throttle_override = true ∧
          s.assist_level_data.level.target_power_watts > 0 ∧
          s.assist_level_data.level.max_pas_speed_kph > 0 ∧
          s.assist_level_data.level.flags &&& ASSIST_FLAG_OVERRIDE_CADENCE ≠ 0 then
        cfg.THROTTLE_CADENCE_OVERRIDE_PERCENT % 256
      else s.assist_level_data.level.max_cadence_percent := by
  have h := app_process_candidate_cadence cfg inp s
  unfold app_process app_process_trace
  dsimp only
  exact h

/-- C19: for every candidate `c` and throttle percent `t` in 0..100 (with
`THROTTLE_START_PERCENT` and the remembered power percent being `uint8_t` values), let
`m = MAP16(t, 0, 100, THROTTLE_START_PERCENT,
calculate_current_for_power(max_throttle_power_watts))`.  `apply_throttle` never lowers the
candidate; if the level has nonzero throttle power and throttle speed, `t > 0`, the sensor
is healthy and `m >= c`, the candidate becomes `m` and the function returns true; in every
other case the candidate is left equal to `c` and the function returns false. -/
theorem throttle_override_rule (cfg : Config) (inp : Inputs) (s : State) (c t : Nat)
    (ht : t ≤ 100) (hstart : cfg.THROTTLE_START_PERCENT < 256)
    (hs : s.power_current_percent < 256) :
    c ≤ (apply_throttle cfg inp s c t).target_current ∧
    ((s.assist_level_data.level.max_throttle_power_watts > 0 ∧
        s.assist_level_data.level.max_throttle_speed_kph > 0 ∧ t > 0 ∧
        inp.throttle_ok = true ∧
        MAP16 t 0 100 cfg.THROTTLE_START_PERCENT
          (calculate_current_for_power cfg inp s
            s.assist_level_data.level.max_throttle_power_watts).1 ≥ c) →
      ((apply_throttle cfg inp s c t).target_current : Int) =
        MAP16 t 0 100 cfg.THROTTLE_START_PERCENT
          (calculate_current_for_power cfg inp s
            s.assist_level_data.level.max_throttle_power_watts).1 ∧
      (apply_throttle cfg inp s c t).ret = true) ∧
    (¬ (s.assist_level_data.level.max_throttle_power_watts > 0 ∧
        s.assist_level_data.level.max_throttle_speed_kph > 0 ∧ t > 0 ∧
        inp.throttle_ok = true ∧
        MAP16 t 0 100 cfg.THROTTLE_START_PERCENT
          (calculate_current_for_power cfg inp s
            s.assist_level_data.level.max_throttle_power_watts).1 ≥ c) →
      (apply_throttle cfg inp s c t).target_current = c ∧
      (apply_throttle cfg inp s c t).ret = false) := by
  have hr := calculate_current_for_power_u8 cfg inp s
    s.assist_level_data.level.max_throttle_power_watts hs
  unfold apply_throttle
  dsimp only
  generalize calculate_current_for_power cfg inp s
    s.assist_level_data.level.max_throttle_power_watts = r at hr ⊢
  have hb := MAP16_between t 0 100 cfg.THROTTLE_START_PERCENT r.1 (by omega) (by omega)
    (by omega)
  generalize hm : MAP16 t 0 100 cfg.THROTTLE_START_PERCENT r.1 = m at hb ⊢
  have hm0 : 0 ≤ m ∧ m < 256 := by
    rcases le_total (cfg.THROTTLE_START_PERCENT : Int) (r.1 : Int) with h | h
    · rw [min_eq_left h, max_eq_right h] at hb; omega
    · rw [min_eq_right h, max_eq_left h] at hb; omega
  have hu : ((u8 m : Nat) : Int) = m := by unfold u8; omega
  split_ifs with h1 h2 <;> dsimp only
  · refine ⟨h2, fun _ => ⟨hu, rfl⟩, fun hn => absurd ⟨h1.1, h1.2.1, h1.2.2.1, h1.2.2.2, ?_⟩ hn⟩
    omega
  · refine ⟨le_refl _, fun hg => ?_, fun _ => ⟨rfl, rfl⟩⟩
    exfalso
    have := hg.2.2.2.2
    omega
  · exact ⟨le_refl _, fun hg => absurd ⟨hg.1, hg.2.1, hg.2.2.1, hg.2.2.2.1⟩ h1,
      fun _ => ⟨rfl, rfl⟩⟩

/-- Witness of C19: throttle at 50 percent on the throttle-only level, candidate 10: the
mapped value 25 replaces it. -/
theorem throttle_override_rule_witness :
    ((50 : Nat) ≤ 100 ∧ sample_config.THROTTLE_START_PERCENT < 256 ∧
      sample_throttle_only.power_current_percent < 256) ∧
    (apply_throttle sample_config (throttle_inputs 1000) sample_throttle_only 10
      50).target_current = 25 ∧
    10 ≤ (apply_throttle sample_config (throttle_inputs 1000) sample_throttle_only 10
      50).target_current :=
  ⟨by decide, by decide,
    (throttle_override_rule sample_config (throttle_inputs 1000) sample_throttle_only 10 50
      (by decide) (by decide) (by decide)).1⟩

/-- C20 (the code at the failing input): ceiling 2000, interval 240, so high = 2240; the
wheel-speed reading 40000 is above high, and yet `apply_speed_limit` leaves the candidate 33
unchanged and returns false (the reading is stored in an `int16_t` and becomes -25536). -/
theorem speed_limit_misses_high_reading :
    sample_config.USE_SPEED_SENSOR = true ∧
    sample_init.assist_level_data.max_pas_wheel_speed_rpm_x10 = 2000 ∧
    sample_init.speed_limit_ramp_interval_rpm_x10 = 240 ∧
    (overspeed_inputs 1000).speed_sensor_get_rpm_x10 = 40000 ∧
    i16 40000 = -25536 ∧
    (apply_speed_limit sample_config (overspeed_inputs 1000) sample_init 33 false).target_current
      = 33 ∧
    (apply_speed_limit sample_config (overspeed_inputs 1000) sample_init 33 false).ret
      = false := by
  decide

/-! ## Lemmas on the thermal limiter -/

theorem tdiv_mono (a b d : Int) (hd : 0 < d) (h : a ≤ b) : Int.tdiv a d ≤ Int.tdiv b d := by
  rcases le_or_lt 0 a with ha | ha
  · rw [Int.tdiv_eq_ediv ha (le_of_lt hd), Int.tdiv_eq_ediv (le_trans ha h) (le_of_lt hd)]
    exact Int.ediv_le_ediv hd h
  · have e1 : Int.tdiv a d = -((-a) / d) := by
      have := Int.neg_tdiv (-a) d
      rw [Int.neg_neg] at this
      rw [this, Int.tdiv_eq_ediv (by omega) (le_of_lt hd)]
    have h1 : 0 ≤ (-a) / d := Int.ediv_nonneg (by omega) (le_of_lt hd)
    rcases le_or_lt 0 b with hb | hb
    · rw [e1, Int.tdiv_eq_ediv hb (le_of_lt hd)]
      have h2 : 0 ≤ b / d := Int.ediv_nonneg hb (le_of_lt hd)
      omega
    · have e2 : Int.tdiv b d = -((-b) / d) := by
        have := Int.neg_tdiv (-b) d
        rw [Int.neg_neg] at this
        rw [this, Int.tdiv_eq_ediv (by omega) (le_of_lt hd)]
      rw [e1, e2]
      have := Int.ediv_le_ediv hd (by omega : -b ≤ -a)
      omega

theorem tdiv_hundred (x : Int) :
    Int.tdiv x 100 = if 0 ≤ x then x / 100 else -((-x) / 100) := by
  split_ifs with h
  · exact Int.tdiv_eq_ediv h (by omega)
  · have := Int.neg_tdiv (-x) 100
    rw [Int.neg_neg] at this
    rw [this, Int.tdiv_eq_ediv (by omega) (by omega)]

/-- For a reading below 128 C the cached whole degrees reach the margin exactly when the
reading does. -/
theorem whole_degrees_gate (x m : Int) (h1 : -12800 < x) (h2 : x < 12800) (hm : 0 < m) :
    m ≤ i8 (Int.tdiv x 100) ↔ m * 100 ≤ x := by
  rw [tdiv_hundred]
  unfold i8
  split_ifs <;> omega

theorem thermal_sample_temps (cfg : Config) (inp : Inputs) (s : State) :
    (thermal_sample cfg inp s).temperature_contr_c = i8 (Int.tdiv inp.temperature_contr_x100 100) ∧
    (thermal_sample cfg inp s).temperature_motor_c = i8 (Int.tdiv inp.temperature_motor_x100 100) := by
  unfold thermal_sample
  dsimp only
  split_ifs <;> exact ⟨rfl, rfl⟩

/-- With both readings below 128 C the clamp value is the interpolation of the clamped hotter
reading. -/
theorem thermal_clamp_percent_in_range (cfg : Config) (x : Int)
    (hint : 0 < cfg.MAX_TEMPERATURE_RAMP_DOWN_INTERVAL)
    (hmax : cfg.MAX_TEMPERATURE ≤ 327) (hmin : -327 ≤ cfg.MAX_TEMPERATURE)
    (hlow : cfg.MAX_TEMPERATURE_LOW_CURRENT_PERCENT ≤ 100)
    (hx : (cfg.MAX_TEMPERATURE - cfg.MAX_TEMPERATURE_RAMP_DOWN_INTERVAL) * 100 ≤ x) :
    (thermal_clamp_percent cfg x : Int) =
      MAP32 (CLAMP x ((cfg.MAX_TEMPERATURE - cfg.MAX_TEMPERATURE_RAMP_DOWN_INTERVAL) * 100)
          (cfg.MAX_TEMPERATURE * 100))
        ((cfg.MAX_TEMPERATURE - cfg.MAX_TEMPERATURE_RAMP_DOWN_INTERVAL) * 100)
        (cfg.MAX_TEMPERATURE * 100) 100 cfg.MAX_TEMPERATURE_LOW_CURRENT_PERCENT ∧
    (cfg.MAX_TEMPERATURE_LOW_CURRENT_PERCENT : Int) ≤ thermal_clamp_percent cfg x ∧
    thermal_clamp_percent cfg x ≤ 100 ∧
    (cfg.MAX_TEMPERATURE * 100 ≤ x →
      thermal_clamp_percent cfg x = cfg.MAX_TEMPERATURE_LOW_CURRENT_PERCENT) := by
  have e16 : i16 (cfg.MAX_TEMPERATURE * 100) = cfg.MAX_TEMPERATURE * 100 := by
    unfold i16; omega
  have ec : (if x > cfg.MAX_TEMPERATURE * 100 then i16 (cfg.MAX_TEMPERATURE * 100) else x) =
      CLAMP x ((cfg.MAX_TEMPERATURE - cfg.MAX_TEMPERATURE_RAMP_DOWN_INTERVAL) * 100)
        (cfg.MAX_TEMPERATURE * 100) := by
    unfold CLAMP
    rw [e16]
    split_ifs <;> omega
  unfold thermal_clamp_percent
  dsimp only
  rw [ec]
  generalize hy : CLAMP x ((cfg.MAX_TEMPERATURE - cfg.MAX_TEMPERATURE_RAMP_DOWN_INTERVAL) * 100)
    (cfg.MAX_TEMPERATURE * 100) = y
  have hy1 : (cfg.MAX_TEMPERATURE - cfg.MAX_TEMPERATURE_RAMP_DOWN_INTERVAL) * 100 ≤ y ∧
      y ≤ cfg.MAX_TEMPERATURE * 100 ∧ (cfg.MAX_TEMPERATURE * 100 ≤ x → y = cfg.MAX_TEMPERATURE * 100) := by
    rw [← hy]; unfold CLAMP; split_ifs <;> omega
  have hb := MAP32_between y ((cfg.MAX_TEMPERATURE - cfg.MAX_TEMPERATURE_RAMP_DOWN_INTERVAL) * 100)
    (cfg.MAX_TEMPERATURE * 100) 100 cfg.MAX_TEMPERATURE_LOW_CURRENT_PERCENT
    hy1.1 hy1.2.1 (by omega)
  rw [min_eq_right (by omega : (cfg.MAX_TEMPERATURE_LOW_CURRENT_PERCENT : Int) ≤ 100),
    max_eq_left (by omega : (cfg.MAX_TEMPERATURE_LOW_CURRENT_PERCENT : Int) ≤ 100)] at hb
  have hend : cfg.MAX_TEMPERATURE * 100 ≤ x →
      MAP32 y ((cfg.MAX_TEMPERATURE - cfg.MAX_TEMPERATURE_RAMP_DOWN_INTERVAL) * 100)
        (cfg.MAX_TEMPERATURE * 100) 100 cfg.MAX_TEMPERATURE_LOW_CURRENT_PERCENT =
        cfg.MAX_TEMPERATURE_LOW_CURRENT_PERCENT := by
    intro h
    rw [hy1.2.2 h]
    unfold MAP32
    rw [Int.mul_comm, Int.mul_tdiv_cancel _ (by omega)]
    omega
  generalize MAP32 y ((cfg.MAX_TEMPERATURE - cfg.MAX_TEMPERATURE_RAMP_DOWN_INTERVAL) * 100)
    (cfg.MAX_TEMPERATURE * 100) 100 cfg.MAX_TEMPERATURE_LOW_CURRENT_PERCENT = v at hb hend ⊢
  unfold u8
  refine ⟨by omega, by omega, by omega, ?_⟩
  intro h
  have := hend h
  omega

/-- In-range behaviour of `apply_thermal_limit`: with both readings strictly between -128 C
and 128 C and a positive margin start, the limiter gates on the hotter reading and clamps the
candidate to the interpolation of the clamped hotter reading. -/
theorem apply_thermal_limit_in_range (cfg : Config) (inp : Inputs) (s : State) (c : Nat)
    (hc1 : -12800 < inp.temperature_contr_x100) (hc2 : inp.temperature_contr_x100 < 12800)
    (hm1 : -12800 < inp.temperature_motor_x100) (hm2 : inp.temperature_motor_x100 < 12800)
    (hmargin : 0 < cfg.MAX_TEMPERATURE - cfg.MAX_TEMPERATURE_RAMP_DOWN_INTERVAL)
    (hint : 0 < cfg.MAX_TEMPERATURE_RAMP_DOWN_INTERVAL)
    (hmax : cfg.MAX_TEMPERATURE ≤ 327)
    (hlow : cfg.MAX_TEMPERATURE_LOW_CURRENT_PERCENT ≤ 100) :
    ((cfg.MAX_TEMPERATURE - cfg.MAX_TEMPERATURE_RAMP_DOWN_INTERVAL) * 100 ≤
        max inp.temperature_contr_x100 inp.temperature_motor_x100 →
      ((apply_thermal_limit cfg inp s c).target_current : Int) =
        min (c : Int)
          (MAP32
            (CLAMP (max inp.temperature_contr_x100 inp.temperature_motor_x100)
              ((cfg.MAX_TEMPERATURE - cfg.MAX_TEMPERATURE_RAMP_DOWN_INTERVAL) * 100)
              (cfg.MAX_TEMPERATURE * 100))
            ((cfg.MAX_TEMPERATURE - cfg.MAX_TEMPERATURE_RAMP_DOWN_INTERVAL) * 100)
            (cfg.MAX_TEMPERATURE * 100) 100 cfg.MAX_TEMPERATURE_LOW_CURRENT_PERCENT)) ∧
    (cfg.MAX_TEMPERATURE * 100 ≤ max inp.temperature_contr_x100 inp.temperature_motor_x100 →
      (apply_thermal_limit cfg inp s c).target_current ≤
        cfg.MAX_TEMPERATURE_LOW_CURRENT_PERCENT) ∧
    (max inp.temperature_contr_x100 inp.temperature_motor_x100 <
        (cfg.MAX_TEMPERATURE - cfg.MAX_TEMPERATURE_RAMP_DOWN_INTERVAL) * 100 →
      (apply_thermal_limit cfg inp s c).target_current = c) := by
  have hgate : (max (thermal_sample cfg inp s).temperature_contr_c
        (thermal_sample cfg inp s).temperature_motor_c ≥
        cfg.MAX_TEMPERATURE - cfg.MAX_TEMPERATURE_RAMP_DOWN_INTERVAL) ↔
      (cfg.MAX_TEMPERATURE - cfg.MAX_TEMPERATURE_RAMP_DOWN_INTERVAL) * 100 ≤
        max inp.temperature_contr_x100 inp.temperature_motor_x100 := by
    have g1 := whole_degrees_gate inp.temperature_contr_x100
      (cfg.MAX_TEMPERATURE - cfg.MAX_TEMPERATURE_RAMP_DOWN_INTERVAL) hc1 hc2 hmargin
    have g2 := whole_degrees_gate inp.temperature_motor_x100
      (cfg.MAX_TEMPERATURE - cfg.MAX_TEMPERATURE_RAMP_DOWN_INTERVAL) hm1 hm2 hmargin
    rw [(thermal_sample_temps cfg inp s).1, (thermal_sample_temps cfg inp s).2, ge_iff_le,
      le_max_iff, le_max_iff, g1, g2]
  unfold apply_thermal_limit
  dsimp only
  by_cases hx : (cfg.MAX_TEMPERATURE - cfg.MAX_TEMPERATURE_RAMP_DOWN_INTERVAL) * 100 ≤
      max inp.temperature_contr_x100 inp.temperature_motor_x100
  · rw [if_pos (hgate.2 hx)]
    have hp := thermal_clamp_percent_in_range cfg
      (max inp.temperature_contr_x100 inp.temperature_motor_x100) hint hmax (by omega) hlow hx
    generalize thermal_clamp_percent cfg
      (max inp.temperature_contr_x100 inp.temperature_motor_x100) = p at hp ⊢
    rw [← hp.1]
    refine ⟨fun _ => ?_, fun h => ?_, fun h => ?_⟩
    · split_ifs
      · dsimp only; omega
      · dsimp only; omega
    · have := hp.2.2.2 h
      split_ifs
      · dsimp only; omega
      · dsimp only; omega
    · omega
  · rw [if_neg (fun h => hx (hgate.1 h))]
    dsimp only
    refine ⟨fun h => absurd h hx, fun h => ?_, fun _ => rfl⟩
    omega

/-! ## Lemmas on the keep-current ramp -/

/-- The keep-current interpolation (from `tc1` at the ramp start down to `keep` at the ramp
end) does not increase with the cadence. -/
theorem keep_ramp_mono (st en tc1 keep x y : Nat) (hk : keep ≤ tc1) (hse : st < en)
    (hxy : x ≤ y) :
    MAP32 y st en tc1 keep ≤ MAP32 x st en tc1 keep := by
  unfold MAP32
  have h := tdiv_mono (((y : Int) - st) * ((keep : Int) - tc1)) (((x : Int) - st) * ((keep : Int) - tc1))
    ((en : Int) - st) (by omega) (by nlinarith)
  omega

theorem keep_ramp_end (st en tc1 keep : Nat) (hse : st < en) :
    MAP32 en st en tc1 keep = keep := by
  unfold MAP32
  rw [Int.mul_comm, Int.mul_tdiv_cancel _ (by omega)]
  omega

/-- The candidate returned by the fixed-mode branch of `apply_pas_cadence` when pedal assist
is active and the keep-current ramp is compiled in. -/
theorem apply_pas_cadence_fixed (cfg : Config) (inp : Inputs) (s : State) (c t : Nat)
    (hlevel : s.assist_level_data.level.target_power_watts > 0 ∧
      s.assist_level_data.level.max_pas_speed_kph > 0)
    (hfwd : inp.pas_is_pedaling_forwards = true)
    (hpulse : inp.pas_get_pulse_counter > cfg.PAS_START_DELAY_PULSES)
    (hfixed : s.assist_level_data.level.flags &&& ASSIST_FLAG_PAS_VARIABLE = 0)
    (hkeep : cfg.PAS_KEEP_CURRENT_PERCENT < 100) :
    (apply_pas_cadence cfg inp s c t).target_current =
      if max c (calculate_current_for_power cfg inp s
            s.assist_level_data.level.target_power_watts).1 >
          s.assist_level_data.keep_current_target_percent ∧
          inp.pas_get_cadence_rpm_x10 > s.assist_level_data.keep_current_ramp_start_rpm_x10 then
        u8 (MAP32 (min inp.pas_get_cadence_rpm_x10
            s.assist_level_data.keep_current_ramp_end_rpm_x10 : Nat)
          s.assist_level_data.keep_current_ramp_start_rpm_x10
          s.assist_level_data.keep_current_ramp_end_rpm_x10
          (max c (calculate_current_for_power cfg inp s
            s.assist_level_data.level.target_power_watts).1 : Nat)
          s.assist_level_data.keep_current_target_percent)
      else max c (calculate_current_for_power cfg inp s
            s.assist_level_data.level.target_power_watts).1 := by
  unfold apply_pas_cadence
  dsimp only
  rw [if_pos hlevel, if_pos ⟨hfwd, hpulse⟩, if_neg (by simp [hfixed]), if_pos hkeep]
  generalize (calculate_current_for_power cfg inp s
    s.assist_level_data.level.target_power_watts) = r
  have e : (if r.1 > c then r.1 else c) = max c r.1 := by
    rw [max_def]; split_ifs <;> omega
  rw [e]
  split_ifs <;> rfl

/-- Inside the ramp the `uint8_t` store keeps the interpolated value. -/
theorem keep_ramp_value (cad st en tc1 keep : Nat) (hk : keep < tc1) (hse : st < en)
    (hc : st < cad) (h8 : tc1 < 256) :
    (u8 (MAP32 (min cad en : Nat) st en tc1 keep) : Int) =
      MAP32 (min cad en : Nat) st en tc1 keep := by
  generalize hx : min cad en = x
  have hb := MAP32_between x st en tc1 keep (by omega) (by omega) (by omega)
  rw [min_eq_right (by omega : (keep : Int) ≤ tc1),
    max_eq_left (by omega : (keep : Int) ≤ tc1)] at hb
  unfold u8; omega

/-- The fixed-mode candidate does not increase with the cadence. -/
theorem keep_ramp_value_mono (st en tc1 keep cad1 cad2 : Nat) (hse : st < en) (h8 : tc1 < 256)
    (h12 : cad1 ≤ cad2) :
    (if tc1 > keep ∧ cad2 > st then u8 (MAP32 (min cad2 en : Nat) st en tc1 keep) else tc1) ≤
    (if tc1 > keep ∧ cad1 > st then u8 (MAP32 (min cad1 en : Nat) st en tc1 keep) else tc1) := by
  split_ifs with h2 h1 h1
  · have v1 := keep_ramp_value cad1 st en tc1 keep h1.1 hse h1.2 h8
    have v2 := keep_ramp_value cad2 st en tc1 keep h1.1 hse h2.2 h8
    have hm := keep_ramp_mono st en tc1 keep (min cad1 en) (min cad2 en) (by omega) hse
      (by omega)
    omega
  · exact (keep_ramp_bounds cad2 st en tc1 keep h2.1 h2.2 h8).2
  · exact absurd ⟨h1.1, by omega⟩ h2
  · exact le_refl _

/-! ## Lemmas on the shift-sensor interrupt -/

/-- What the edge tracking does to the deadline and the interrupting flag. -/
theorem shift_sensor_track_spec (cfg : Config) (inp : Inputs) (s : State) :
    (inp.shift_sensor_is_activated = true →
      (s.shift_sensor_last = false ∨ s.shift_sensor_interrupting = false) →
      (shift_sensor_track cfg inp s).shift_sensor_act_ms =
        (inp.system_ms + cfg.SHIFT_INTERRUPT_DURATION_MS % 65536) % 4294967296 ∧
      (shift_sensor_track cfg inp s).shift_sensor_interrupting = true) ∧
    (¬ (inp.shift_sensor_is_activated = true ∧
        (s.shift_sensor_last = false ∨ s.shift_sensor_interrupting = false)) →
      (shift_sensor_track cfg inp s).shift_sensor_act_ms = s.shift_sensor_act_ms ∧
      (shift_sensor_track cfg inp s).shift_sensor_interrupting = s.shift_sensor_interrupting) := by
  unfold shift_sensor_track
  dsimp only
  cases inp.shift_sensor_is_activated <;> cases hl : s.shift_sensor_last <;>
    cases hi : s.shift_sensor_interrupting <;> simp [hl, hi]

theorem shift_sensor_finish_spec (s : State) :
    (shift_sensor_finish s).shift_sensor_act_ms = s.shift_sensor_act_ms ∧
    (shift_sensor_finish s).shift_sensor_interrupting = false := by
  unfold shift_sensor_finish
  dsimp only
  split_ifs <;> exact ⟨rfl, rfl⟩

theorem shift_sensor_log_clamp_spec (s : State) :
    (shift_sensor_log_clamp s).shift_sensor_act_ms = s.shift_sensor_act_ms ∧
    (shift_sensor_log_clamp s).shift_sensor_interrupting = s.shift_sensor_interrupting := by
  unfold shift_sensor_log_clamp
  split_ifs <;> exact ⟨rfl, rfl⟩

/-- The deadline and the interrupting flag after `apply_shift_sensor_interrupt`, in terms of
the edge tracking. -/
theorem apply_shift_sensor_interrupt_spec (cfg : Config) (inp : Inputs) (s : State) (c : Nat)
    (huse : cfg.USE_SHIFT_SENSOR = true) :
    (apply_shift_sensor_interrupt cfg inp s c).state.shift_sensor_act_ms =
      (shift_sensor_track cfg inp s).shift_sensor_act_ms ∧
    (apply_shift_sensor_interrupt cfg inp s c).state.shift_sensor_interrupting =
      decide ((shift_sensor_track cfg inp s).shift_sensor_interrupting = true ∧
        inp.system_ms < (shift_sensor_track cfg inp s).shift_sensor_act_ms) := by
  unfold apply_shift_sensor_interrupt
  dsimp only
  rw [if_neg (by simp [huse])]
  have hf := shift_sensor_finish_spec (shift_sensor_track cfg inp s)
  have hc := shift_sensor_log_clamp_spec (shift_sensor_track cfg inp s)
  generalize shift_sensor_finish (shift_sensor_track cfg inp s) = sf at hf ⊢
  generalize shift_sensor_log_clamp (shift_sensor_track cfg inp s) = sc at hc ⊢
  generalize shift_sensor_track cfg inp s = st at hf hc ⊢
  generalize hi : st.shift_sensor_interrupting = i at hf hc ⊢
  generalize hd : st.shift_sensor_act_ms = d at hf hc ⊢
  split_ifs with h1 h2 h3
  · dsimp only; rw [hi, hd]; simp [h1]
  · dsimp only; rw [hf.1, hf.2]; simp; intro; omega
  · dsimp only; rw [hc.1, hc.2]; simp_all
  · dsimp only; rw [hi, hd]; simp_all

/-! ## Lemmas on the cruise debounce -/

theorem apply_cruise_block (cfg : Config) (inp : Inputs) (s : State) (c t : Nat)
    (hflag : s.assist_level_data.level.flags &&& ASSIST_FLAG_CRUISE ≠ 0)
    (hok : inp.throttle_ok = true) :
    (apply_cruise cfg inp s c t).state.cruise_block_throttle_return =
      (cruise_transition inp s t).cruise_block_throttle_return := by
  unfold apply_cruise
  dsimp only
  rw [if_pos ⟨hflag, hok⟩]
  have hf := calculate_current_for_power_frame cfg inp (cruise_transition inp s t)
    (cruise_transition inp s t).assist_level_data.level.target_power_watts
  generalize calculate_current_for_power cfg inp (cruise_transition inp s t)
    (cruise_transition inp s t).assist_level_data.level.target_power_watts = r at hf ⊢
  split_ifs
  · rfl
  · exact hf.2.1
  · exact hf.2.1

/-- The transition rules of `apply_cruise` entered with the block flag armed. -/
theorem cruise_transition_armed (inp : Inputs) (s : State) (t : Nat)
    (harmed : s.cruise_block_throttle_return = true) :
    (t > 0 → inp.brake_is_activated = false →
      ¬ (inp.pas_is_pedaling_backwards = true ∧
        inp.pas_get_pulse_counter > CRUISE_DISENGAGE_PAS_PULSES) →
      (cruise_transition inp s t).cruise_paused = s.cruise_paused ∧
      (cruise_transition inp s t).cruise_block_throttle_return = true) ∧
    ((cruise_transition inp s t).cruise_block_throttle_return = false →
      t = 0 ∧ (cruise_transition inp s t).cruise_paused = s.cruise_paused) := by
  unfold cruise_transition
  refine ⟨fun h1 h2 h3 => ?_, ?_⟩
  · rw [if_neg (by simp [h2]), if_neg h3, if_neg (by simp [harmed]), if_neg (by simp [harmed]),
      if_neg (by omega)]
    exact ⟨rfl, harmed⟩
  · split_ifs with a b c d e
    · intro h; exact absurd h (by simp)
    · intro h; exact absurd h (by simp)
    · intro h; exact absurd h (by simp)
    · intro h; exact absurd h (by simp)
    · intro _; exact ⟨e.2, rfl⟩
    · intro h; rw [harmed] at h; exact absurd h (by simp)

/-! ## Lemmas on the low-voltage clamp percent -/

/-- The clamp percent is monotone in the filtered voltage when the interpolated value at the
cutoff voltage still fits the `int8_t` it is stored in. -/
theorem lvc_clamp_percent_mono_of_no_wrap (cfg : Config) (s : State) (v1 v2 : Nat)
    (hramp : s.lvc_ramp_down_end_voltage_x100 < s.lvc_ramp_down_start_voltage_x100)
    (hlvc : s.lvc_voltage_x100 ≤ s.lvc_ramp_down_end_voltage_x100)
    (hlow : cfg.LVC_LOW_CURRENT_PERCENT ≤ 100)
    (hfit : -128 ≤ MAP32 s.lvc_voltage_x100 s.lvc_ramp_down_end_voltage_x100
      s.lvc_ramp_down_start_voltage_x100 cfg.LVC_LOW_CURRENT_PERCENT 100)
    (h12 : v1 ≤ v2) (h2 : v2 ≤ s.lvc_ramp_down_start_voltage_x100) :
    lvc_clamp_percent cfg s v1 ≤ lvc_clamp_percent cfg s v2 ∧
    (v1 ≤ s.lvc_voltage_x100 → lvc_clamp_percent cfg s v1 ≤ cfg.LVC_LOW_CURRENT_PERCENT) := by
  have hmono : ∀ a b : Nat, a ≤ b →
      MAP32 a s.lvc_ramp_down_end_voltage_x100 s.lvc_ramp_down_start_voltage_x100
        cfg.LVC_LOW_CURRENT_PERCENT 100 ≤
      MAP32 b s.lvc_ramp_down_end_voltage_x100 s.lvc_ramp_down_start_voltage_x100
        cfg.LVC_LOW_CURRENT_PERCENT 100 := by
    intro a b hab
    unfold MAP32
    have := tdiv_mono
      (((a : Int) - s.lvc_ramp_down_end_voltage_x100) * (100 - cfg.LVC_LOW_CURRENT_PERCENT))
      (((b : Int) - s.lvc_ramp_down_end_voltage_x100) * (100 - cfg.LVC_LOW_CURRENT_PERCENT))
      ((s.lvc_ramp_down_start_voltage_x100 : Int) - s.lvc_ramp_down_end_voltage_x100)
      (by omega) (by nlinarith)
    omega
  have hstart : MAP32 s.lvc_ramp_down_start_voltage_x100 s.lvc_ramp_down_end_voltage_x100
      s.lvc_ramp_down_start_voltage_x100 cfg.LVC_LOW_CURRENT_PERCENT 100 = 100 := by
    unfold MAP32
    rw [Int.mul_comm, Int.mul_tdiv_cancel _ (by omega)]
    omega
  have hend : MAP32 s.lvc_ramp_down_end_voltage_x100 s.lvc_ramp_down_end_voltage_x100
      s.lvc_ramp_down_start_voltage_x100 cfg.LVC_LOW_CURRENT_PERCENT 100 =
      cfg.LVC_LOW_CURRENT_PERCENT := by
    unfold MAP32
    rw [Int.sub_self, Int.zero_mul, Int.zero_tdiv]
    omega
  unfold lvc_clamp_percent
  dsimp only
  generalize hw1 : (if v1 < s.lvc_voltage_x100 then s.lvc_voltage_x100 else v1) = w1
  generalize hw2 : (if v2 < s.lvc_voltage_x100 then s.lvc_voltage_x100 else v2) = w2
  have b1 : s.lvc_voltage_x100 ≤ w1 ∧ w1 ≤ w2 ∧ w2 ≤ s.lvc_ramp_down_start_voltage_x100 ∧
      (v1 ≤ s.lvc_voltage_x100 → w1 = s.lvc_voltage_x100) := by
    rw [← hw1, ← hw2]; split_ifs <;> omega
  have m0 := hmono _ _ b1.1
  have m1 := hmono _ _ b1.2.1
  have m2 := hmono _ _ b1.2.2.1
  have m3 := hmono _ _ hlvc
  rw [hstart] at m2
  rw [hend] at m3
  have m4 : v1 ≤ s.lvc_voltage_x100 →
      MAP32 w1 s.lvc_ramp_down_end_voltage_x100 s.lvc_ramp_down_start_voltage_x100
        cfg.LVC_LOW_CURRENT_PERCENT 100 ≤ cfg.LVC_LOW_CURRENT_PERCENT := by
    intro h
    rw [b1.2.2.2 h]
    exact m3
  generalize MAP32 w1 s.lvc_ramp_down_end_voltage_x100 s.lvc_ramp_down_start_voltage_x100
    cfg.LVC_LOW_CURRENT_PERCENT 100 = x1 at m0 m1 m4 ⊢
  generalize MAP32 w2 s.lvc_ramp_down_end_voltage_x100 s.lvc_ramp_down_start_voltage_x100
    cfg.LVC_LOW_CURRENT_PERCENT 100 = x2 at m1 m2 ⊢
  generalize MAP32 s.lvc_voltage_x100 s.lvc_ramp_down_end_voltage_x100
    s.lvc_ramp_down_start_voltage_x100 cfg.LVC_LOW_CURRENT_PERCENT 100 = x0 at hfit m0
  have e1 : i8 x1 = x1 := by unfold i8; omega
  have e2 : i8 x2 = x2 := by unfold i8; omega
  rw [e1, e2]
  unfold CLAMP u8
  constructor
  · split_ifs <;> omega
  · intro h
    have := m4 h
    split_ifs <;> omega

/-! ## The claims C21 to C27 -/

set_option maxRecDepth 100000 in
/-- C21 (the code at the failing input): `MAX_TEMPERATURE` is 85, the margin starts at 80 and
`MAX_TEMPERATURE_LOW_CURRENT_PERCENT` is 20.  The motor reads 130.00 C (13000, above
`MAX_TEMPERATURE` x100 = 8500) and the controller 25.00 C.  The whole degrees of the motor are
stored in an `int8_t` and become -126, the gate `max_temp >= 80` fails, and
`apply_thermal_limit` leaves the candidate 50 unchanged and returns false, where the claim
requires at most 20.  At 90.00 C the same call clamps the candidate to 20. -/
theorem thermal_limit_misses_reading_above_127 :
    sample_config.MAX_TEMPERATURE = 85 ∧
    sample_config.MAX_TEMPERATURE_RAMP_DOWN_INTERVAL = 5 ∧
    sample_config.MAX_TEMPERATURE_LOW_CURRENT_PERCENT = 20 ∧
    (overheat_inputs 1000).temperature_contr_x100 = 2500 ∧
    (overheat_inputs 1000).temperature_motor_x100 = 13000 ∧
    i8 (Int.tdiv 13000 100) = -126 ∧
    (apply_thermal_limit sample_config (overheat_inputs 1000) sample_init 50).state.temperature_motor_c
      = -126 ∧
    (apply_thermal_limit sample_config (overheat_inputs 1000) sample_init 50).target_current
      = 50 ∧
    (apply_thermal_limit sample_config (overheat_inputs 1000) sample_init 50).ret = false ∧
    (apply_thermal_limit sample_config (hot_inputs 1000) sample_init 50).target_current = 20 := by
  decide

/-- C22: pedal-assist fixed mode keep-current ramp (with the ramp compiled in:
`PAS_KEEP_CURRENT_PERCENT < 100`, and 8-bit values for the candidate and the cached
percent).  When pedal assist is active in fixed mode and the ramp start is below the ramp end,
let `c' = max(c, calculate_current_for_power(target_power))`.  If `c'` is at or below
`keep_current_target_percent` the candidate on return is `c'`.  If `c'` is above it: for a
cadence at or below the ramp start the candidate is `c'`, for a cadence at or above the ramp
end it is exactly `keep_current_target_percent`, and in between it is
`MAP32(cadence, start, end, c', keep)`, which lies between the keep target and `c'`.  In every
case a higher cadence (all other inputs equal) never gives a higher candidate. -/
theorem keep_current_ramp_rule (cfg : Config) (inp : Inputs) (s : State) (c t : Nat)
    (hlevel : s.assist_level_data.level.target_power_watts > 0 ∧
      s.assist_level_data.level.max_pas_speed_kph > 0)
    (hfwd : inp.pas_is_pedaling_forwards = true)
    (hpulse : inp.pas_get_pulse_counter > cfg.PAS_START_DELAY_PULSES)
    (hfixed : s.assist_level_data.level.flags &&& ASSIST_FLAG_PAS_VARIABLE = 0)
    (hramp : s.assist_level_data.keep_current_ramp_start_rpm_x10 <
      s.assist_level_data.keep_current_ramp_end_rpm_x10)
    (hkeep : cfg.PAS_KEEP_CURRENT_PERCENT < 100)
    (hc : c < 256) (hp : s.power_current_percent < 256) :
    (max c (calculate_current_for_power cfg inp s
          s.assist_level_data.level.target_power_watts).1 ≤
        s.assist_level_data.keep_current_target_percent →
      (apply_pas_cadence cfg inp s c t).target_current =
        max c (calculate_current_for_power cfg inp s
          s.assist_level_data.level.target_power_watts).1) ∧
    (s.assist_level_data.keep_current_target_percent <
        max c (calculate_current_for_power cfg inp s
          s.assist_level_data.level.target_power_watts).1 →
      (inp.pas_get_cadence_rpm_x10 ≤ s.assist_level_data.keep_current_ramp_start_rpm_x10 →
        (apply_pas_cadence cfg inp s c t).target_current =
          max c (calculate_current_for_power cfg inp s
            s.assist_level_data.level.target_power_watts).1) ∧
      (s.assist_level_data.keep_current_ramp_end_rpm_x10 ≤ inp.pas_get_cadence_rpm_x10 →
        (apply_pas_cadence cfg inp s c t).target_current =
          s.assist_level_data.keep_current_target_percent) ∧
      (s.assist_level_data.keep_current_ramp_start_rpm_x10 < inp.pas_get_cadence_rpm_x10 →
        inp.pas_get_cadence_rpm_x10 < s.assist_level_data.keep_current_ramp_end_rpm_x10 →
        ((apply_pas_cadence cfg inp s c t).target_current : Int) =
          MAP32 inp.pas_get_cadence_rpm_x10
            s.assist_level_data.keep_current_ramp_start_rpm_x10
            s.assist_level_data.keep_current_ramp_end_rpm_x10
            (max c (calculate_current_for_power cfg inp s
              s.assist_level_data.level.target_power_watts).1 : Nat)
            s.assist_level_data.keep_current_target_percent ∧
        s.assist_level_data.keep_current_target_percent ≤
          (apply_pas_cadence cfg inp s c t).target_current ∧
        (apply_pas_cadence cfg inp s c t).target_current ≤
          max c (calculate_current_for_power cfg inp s
            s.assist_level_data.level.target_power_watts).1)) ∧
    (∀ cadence : Nat, inp.pas_get_cadence_rpm_x10 ≤ cadence →
      (apply_pas_cadence cfg { inp with pas_get_cadence_rpm_x10 := cadence } s c
        t).target_current ≤ (apply_pas_cadence cfg inp s c t).target_current) := by
  have h8 := calculate_current_for_power_u8 cfg inp s
    s.assist_level_data.level.target_power_watts hp
  have htc : max c (calculate_current_for_power cfg inp s
      s.assist_level_data.level.target_power_watts).1 < 256 := max_lt hc h8
  have e2 : ∀ cadence : Nat,
      calculate_current_for_power cfg { inp with pas_get_cadence_rpm_x10 := cadence } s
        s.assist_level_data.level.target_power_watts =
      calculate_current_for_power cfg inp s s.assist_level_data.level.target_power_watts :=
    fun _ => rfl
  have hmono : ∀ cadence : Nat, inp.pas_get_cadence_rpm_x10 ≤ cadence →
      (apply_pas_cadence cfg { inp with pas_get_cadence_rpm_x10 := cadence } s c
        t).target_current ≤ (apply_pas_cadence cfg inp s c t).target_current := by
    intro cadence hle
    rw [apply_pas_cadence_fixed cfg inp s c t hlevel hfwd hpulse hfixed hkeep,
      apply_pas_cadence_fixed cfg { inp with pas_get_cadence_rpm_x10 := cadence } s c t hlevel
        hfwd hpulse hfixed hkeep, e2 cadence]
    exact keep_ramp_value_mono _ _ _ _ _ _ hramp htc hle
  refine ⟨?_, ?_, hmono⟩
  all_goals rw [apply_pas_cadence_fixed cfg inp s c t hlevel hfwd hpulse hfixed hkeep]
  all_goals generalize max c (calculate_current_for_power cfg inp s
    s.assist_level_data.level.target_power_watts).1 = tc1 at *
  · intro h
    rw [if_neg (by omega)]
  · intro hk
    refine ⟨fun h => ?_, fun h => ?_, fun h1 h2 => ?_⟩
    · rw [if_neg (by omega)]
    · rw [if_pos ⟨hk, by omega⟩, min_eq_right h, keep_ramp_end _ _ _ _ hramp]
      unfold u8; omega
    · rw [if_pos ⟨hk, h1⟩]
      have hv := keep_ramp_value inp.pas_get_cadence_rpm_x10 _ _ tc1 _ hk hramp h1 (by omega)
      have hb := keep_ramp_bounds inp.pas_get_cadence_rpm_x10 _
        s.assist_level_data.keep_current_ramp_end_rpm_x10 tc1 _ hk h1 (by omega)
      rw [min_eq_left (le_of_lt h2)] at hv hb ⊢
      exact ⟨hv, hb.1, hb.2⟩

set_option maxRecDepth 100000 in
/-- Witness of C22: the concrete configuration at level 3 (keep target 19, ramp 40.0 to
168.0 rpm), pedalling at 104.0 rpm from candidate 0: `c'` is 33 and the candidate on return is
`MAP32(1040, 400, 1680, 33, 19) = 26`. -/
theorem keep_current_ramp_rule_witness :
    (sample_init.assist_level_data.keep_current_ramp_start_rpm_x10 = 400 ∧
      sample_init.assist_level_data.keep_current_ramp_end_rpm_x10 = 1680 ∧
      sample_init.assist_level_data.keep_current_target_percent = 19 ∧
      (spinning_inputs 1000).pas_get_cadence_rpm_x10 = 1040 ∧
      max 0 (calculate_current_for_power sample_config (spinning_inputs 1000) sample_init
        sample_init.assist_level_data.level.target_power_watts).1 = 33 ∧
      (apply_pas_cadence sample_config (spinning_inputs 1000) sample_init 0 0).target_current
        = 26) ∧
    (((apply_pas_cadence sample_config (spinning_inputs 1000) sample_init 0 0).target_current
        : Int) =
      MAP32 (spinning_inputs 1000).pas_get_cadence_rpm_x10
        sample_init.assist_level_data.keep_current_ramp_start_rpm_x10
        sample_init.assist_level_data.keep_current_ramp_end_rpm_x10
        (max 0 (calculate_current_for_power sample_config (spinning_inputs 1000) sample_init
          sample_init.assist_level_data.level.target_power_watts).1 : Nat)
        sample_init.assist_level_data.keep_current_target_percent ∧
      sample_init.assist_level_data.keep_current_target_percent ≤
        (apply_pas_cadence sample_config (spinning_inputs 1000) sample_init 0 0).target_current ∧
      (apply_pas_cadence sample_config (spinning_inputs 1000) sample_init 0 0).target_current ≤
        max 0 (calculate_current_for_power sample_config (spinning_inputs 1000) sample_init
          sample_init.assist_level_data.level.target_power_watts).1) :=
  ⟨by decide,
    ((keep_current_ramp_rule sample_config (spinning_inputs 1000) sample_init 0 0 (by decide)
      (by decide) (by decide) (by decide) (by decide) (by decide) (by decide)
      (by decide)).2.1 (by decide)).2.2 (by decide) (by decide)⟩

set_option maxRecDepth 100000 in
/-- C23 (counterexample to the claim as stated): on the cruise level of the concrete
configuration cruise is Paused and the rider pedals.  `apply_pas_cadence` yields the candidate
20; `apply_cruise` entered with that candidate ends Paused and returns the candidate 0, not
20, and the candidate stage of the tick ends with 0. -/
theorem paused_cruise_discards_candidate :
    sample_cruise.assist_level_data.level.flags &&& ASSIST_FLAG_CRUISE ≠ 0 ∧
    (pedaling_inputs 1000).throttle_ok = true ∧
    (apply_pas_cadence sample_config (pedaling_inputs 1000) sample_cruise 0 0).target_current
      = 20 ∧
    (apply_cruise sample_config (pedaling_inputs 1000) sample_cruise 20 0).state.cruise_paused
      = true ∧
    (apply_cruise sample_config (pedaling_inputs 1000) sample_cruise 20 0).target_current = 0 ∧
    (app_process_candidate sample_config (pedaling_inputs 1000) sample_cruise).target_current
      = 0 := by
  decide

/-- C23 (amended): while Paused, cruise forces the candidate to zero.  For every
`apply_cruise` call (cruise flag set, throttle healthy) that ends in the Paused state the
candidate on return is 0, whatever the candidate on entry was: a pretension or pedal-assist
candidate computed earlier in the same tick is discarded.  A call that ends Active returns
`max(c, calculate_current_for_power(target_power))`, which is at least the candidate on
entry. -/
theorem paused_cruise_zeroes_candidate (cfg : Config) (inp : Inputs) (s : State) (c t : Nat)
    (hflag : s.assist_level_data.level.flags &&& ASSIST_FLAG_CRUISE ≠ 0)
    (hok : inp.throttle_ok = true) :
    ((apply_cruise cfg inp s c t).state.cruise_paused = true →
      (apply_cruise cfg inp s c t).target_current = 0) ∧
    ((apply_cruise cfg inp s c t).state.cruise_paused = false →
      (apply_cruise cfg inp s c t).target_current =
        max c (calculate_current_for_power cfg inp (cruise_transition inp s t)
          s.assist_level_data.level.target_power_watts).1 ∧
      c ≤ (apply_cruise cfg inp s c t).target_current) := by
  have hp := apply_cruise_paused cfg inp s c t hflag hok
  refine ⟨fun h => hp.2.2 (hp.1 ▸ h), fun h => ?_⟩
  have hq : ¬ (cruise_transition inp s t).cruise_paused = true := by
    rw [← hp.1, h]; simp
  have hl := cruise_transition_level inp s t
  unfold apply_cruise
  dsimp only
  rw [if_pos ⟨hflag, hok⟩, if_neg hq, hl]
  generalize calculate_current_for_power cfg inp (cruise_transition inp s t)
    s.assist_level_data.level.target_power_watts = r
  split_ifs <;> dsimp only <;> omega

set_option maxRecDepth 100000 in
/-- Witness of C23 (amended): the Paused cruise level with the rider pedalling and candidate
20 on entry. -/
theorem paused_cruise_zeroes_candidate_witness :
    (sample_cruise.assist_level_data.level.flags &&& ASSIST_FLAG_CRUISE ≠ 0 ∧
      (pedaling_inputs 1000).throttle_ok = true ∧
      (apply_cruise sample_config (pedaling_inputs 1000) sample_cruise 20 0).state.cruise_paused
        = true) ∧
    (apply_cruise sample_config (pedaling_inputs 1000) sample_cruise 20 0).target_current = 0 :=
  ⟨by decide, (paused_cruise_zeroes_candidate sample_config (pedaling_inputs 1000) sample_cruise
    20 0 (by decide) (by decide)).1 (by decide)⟩

set_option maxRecDepth 100000 in
/-- C24 (counterexample to the claim as stated): the shift sensor turns active at 1000 ms and
stays active.  The first call arms the deadline 1600; the call at 1600 ms finds the deadline
passed and returns Idle; on the call at 1605 ms the sensor is still active and was active on
the previous call, and yet a new deadline 2205 is set, the controller is Interrupting again
and the candidate 50 is clamped to 10. -/
theorem shift_window_rearmed_while_held :
    sample_config.USE_SHIFT_SENSOR = true ∧
    sample_config.SHIFT_INTERRUPT_DURATION_MS = 600 ∧
    (sample_shift_armed.shift_sensor_act_ms = 1600 ∧
      sample_shift_armed.shift_sensor_interrupting = true ∧
      sample_shift_armed.shift_sensor_last = true) ∧
    (sample_shift_expired.shift_sensor_act_ms = 1600 ∧
      sample_shift_expired.shift_sensor_interrupting = false ∧
      sample_shift_expired.shift_sensor_last = true) ∧
    (shifting_inputs 1605).shift_sensor_is_activated = true ∧
    (apply_shift_sensor_interrupt sample_config (shifting_inputs 1605) sample_shift_expired
      50).state.shift_sensor_act_ms = 2205 ∧
    (apply_shift_sensor_interrupt sample_config (shifting_inputs 1605) sample_shift_expired
      50).state.shift_sensor_interrupting = true ∧
    (apply_shift_sensor_interrupt sample_config (shifting_inputs 1605) sample_shift_expired
      50).target_current = 10 := by
  decide

/-- C24 (amended): with the shift sensor built in, a shift-interrupt window is armed on every
call on which the sensor is active and either it was inactive on the previous call or the
controller is Idle on entry, and on no other call: exactly on those calls the deadline becomes
now + `SHIFT_INTERRUPT_DURATION_MS` (modulo 2^32).  On a call with the sensor active, active on
the previous call and the controller Interrupting, the deadline is unchanged and the
controller stays Interrupting exactly while the clock is before the deadline.  On every call
made at or after the deadline in force the controller is Idle on return; if the sensor is
still active, the next call arms a new window. -/
theorem shift_window_arming_rule (cfg : Config) (inp : Inputs) (s : State) (c : Nat)
    (huse : cfg.USE_SHIFT_SENSOR = true) :
    ((apply_shift_sensor_interrupt cfg inp s c).state.shift_sensor_act_ms ≠ s.shift_sensor_act_ms →
      inp.shift_sensor_is_activated = true ∧
      (s.shift_sensor_last = false ∨ s.shift_sensor_interrupting = false)) ∧
    (inp.shift_sensor_is_activated = true →
      (s.shift_sensor_last = false ∨ s.shift_sensor_interrupting = false) →
      (apply_shift_sensor_interrupt cfg inp s c).state.shift_sensor_act_ms =
        (inp.system_ms + cfg.SHIFT_INTERRUPT_DURATION_MS % 65536) % 4294967296) ∧
    (inp.shift_sensor_is_activated = true → s.shift_sensor_last = true →
      s.shift_sensor_interrupting = true →
      (apply_shift_sensor_interrupt cfg inp s c).state.shift_sensor_act_ms =
        s.shift_sensor_act_ms ∧
      (apply_shift_sensor_interrupt cfg inp s c).state.shift_sensor_interrupting =
        decide (inp.system_ms < s.shift_sensor_act_ms)) ∧
    (inp.system_ms ≥ (apply_shift_sensor_interrupt cfg inp s c).state.shift_sensor_act_ms →
      (apply_shift_sensor_interrupt cfg inp s c).state.shift_sensor_interrupting = false) := by
  have ha := apply_shift_sensor_interrupt_spec cfg inp s c huse
  have ht := shift_sensor_track_spec cfg inp s
  rw [ha.1, ha.2]
  refine ⟨fun h => ?_, fun h1 h2 => (ht.1 h1 h2).1, fun h1 h2 h3 => ?_, fun h => ?_⟩
  · by_contra hn
    exact h (ht.2 hn).1
  · have hk := ht.2 (fun hh => by rcases hh.2 with h | h <;> simp_all)
    rw [hk.1, hk.2, h3]
    simp
  · simp only [decide_eq_false_iff_not, not_and, not_lt]
    intro _
    exact h

set_option maxRecDepth 100000 in
/-- Witness of C24 (amended): the call at 1605 ms of the held-sensor run, entered Idle. -/
theorem shift_window_arming_rule_witness :
    (sample_config.USE_SHIFT_SENSOR = true ∧
      (shifting_inputs 1605).shift_sensor_is_activated = true ∧
      sample_shift_expired.shift_sensor_interrupting = false) ∧
    (apply_shift_sensor_interrupt sample_config (shifting_inputs 1605) sample_shift_expired
      50).state.shift_sensor_act_ms =
      ((shifting_inputs 1605).system_ms + sample_config.SHIFT_INTERRUPT_DURATION_MS % 65536)
        % 4294967296 :=
  ⟨by decide, (shift_window_arming_rule sample_config (shifting_inputs 1605)
    sample_shift_expired 50 (by decide)).2.1 (by decide) (Or.inr (by decide))⟩

set_option maxRecDepth 100000 in
/-- C25 (counterexample to the claim as stated): with `USE_PRETENSION` set and the wheel at
150.0 rpm (cutoff 128.0 rpm) pretension applies; `apply_pretension` entered with the candidate
50 returns 1, which is below 50 and is not `max(50, 1)`. -/
theorem pretension_overwrites_candidate :
    pretension_config.USE_SPEED_SENSOR = true ∧
    pretension_config.USE_PRETENSION = true ∧
    pretension_config.USE_PRETENSION_ONLY_IN_SPORT_MODE = false ∧
    pretension_init.pretension_cutoff_speed_rpm_x10 = 1280 ∧
    (rolling_inputs 1000).speed_sensor_get_rpm_x10 = 1500 ∧
    apply_pretension pretension_config (rolling_inputs 1000) pretension_init 50 = 1 ∧
    max 50 1 = 50 := by
  decide

/-- C25 (amended): `apply_pretension` sets the candidate to 1 when pretension applies (speed
sensor and pretension built in, sport mode if pretension is restricted to it, wheel speed
above the cutoff) and leaves it unchanged otherwise.  So the candidate on return is greater
than or equal to the candidate on entry for every entry candidate of at most 1, in particular
for the candidate 0 that `app_process` passes; a candidate above 1 is lowered to 1 when
pretension applies. -/
theorem pretension_sets_candidate_to_one (cfg : Config) (inp : Inputs) (s : State) (c : Nat) :
    ((cfg.USE_SPEED_SENSOR = true ∧
        (cfg.USE_PRETENSION = true ∨ cfg.USE_PRETENSION_ONLY_IN_SPORT_MODE = true) ∧
        (cfg.USE_PRETENSION_ONLY_IN_SPORT_MODE = false ∨
          s.operation_mode = cfg.OPERATION_MODE_SPORT) ∧
        inp.speed_sensor_get_rpm_x10 > s.pretension_cutoff_speed_rpm_x10) →
      apply_pretension cfg inp s c = 1) ∧
    (¬ (cfg.USE_SPEED_SENSOR = true ∧
        (cfg.USE_PRETENSION = true ∨ cfg.USE_PRETENSION_ONLY_IN_SPORT_MODE = true) ∧
        (cfg.USE_PRETENSION_ONLY_IN_SPORT_MODE = false ∨
          s.operation_mode = cfg.OPERATION_MODE_SPORT) ∧
        inp.speed_sensor_get_rpm_x10 > s.pretension_cutoff_speed_rpm_x10) →
      apply_pretension cfg inp s c = c) ∧
    (c ≤ 1 → c ≤ apply_pretension cfg inp s c) := by
  generalize hsp : inp.speed_sensor_get_rpm_x10 = sp
  generalize hcut : s.pretension_cutoff_speed_rpm_x10 = cut
  generalize hmode : s.operation_mode = mode
  unfold apply_pretension
  rw [hsp, hcut, hmode]
  cases cfg.USE_SPEED_SENSOR <;> cases cfg.USE_PRETENSION <;>
    cases cfg.USE_PRETENSION_ONLY_IN_SPORT_MODE <;>
    by_cases hm : mode = cfg.OPERATION_MODE_SPORT <;> by_cases hs : sp > cut <;>
    simp [hm, hs]

/-- C26: cruise throttle-return debounce.  For every `apply_cruise` call (cruise flag set,
throttle healthy) entered with the block-throttle-return flag armed: if throttle > 0, the
brake is inactive and there is no backward pedaling beyond `CRUISE_DISENGAGE_PAS_PULSES`, the
paused flag and the block flag are both unchanged on return; and if the block flag is
disarmed on return, the call had throttle = 0 and left the paused flag unchanged. -/
theorem cruise_throttle_return_debounce (cfg : Config) (inp : Inputs) (s : State) (c t : Nat)
    (hflag : s.assist_level_data.level.flags &&& ASSIST_FLAG_CRUISE ≠ 0)
    (hok : inp.throttle_ok = true)
    (harmed : s.cruise_block_throttle_return = true) :
    (t > 0 → inp.brake_is_activated = false →
      ¬ (inp.pas_is_pedaling_backwards = true ∧
        inp.pas_get_pulse_counter > CRUISE_DISENGAGE_PAS_PULSES) →
      (apply_cruise cfg inp s c t).state.cruise_paused = s.cruise_paused ∧
      (apply_cruise cfg inp s c t).state.cruise_block_throttle_return =
        s.cruise_block_throttle_return) ∧
    ((apply_cruise cfg inp s c t).state.cruise_block_throttle_return = false →
      t = 0 ∧ (apply_cruise cfg inp s c t).state.cruise_paused = s.cruise_paused) := by
  have hp := (apply_cruise_paused cfg inp s c t hflag hok).1
  have hb := apply_cruise_block cfg inp s c t hflag hok
  have ht := cruise_transition_armed inp s t harmed
  rw [hp, hb, harmed]
  exact ht

set_option maxRecDepth 100000 in
/-- Witness of C26: cruise engaged (block flag armed by the engaging touch) and the throttle
still held at 60 percent: cruise stays engaged and the flag stays armed. -/
theorem cruise_throttle_return_debounce_witness :
    (sample_cruise_active.assist_level_data.level.flags &&& ASSIST_FLAG_CRUISE ≠ 0 ∧
      (throttle_touch_inputs 200).throttle_ok = true ∧
      sample_cruise_active.cruise_block_throttle_return = true ∧
      sample_cruise_active.cruise_paused = false) ∧
    ((apply_cruise sample_config (throttle_touch_inputs 200) sample_cruise_active 0
        60).state.cruise_paused = sample_cruise_active.cruise_paused ∧
      (apply_cruise sample_config (throttle_touch_inputs 200) sample_cruise_active 0
        60).state.cruise_block_throttle_return =
        sample_cruise_active.cruise_block_throttle_return) :=
  ⟨by decide, (cruise_throttle_return_debounce sample_config (throttle_touch_inputs 200)
    sample_cruise_active 0 60 (by decide) (by decide) (by decide)).1 (by decide) (by decide)
    (by decide)⟩

set_option maxRecDepth 100000 in
/-- C27 (the code at the failing input): build offsets 10 / 0 / 5 percent (empty / full /
ramp-down) give the thresholds cutoff 4200, ramp-down end 4326 and start 4382, and
`LVC_LOW_CURRENT_PERCENT` is 20.  While the battery reads 39.0 V the filtered minimum sinks:
after 21 samples it is 4266 and the clamp percent is 0, after 24 samples it is 4145 (below the
cutoff) and the clamp percent is 96: the interpolated value -160 does not fit the `int8_t` it
is stored in and becomes 96.  So the lower voltage gets the higher allowed current, and at
the cutoff `apply_low_voltage_limit` leaves the candidate 80 unchanged and returns false,
where the claim requires at most 20. -/
theorem lvc_clamp_percent_wraps_below_ramp_end :
    narrow_ramp_config.BATTERY_EMPTY_OFFSET_PERCENT = 10 ∧
    narrow_ramp_config.BATTERY_FULL_OFFSET_PERCENT = 0 ∧
    narrow_ramp_config.LVC_RAMP_DOWN_OFFSET_PERCENT = 5 ∧
    narrow_ramp_config.LVC_LOW_CURRENT_PERCENT = 20 ∧
    narrow_ramp_init.lvc_voltage_x100 = 4200 ∧
    narrow_ramp_init.lvc_ramp_down_end_voltage_x100 = 4326 ∧
    narrow_ramp_init.lvc_ramp_down_start_voltage_x100 = 4382 ∧
    (narrow_ramp_sagging 21).flt_min_bat_volt_x100 = 4266 ∧
    (narrow_ramp_sagging 24).flt_min_bat_volt_x100 = 4145 ∧
    lvc_clamp_percent narrow_ramp_config narrow_ramp_init 4266 = 0 ∧
    lvc_clamp_percent narrow_ramp_config narrow_ramp_init 4145 = 96 ∧
    MAP32 4200 4326 4382 20 100 = -160 ∧
    i8 (-160) = 96 ∧
    (apply_low_voltage_limit narrow_ramp_config (sagging_inputs 4210) (narrow_ramp_sagging 21)
      80).target_current = 0 ∧
    (apply_low_voltage_limit narrow_ramp_config (sagging_inputs 4810) (narrow_ramp_sagging 24)
      80).target_current = 80 ∧
    (apply_low_voltage_limit narrow_ramp_config (sagging_inputs 4810) (narrow_ramp_sagging 24)
      80).ret = false := by
  decide

end BbsFw
